import Mathlib

/-!
# AlterPCB transmission line simulator: simulation orchestration

Shallow embedding of `src/gui/MainWindow.cpp` (sweep generation, the four run
modes and their output tables) and of `src/gui/CustomLineEdit.cpp`.

Conventions of the embedding:

* `real_t` (a C++ `double`) is idealised as an exact rational number, so the
  arithmetic of the model is exact;
* `std::vector<T>` is a `List T`; an access outside a buffer (undefined
  behaviour in C++) is an explicit `Error.undefined_behaviour`;
* a thrown `std::runtime_error` is an `Error.runtime_error`;
* functions of the repository whose source is not part of the sources at hand
  (`rintp`, `FloatScale`, `Json::FromString`, the solver, ...) are parameters
  of the definitions that use them.
-/

namespace TLineSim

/-- The C++ type `real_t`, idealised as exact rationals. -/
abbrev real_t := ℚ

/-- The literal `1e-12` of `MakeSweep`. -/
def sweep_epsilon : real_t := 1 / 1000000000000

/-- `std::vector::clear`. -/
def vector_clear {α : Type} (_v : List α) : List α := []

/-- `std::vector<real_t>::resize(n)`: keeps the first `n` entries and pads with
value-initialised (zero) entries up to length `n`. -/
def vector_resize (v : List real_t) (n : Nat) : List real_t :=
  v.take n ++ List.replicate (n - v.length) 0

/-- The number of values `num` computed on the first line of `MakeSweep`.
`rintp` (rounding of a `real_t` to a `ptrdiff_t`) is a parameter. -/
def MakeSweep_num (rintp : real_t → ℤ) (min max step : real_t) : Nat :=
  (Max.max (rintp (Max.max 0 (max - min) / step + 1 / 2 + sweep_epsilon)) 1).toNat

/-- `MakeSweep(results, min, max, step)`; the first argument is the previous
content of the output vector, the value is its content on return. -/
def MakeSweep (rintp : real_t → ℤ) (results : List real_t) (min max step : real_t) :
    List real_t :=
  let num := MakeSweep_num rintp min max step
  let results := vector_clear results
  let results := vector_resize results num
  (List.range num).foldl
    (fun (r : List real_t) (i : Nat) => r.set i (min + step * (i : real_t))) results

/-- Modelled from the spec: `rintp` is "rounding performed toward nearest
integer"; this is the property of `rintp` the spec states (ties are left
open). -/
def IsNearest (rintp : real_t → ℤ) : Prop :=
  ∀ z : real_t, |(rintp z : real_t) - z| ≤ 1 / 2

/-- Modelled from the spec: a concrete rounding to the nearest integer (ties to
the even neighbour, the default of C `rint`), used to run the model. -/
def rint_even (z : real_t) : ℤ :=
  let f := ⌊z⌋
  if z - f < 1 / 2 then f
  else if 1 / 2 < z - f then f + 1
  else if f % 2 = 0 then f else f + 1

/-! ## `MakeSweep` in the arithmetic of `double` -/

/-- The rounding of the arithmetic of `double` (IEEE 754 binary64, rounding to
the nearest value with 53 significant bits, ties to the even one): `x` lies in
the binade `[2^e, 2^(e+1))` with `e = Int.log 2 |x|`, where the values are the
multiples of `2^(e-52)`. The range of the exponent is not modelled: no overflow
to infinity and no subnormal numbers. -/
def double_round (x : real_t) : real_t :=
  if x = 0 then 0
  else (rint_even (x / 2 ^ (Int.log 2 |x| - 52)) : real_t) * 2 ^ (Int.log 2 |x| - 52)

/-- The number of values `num` computed on the first line of `MakeSweep`, in
the arithmetic of `double`: the subtraction, the division and the two additions
are rounded, and `1e-12` is the `double` nearest to it. -/
def MakeSweep_num_double (rintp : real_t → ℤ) (min max step : real_t) : Nat :=
  (Max.max (rintp (double_round (double_round (double_round
    (Max.max 0 (double_round (max - min)) / step) + 1 / 2) + double_round sweep_epsilon))) 1).toNat

/-- `MakeSweep(results, min, max, step)` in the arithmetic of `double`: the
conversion of `i`, the product and the sum of `min + step * (real_t) i` are
rounded. -/
def MakeSweep_double (rintp : real_t → ℤ) (results : List real_t) (min max step : real_t) :
    List real_t :=
  let num := MakeSweep_num_double rintp min max step
  let results := vector_clear results
  let results := vector_resize results num
  (List.range num).foldl
    (fun (r : List real_t) (i : Nat) =>
      r.set i (double_round (min + double_round (step * double_round (i : real_t))))) results

/-! ## Data model -/

/-- How a run can end abnormally: a thrown `std::runtime_error`, an operation
whose behaviour C++ leaves undefined (an access outside a buffer, the use of an
uninitialised pointer, a `static_cast` to a type the object does not have), or
a failed `assert`. -/
inductive Error where
  | runtime_error (what : String)
  | undefined_behaviour (site : String)
  | assertion_failed (site : String)
  deriving DecidableEq, Repr

deriving instance DecidableEq for Except

/-- The type tags of `VData` read by `FloatFromVData`. -/
inductive VDataType where
  | VDATA_BOOL
  | VDATA_INT
  | VDATA_FLOAT
  | VDATA_STRING
  deriving DecidableEq, Repr

/-- Modelled from the spec: `VData`, the tagged value (boolean, integer, float
or string); its declaration is not among the sources. A float is stored in its
scaled form. -/
inductive VData where
  | ofBool (b : Bool)
  | ofInt (i : ℤ)
  | ofFloat (x : real_t)
  | ofString (s : String)
  deriving DecidableEq

/-- `VData::GetType`. -/
def VData.GetType : VData → VDataType
  | .ofBool _ => .VDATA_BOOL
  | .ofInt _ => .VDATA_INT
  | .ofFloat _ => .VDATA_FLOAT
  | .ofString _ => .VDATA_STRING

/-- `EnumToString` on the type tags. -/
def EnumToString : VDataType → String
  | .VDATA_BOOL => "bool"
  | .VDATA_INT => "int"
  | .VDATA_FLOAT => "float"
  | .VDATA_STRING => "string"

/-- The mesh a solver may leave in the context; only its identity matters. -/
structure Mesh where
  id : Nat
  deriving DecidableEq

/-- The material database, as far as `MainWindow` reads it: the names of the
conductors and of the dielectrics. -/
structure MaterialDatabase where
  conductors : List String
  dielectrics : List String
  deriving DecidableEq

/-- `TLineContext`: the data handed to the solver and filled by it.
`m_progress_callback` records whether a progress callback is installed. -/
structure TLineContext where
  m_material_database : Option MaterialDatabase
  m_parameters : List (String × VData)
  m_frequencies : List real_t
  m_results : List real_t
  m_output_mesh : Option Mesh
  m_progress_callback : Bool
  deriving DecidableEq

/-- A default-constructed `TLineContext`. -/
def TLineContext.empty : TLineContext :=
  { m_material_database := none, m_parameters := [], m_frequencies := [], m_results := [],
    m_output_mesh := none, m_progress_callback := false }

/-- `TLineParameterType`, without its `TLINE_PARAMETERTYPE_COUNT` sentinel (the
source asserts that it never occurs). -/
inductive TLineParameterType where
  | TLINE_PARAMETERTYPE_BOOL
  | TLINE_PARAMETERTYPE_REAL
  | TLINE_PARAMETERTYPE_MATERIAL_CONDUCTOR
  | TLINE_PARAMETERTYPE_MATERIAL_DIELECTRIC
  deriving DecidableEq, Repr

/-- `TLineParameter`: the definition of one parameter of a line type. -/
structure TLineParameter where
  m_name : String
  m_type : TLineParameterType
  m_default_value : VData
  m_unit_mm : Bool
  m_separator : Bool
  deriving DecidableEq

/-- What one call of the solver `m_simulate` does: the arguments with which it
calls the progress callback of the context, in order, and then either the
context on return or the exception it throws. -/
structure SimulateResult where
  progress : List Nat
  outcome : Except Error TLineContext

/-- `TLineType`: a kind of transmission line with its solver. -/
structure TLineType where
  m_description : String
  m_parameters : List TLineParameter
  m_modes : List String
  m_simulate : TLineContext → SimulateResult

/-- A root finder seen from its caller: it returns a root, throws, or asks for
the residual at `x` and goes on from the value it gets. -/
inductive RootSearch where
  | done (root : real_t)
  | fail (e : Error)
  | eval (x : real_t) (next : real_t → RootSearch)

/-- The parts of the repository and of its libraries that the modelled code
uses and whose source is not at hand; they are parameters of the model. -/
structure Externals where
  /-- `clamp<size_t>(value, low, high)`. -/
  clamp : Nat → Nat → Nat → Nat
  /-- `rintp`: rounds a `real_t` to a `ptrdiff_t`. -/
  rintp : real_t → ℤ
  /-- `FloatScale`: physical value to stored form. -/
  FloatScale : real_t → real_t
  /-- `FloatUnscale`: stored form to physical value. -/
  FloatUnscale : real_t → real_t
  /-- `Json::FromString`: parses a text into a value, or throws. -/
  Json_FromString : String → Except Error VData
  /-- `CanonicalName` followed by `StringRegistry::NewTag`. -/
  CanonicalName : String → String
  /-- `TLINERESULT_COUNT`: result fields per mode. -/
  TLINERESULT_COUNT : Nat
  /-- `TLINERESULT_NAMES[j]`. -/
  TLINERESULT_NAMES : Nat → String
  /-- `QString::toDouble`. -/
  QString_toDouble : String → real_t
  /-- `QString::number`. -/
  QString_number : real_t → String
  /-- `FinitePositive`. -/
  FinitePositive : real_t → Bool
  /-- `FindRootRelative(f, x0, relative step, tolerance, iterations)`, the
  residual function `f` being supplied by the caller as the search unfolds. -/
  FindRootRelative : real_t → real_t → real_t → real_t → RootSearch

/-! ## Widgets -/

/-- A `QPushButton`: its caption and whether it is checked. -/
structure QPushButton where
  text : String
  checked : Bool
  deriving DecidableEq

/-- `CustomLineEdit`: the text of its `QLineEdit`, its unit button (`none` when
the constructor returned before creating one, which leaves the pointer
`button` uninitialised) and `originalText`. -/
structure CustomLineEdit where
  lineEdit : String
  button : Option QPushButton
  originalText : String
  deriving DecidableEq

/-- `CustomLineEdit::CustomLineEdit(enableUnitButton, parent)`. -/
def CustomLineEdit.new (enableUnitButton : Bool) : CustomLineEdit :=
  let lineEdit := "filechooser_lineedit"
  if !enableUnitButton then
    { lineEdit := lineEdit, button := none, originalText := "" }
  else
    { lineEdit := lineEdit, button := some { text := "mm", checked := false },
      originalText := "" }

/-- `CustomLineEdit::SetText`. -/
def CustomLineEdit.SetText (w : CustomLineEdit) (text : String) : CustomLineEdit :=
  { w with originalText := text, lineEdit := text }

/-- `CustomLineEdit::GetMMValue`. -/
def CustomLineEdit.GetMMValue (ext : Externals) (w : CustomLineEdit) : Except Error String :=
  let result := w.lineEdit
  match w.button with
  | none => .error (.undefined_behaviour "CustomLineEdit::button")
  | some button =>
    if button.checked then
      let value := ext.QString_toDouble result
      .ok (ext.QString_number (value * (3937008 / 100000)))
    else
      .ok result

/-- `CustomLineEdit::GetText`. -/
def CustomLineEdit.GetText (ext : Externals) (w : CustomLineEdit) : Except Error String :=
  w.GetMMValue ext

/-- `CustomLineEdit::UpdateUnitText`, the slot run when the button is toggled. -/
def CustomLineEdit.UpdateUnitText (ext : Externals) (w : CustomLineEdit) (checked : Bool) :
    Except Error CustomLineEdit :=
  let value := ext.QString_toDouble w.lineEdit
  match w.button with
  | none => .error (.undefined_behaviour "CustomLineEdit::button")
  | some button =>
    if checked then
      .ok { w with button := some { button with text := "mil" },
                   lineEdit := ext.QString_number (value * (254 / 10000)) }
    else
      .ok { w with button := some { button with text := "mm" },
                   lineEdit := ext.QString_number (value * (3937008 / 100000)) }

/-- The unit button changes to the state `checked`: Qt stores the state and
emits `toggled(checked)`, the signal the constructor connected to
`UpdateUnitText`. -/
def CustomLineEdit.button_toggled (ext : Externals) (w : CustomLineEdit) (checked : Bool) :
    Except Error CustomLineEdit :=
  match w.button with
  | none => .error (.undefined_behaviour "CustomLineEdit::button")
  | some button =>
    CustomLineEdit.UpdateUnitText ext
      { w with button := some { button with checked := checked } } checked

/-- The widgets `m_widget_parameters` can point to, by dynamic type. -/
inductive Widget where
  | QCheckBox (isChecked : Bool)
  | CustomLineEdit (w : CustomLineEdit)
  | QComboBox (currentText : String)
  | QLineEdit (text : String)
  deriving DecidableEq

/-- A `QComboBox` with item data: the items (text, data) and `currentIndex`. -/
structure QComboBoxData where
  items : List (String × ℤ)
  currentIndex : ℤ
  deriving DecidableEq

/-- `combobox->itemData(combobox->currentIndex()).toInt()`: the data of the
current item, and `0` when the index names no item (an invalid `QVariant`). -/
def QComboBoxData.currentData (c : QComboBoxData) : ℤ :=
  if c.currentIndex < 0 then 0
  else match c.items[c.currentIndex.toNat]? with
    | some (_, d) => d
    | none => 0

/-- `(size_t)` applied to an `int`. -/
def size_t_of_int (i : ℤ) : Nat := (i % 18446744073709551616).toNat

/-- The state of `MainWindow` the simulation reads and writes. `m_tline_type`
is the active line type `g_tline_types[m_tline_type]`. -/
structure MainWindow where
  m_tline_type : TLineType
  m_material_database : MaterialDatabase
  m_widget_parameters : List Widget
  m_lineedit_frequency : String
  m_lineedit_frequency_sweep_min : String
  m_lineedit_frequency_sweep_max : String
  m_lineedit_frequency_sweep_step : String
  m_lineedit_frequency_sweep_file : String
  m_combobox_parameter_sweep_parameter : QComboBoxData
  m_lineedit_parameter_sweep_min : String
  m_lineedit_parameter_sweep_max : String
  m_lineedit_parameter_sweep_step : String
  m_lineedit_parameter_sweep_file : String
  m_combobox_parameter_tune_parameter : QComboBoxData
  m_combobox_parameter_tune_target_result : ℤ
  m_lineedit_parameter_tune_target_value : String
  m_lineedit_results : List String
  m_meshviewer : Option Mesh

/-! ## Effects -/

/-- What is written to a `std::ofstream` by one `<<`. -/
inductive Tok where
  | str (s : String)
  | chr (c : Char)
  | real (x : real_t)
  | endl
  deriving DecidableEq

/-- The state a run acts on: the window; the cancel flag of the progress
dialog, given by what its `n`-th read returns, and the number of reads so far;
which file names can be opened for writing; and what the run has done so far:
the contexts handed to the solver, the values stored to `task_progress`, and
the output file (`none` until it is opened). -/
structure Sim where
  window : MainWindow
  task_canceled : Nat → Bool
  canceled_reads : Nat
  file_writable : String → Bool
  solver_calls : List TLineContext
  task_progress : List ℤ
  file : Option (List Tok)

/-- A computation on the state that returns a value or throws; the state
survives a throw. -/
def Run (α : Type) : Type := Sim → Except Error α × Sim

/-- Returning a value. -/
def Run.pure {α : Type} (a : α) : Run α := fun s => (.ok a, s)

/-- Sequencing; an exception ends the sequence. -/
def Run.bind {α β : Type} (x : Run α) (f : α → Run β) : Run β := fun s =>
  match x s with
  | (.ok a, s') => f a s'
  | (.error e, s') => (.error e, s')

instance : Monad Run where
  pure := Run.pure
  bind := Run.bind

/-- `throw`. -/
def Run.throw {α : Type} (e : Error) : Run α := fun s => (.error e, s)

/-- A value or exception computed without effect. -/
def Run.lift {α : Type} (x : Except Error α) : Run α := fun s => (x, s)

/-- `for(size_t i = start; i < start + count; ++i) body`, the variables the
body assigns being passed along. -/
def forLoop {β : Type} (body : Nat → β → Run β) : (count : Nat) → (start : Nat) → β → Run β
  | 0, _, b => Run.pure b
  | n + 1, i, b => Run.bind (body i b) (fun b' => forLoop body n (i + 1) b')

/-! ## Primitive effects -/

/-- Reads the window. -/
def getWindow : Run MainWindow := fun s => (.ok s.window, s)

/-- Updates the window. -/
def modifyWindow (f : MainWindow → MainWindow) : Run Unit := fun s =>
  (.ok (), { s with window := f s.window })

/-- A store to the atomic `task_progress`. -/
def store_task_progress (v : ℤ) : Run Unit := fun s =>
  (.ok (), { s with task_progress := s.task_progress ++ [v] })

/-- A read of the atomic `task_canceled`. -/
def load_task_canceled : Run Bool := fun s =>
  (.ok (s.task_canceled s.canceled_reads), { s with canceled_reads := s.canceled_reads + 1 })

/-- `f.open(filename, out | trunc)` followed by `!f.fail()`. -/
def ofstream_open (filename : String) : Run Bool := fun s =>
  if s.file_writable filename then (.ok true, { s with file := some [] }) else (.ok false, s)

/-- `f << ...`: appends to the open file. -/
def ofstream_write (toks : List Tok) : Run Unit := fun s =>
  (.ok (), { s with file := s.file.map (fun content => content ++ toks) })

/-- Invokes the progress callback on each reported value in turn. -/
def report_progress (callback : Nat → Run Unit) : List Nat → Run Unit
  | [] => Run.pure ()
  | p :: ps => Run.bind (callback p) (fun _ => report_progress callback ps)

/-- `tline_type.m_simulate(context)`: the call is recorded; if the context has
a progress callback the solver's reports go to `callback`, whose exception
ends the call; otherwise the solver's own outcome is the outcome. -/
def call_simulate (tline_type : TLineType) (callback : Nat → Run Unit)
    (context : TLineContext) : Run TLineContext := do
  (fun s => (.ok (), { s with solver_calls := s.solver_calls ++ [context] }) : Run Unit)
  let r := tline_type.m_simulate context
  if context.m_progress_callback then
    report_progress callback r.progress
  Run.lift r.outcome

/-- Modelled from the spec: `QProgressDialogThreaded::execThreaded`, which is
not among the sources. It runs the work to its end and hands an exception of
the work to its caller. -/
def execThreaded {α : Type} (work : Run α) : Run α := work

/-! ## Conversions -/

/-- `FloatFromVData`. -/
def FloatFromVData (ext : Externals) (data : VData) : Except Error real_t :=
  match data with
  | .ofInt i => .ok (i : real_t)
  | .ofFloat x => .ok (ext.FloatUnscale x)
  | _ => .error (.runtime_error
      ("Expected float, got " ++ EnumToString data.GetType ++ " instead."))

/-- `FloatFromString`. -/
def FloatFromString (ext : Externals) (str : String) : Except Error real_t :=
  match ext.Json_FromString str with
  | .ok data => FloatFromVData ext data
  | .error e => .error e

/-- `std::copy_n(src.data(), src.size(), dst.data() + offset)`. -/
def copy_n (src dst : List real_t) (offset : Nat) : Except Error (List real_t) :=
  if offset + src.length ≤ dst.length then
    .ok (dst.take offset ++ src ++ dst.drop (offset + src.length))
  else
    .error (.undefined_behaviour "std::copy_n")

/-- `context.m_parameters[param_index].Value() = value`. -/
def set_parameter (context : TLineContext) (param_index : Nat) (value : VData) :
    Except Error TLineContext :=
  match context.m_parameters[param_index]? with
  | some (key, _) =>
    .ok { context with m_parameters := context.m_parameters.set param_index (key, value) }
  | none => .error (.undefined_behaviour "m_parameters[param_index]")

/-! ## `MainWindow`: initialisation and display -/

/-- The `switch` of `SimulationInit`: the value of parameter `i`, read from its
widget; each `static_cast` is defined only on a widget of that type. -/
def SimulationInit_value (ext : Externals) (w : MainWindow) (i : Nat)
    (parameter : TLineParameter) : Except Error VData :=
  match parameter.m_type with
  | .TLINE_PARAMETERTYPE_BOOL =>
    match w.m_widget_parameters[i]? with
    | some (.QCheckBox isChecked) => .ok (.ofBool isChecked)
    | _ => .error (.undefined_behaviour "static_cast<QCheckBox*>")
  | .TLINE_PARAMETERTYPE_REAL =>
    match w.m_widget_parameters[i]? with
    | some (.CustomLineEdit lineedit_value) =>
      match lineedit_value.GetText ext with
      | .ok text => ext.Json_FromString text
      | .error e => .error e
    | _ => .error (.undefined_behaviour "static_cast<CustomLineEdit*>")
  | .TLINE_PARAMETERTYPE_MATERIAL_CONDUCTOR | .TLINE_PARAMETERTYPE_MATERIAL_DIELECTRIC =>
    match w.m_widget_parameters[i]? with
    | some (.QComboBox currentText) => .ok (.ofString currentText)
    | _ => .error (.undefined_behaviour "static_cast<QComboBox*>")

/-- One iteration of the loop of `SimulationInit`. -/
def SimulationInit_body (ext : Externals) (w : MainWindow) (i : Nat)
    (context : TLineContext) : Run TLineContext :=
  match w.m_tline_type.m_parameters[i]? with
  | none => Run.throw (.undefined_behaviour "m_parameters[i]")
  | some parameter => do
    let key := ext.CanonicalName parameter.m_name
    let value ← Run.lift (SimulationInit_value ext w i parameter)
    pure { context with m_parameters := context.m_parameters ++ [(key, value)] }

/-- `MainWindow::SimulationInit`. -/
def SimulationInit (ext : Externals) (context : TLineContext) : Run TLineContext := do
  let w ← getWindow
  let context := { context with m_material_database := some w.m_material_database }
  forLoop (SimulationInit_body ext w) w.m_tline_type.m_parameters.length 0 context

/-- `m_lineedit_results[index]->setText(text)`. -/
def set_lineedit_result (index : Nat) (text : String) : Run Unit := do
  let w ← getWindow
  if index < w.m_lineedit_results.length then
    modifyWindow (fun w => { w with m_lineedit_results := w.m_lineedit_results.set index text })
  else
    Run.throw (.undefined_behaviour "m_lineedit_results")

/-- `MainWindow::SimulationShowResult`. -/
def SimulationShowResult (ext : Externals) (context : TLineContext) : Run TLineContext := do
  let w ← getWindow
  let tline_type := w.m_tline_type
  if context.m_frequencies.length ≠ 1 then
    Run.throw (.assertion_failed "m_frequencies.size() == 1")
  if context.m_results.length
      ≠ ext.TLINERESULT_COUNT * tline_type.m_modes.length * context.m_frequencies.length then
    Run.throw (.assertion_failed "m_results.size()")
  let offset := ext.TLINERESULT_COUNT * tline_type.m_modes.length
    * (context.m_frequencies.length - 1)
  forLoop (fun i _ =>
      forLoop (fun j _ =>
          match context.m_results[offset + (ext.TLINERESULT_COUNT * i + j)]? with
          | some value =>
            set_lineedit_result (ext.TLINERESULT_COUNT * i + j) (ext.QString_number value)
          | none => Run.throw (.undefined_behaviour "result_values"))
        ext.TLINERESULT_COUNT 0 ())
    tline_type.m_modes.length 0 ()
  modifyWindow (fun w => { w with m_meshviewer := context.m_output_mesh })
  pure { context with m_output_mesh := none }

/-! ## Output table -/

/-- The header line: `f << first`, then for each mode `i` and result `j`
`f << '\t' << m_modes[i] << ' ' << TLINERESULT_NAMES[j]`, then `f << std::endl`. -/
def write_header (ext : Externals) (tline_type : TLineType) (first : String) : Run Unit := do
  ofstream_write [.str first]
  forLoop (fun i _ =>
      forLoop (fun j _ =>
          match tline_type.m_modes[i]? with
          | some mode =>
            ofstream_write [.chr '\t', .str mode, .chr ' ', .str (ext.TLINERESULT_NAMES j)]
          | none => Run.throw (.undefined_behaviour "m_modes[i]"))
        ext.TLINERESULT_COUNT 0 ())
    tline_type.m_modes.length 0 ()
  ofstream_write [.endl]

/-- The body: for each `i`, `f << values[i]`, then `f << '\t' << results[j]`
for each `j` below the stride, `results` starting at `stride * i` in `buffer`,
then `f << std::endl`. -/
def write_body (stride : Nat) (values buffer : List real_t) : Run Unit :=
  forLoop (fun i _ => do
      match values[i]? with
      | some v => ofstream_write [.real v]
      | none => Run.throw (.undefined_behaviour "values[i]")
      forLoop (fun j _ =>
          match buffer[stride * i + j]? with
          | some r => ofstream_write [.chr '\t', .real r]
          | none => Run.throw (.undefined_behaviour "results[j]"))
        stride 0 ()
      ofstream_write [.endl])
    values.length 0 ()

/-- Opening the output file, with the failure the source throws. -/
def open_output (filename : String) : Run Unit := do
  let opened ← ofstream_open filename
  if !opened then
    Run.throw (.runtime_error ("Could not open file '" ++ filename ++ "' for writing."))

/-! ## The four run modes -/

/-- A callback that is never invoked: the contexts of the modes that install
none have `m_progress_callback = false`. -/
def no_callback (_progress : Nat) : Run Unit := Run.pure ()

/-- `MainWindow::SimulateSingleFrequency`. -/
def SimulateSingleFrequency (ext : Externals) : Run Unit := do
  let w ← getWindow
  let tline_type := w.m_tline_type
  -- initialize context
  let context ← SimulationInit ext TLineContext.empty
  -- set frequency
  let frequency ← Run.lift (FloatFromString ext w.m_lineedit_frequency)
  let context := { context with m_frequencies := [frequency * 1000000000] }
  -- simulate
  let context ← call_simulate tline_type no_callback context
  -- show result
  let _ ← SimulationShowResult ext context

/-- The progress callback installed by `SimulateFrequencySweep`. -/
def FrequencySweep_callback (progress : Nat) : Run Unit := do
  store_task_progress (progress : ℤ)
  if (← load_task_canceled) then
    Run.throw (.runtime_error "Frequency sweep canceled by user.")

/-- The work `SimulateFrequencySweep` passes to `execThreaded`: it installs the
progress callback and calls the solver. -/
def FrequencySweep_task (tline_type : TLineType) (context : TLineContext) :
    Run TLineContext := do
  let context := { context with m_progress_callback := true }
  call_simulate tline_type FrequencySweep_callback context

/-- The end of `SimulateFrequencySweep`: open the output file, write the
header, write the body. -/
def FrequencySweep_output (ext : Externals) (tline_type : TLineType) (filename : String)
    (context : TLineContext) : Run Unit := do
  -- open output file
  open_output filename
  -- write header
  write_header ext tline_type "Frequency"
  -- write body
  write_body (ext.TLINERESULT_COUNT * tline_type.m_modes.length) context.m_frequencies
    context.m_results

/-- `MainWindow::SimulateFrequencySweep`. -/
def SimulateFrequencySweep (ext : Externals) : Run Unit := do
  let w ← getWindow
  let tline_type := w.m_tline_type
  -- initialize context
  let context ← SimulationInit ext TLineContext.empty
  -- generate sweep
  let freq_min ← Run.lift (FloatFromString ext w.m_lineedit_frequency_sweep_min)
  let freq_min := freq_min * 1000000000
  let freq_max ← Run.lift (FloatFromString ext w.m_lineedit_frequency_sweep_max)
  let freq_max := freq_max * 1000000000
  let freq_step ← Run.lift (FloatFromString ext w.m_lineedit_frequency_sweep_step)
  let freq_step := freq_step * 1000000000
  let context :=
    { context with
      m_frequencies := MakeSweep ext.rintp context.m_frequencies freq_min freq_max freq_step }
  -- simulate
  let context ← execThreaded (FrequencySweep_task tline_type context)
  -- open output file, write header, write body
  FrequencySweep_output ext tline_type w.m_lineedit_frequency_sweep_file context

/-- One iteration of the loop of `SimulateParameterSweep`; the variables it
assigns are `context` and `combined_results`. -/
def ParameterSweep_body (ext : Externals) (tline_type : TLineType)
    (sweep_values : List real_t) (param_index : Nat) (i : Nat)
    (vars : TLineContext × List real_t) : Run (TLineContext × List real_t) := do
  let (context, combined_results) := vars
  let value ← match sweep_values[i]? with
    | some value => pure value
    | none => Run.throw (.undefined_behaviour "sweep_values[i]")
  let context ← Run.lift (set_parameter context param_index (.ofFloat (ext.FloatScale value)))
  let context ← call_simulate tline_type no_callback context
  let combined_results ← Run.lift (copy_n context.m_results combined_results
    (ext.TLINERESULT_COUNT * tline_type.m_modes.length * i))
  store_task_progress ((i : ℤ) + 1)
  if (← load_task_canceled) then
    Run.throw (.runtime_error "Parameter sweep canceled by user.")
  pure (context, combined_results)

/-- The work `SimulateParameterSweep` passes to `execThreaded`: the loop over
the sweep values. -/
def ParameterSweep_task (ext : Externals) (tline_type : TLineType)
    (sweep_values : List real_t) (param_index : Nat) (context : TLineContext)
    (combined_results : List real_t) : Run (TLineContext × List real_t) :=
  forLoop (ParameterSweep_body ext tline_type sweep_values param_index)
    sweep_values.length 0 (context, combined_results)

/-- The end of `SimulateParameterSweep`: open the output file, write the
header, write the body. -/
def ParameterSweep_output (ext : Externals) (tline_type : TLineType) (filename : String)
    (sweep_values : List real_t) (param_index : Nat) (combined_results : List real_t) :
    Run Unit := do
  -- open output file
  open_output filename
  -- write header
  match tline_type.m_parameters[param_index]? with
  | some parameter => write_header ext tline_type parameter.m_name
  | none => Run.throw (.undefined_behaviour "m_parameters[param_index]")
  -- write body
  write_body (ext.TLINERESULT_COUNT * tline_type.m_modes.length) sweep_values combined_results

/-- `MainWindow::SimulateParameterSweep`. -/
def SimulateParameterSweep (ext : Externals) : Run Unit := do
  let w ← getWindow
  let tline_type := w.m_tline_type
  -- initialize context
  let context ← SimulationInit ext TLineContext.empty
  -- set frequency
  let frequency ← Run.lift (FloatFromString ext w.m_lineedit_frequency)
  let context := { context with m_frequencies := [frequency * 1000000000] }
  -- generate sweep
  let value_min ← Run.lift (FloatFromString ext w.m_lineedit_parameter_sweep_min)
  let value_max ← Run.lift (FloatFromString ext w.m_lineedit_parameter_sweep_max)
  let value_step ← Run.lift (FloatFromString ext w.m_lineedit_parameter_sweep_step)
  let sweep_values := MakeSweep ext.rintp [] value_min value_max value_step
  -- prepare input and output
  let param_index := size_t_of_int w.m_combobox_parameter_sweep_parameter.currentData
  let combined_results := vector_resize []
    (ext.TLINERESULT_COUNT * tline_type.m_modes.length * sweep_values.length)
  -- simulate
  let (_, combined_results) ← execThreaded
    (ParameterSweep_task ext tline_type sweep_values param_index context combined_results)
  -- open output file, write header, write body
  ParameterSweep_output ext tline_type w.m_lineedit_parameter_sweep_file sweep_values
    param_index combined_results

/-- The residual function handed to `FindRootRelative` by
`SimulateParameterTune`; it assigns `context`. -/
def ParameterTune_residual (ext : Externals) (tline_type : TLineType)
    (param_index result_index : Nat) (target_value : real_t) (x : real_t)
    (context : TLineContext) : Run (real_t × TLineContext) := do
  let context ← Run.lift (set_parameter context param_index (.ofFloat (ext.FloatScale x)))
  let context ← call_simulate tline_type no_callback context
  match context.m_results[result_index]? with
  | some result => pure (result - target_value, context)
  | none => Run.throw (.undefined_behaviour "m_results[result_index]")

/-- Runs a root search against a residual function. -/
def RootSearch.run (f : real_t → TLineContext → Run (real_t × TLineContext)) :
    RootSearch → TLineContext → Run (real_t × TLineContext)
  | .done root, context => Run.pure (root, context)
  | .fail e, _ => Run.throw e
  | .eval x next, context =>
    Run.bind (f x context) (fun r => RootSearch.run f (next r.1) r.2)

/-- `MainWindow::SimulateParameterTune`. -/
def SimulateParameterTune (ext : Externals) : Run Unit := do
  let w ← getWindow
  let tline_type := w.m_tline_type
  -- initialize context
  let context ← SimulationInit ext TLineContext.empty
  -- set frequency
  let frequency ← Run.lift (FloatFromString ext w.m_lineedit_frequency)
  let context := { context with m_frequencies := [frequency * 1000000000] }
  -- get parameter
  let param_index := size_t_of_int w.m_combobox_parameter_tune_parameter.currentData
  -- get target result
  let result_index := ext.clamp (size_t_of_int w.m_combobox_parameter_tune_target_result) 0
    (size_t_of_int ((ext.TLINERESULT_COUNT * tline_type.m_modes.length : Nat) - 1))
  let target_value ← Run.lift (FloatFromString ext w.m_lineedit_parameter_tune_target_value)
  -- simulate
  let initial_value ← match context.m_parameters[param_index]? with
    | some (_, value) => Run.lift (FloatFromVData ext value)
    | none => Run.throw (.undefined_behaviour "m_parameters[param_index]")
  let initial_value ←
    if !ext.FinitePositive initial_value then
      match tline_type.m_parameters[param_index]? with
      | some parameter => Run.lift (FloatFromVData ext parameter.m_default_value)
      | none => Run.throw (.undefined_behaviour "m_parameters[param_index]")
    else pure initial_value
  let (root_value, context) ← RootSearch.run
    (ParameterTune_residual ext tline_type param_index result_index target_value)
    (ext.FindRootRelative initial_value (1 / 100000000) (target_value * (1 / 100000000))
      1000000)
    context
  -- write the result back
  match w.m_widget_parameters[param_index]? with
  | some (.QLineEdit _) =>
    modifyWindow (fun w => { w with
      m_widget_parameters :=
        w.m_widget_parameters.set param_index (.QLineEdit (ext.QString_number root_value)) })
  | _ => Run.throw (.undefined_behaviour "static_cast<QLineEdit*>")
  -- show result
  let _ ← SimulationShowResult ext context

/-- The simulation types of the selector. -/
inductive SimulationType where
  | SIMULATION_SINGLE_FREQUENCY
  | SIMULATION_FREQUENCY_SWEEP
  | SIMULATION_PARAMETER_SWEEP
  | SIMULATION_PARAMETER_TUNE
  deriving DecidableEq, Repr

/-- The `switch` of `MainWindow::OnSimulate`. -/
def Simulate (ext : Externals) : SimulationType → Run Unit
  | .SIMULATION_SINGLE_FREQUENCY => SimulateSingleFrequency ext
  | .SIMULATION_FREQUENCY_SWEEP => SimulateFrequencySweep ext
  | .SIMULATION_PARAMETER_SWEEP => SimulateParameterSweep ext
  | .SIMULATION_PARAMETER_TUNE => SimulateParameterTune ext

/-- The state in which a run starts: nothing done yet. -/
def Sim.start (window : MainWindow) (task_canceled : Nat → Bool)
    (file_writable : String → Bool) : Sim :=
  { window := window, task_canceled := task_canceled, canceled_reads := 0,
    file_writable := file_writable, solver_calls := [], task_progress := [], file := none }

/-! ## Auxiliary definitions of the proofs -/

/-- The state after an iteration of the parameter sweep that ended after its
solver call: one more recorded call. -/
def Sim.called (s : Sim) (c : TLineContext) : Sim :=
  { s with solver_calls := s.solver_calls ++ [c] }

/-- The state after an iteration `i` of the parameter sweep that got to its
end: one more recorded call, one more progress value, one more read of the
cancel flag. -/
def Sim.ticked (s : Sim) (c : TLineContext) (i : Nat) : Sim :=
  { s with solver_calls := s.solver_calls ++ [c],
           task_progress := s.task_progress ++ [(i : ℤ) + 1],
           canceled_reads := s.canceled_reads + 1 }

/-- The state after appending tokens to the output file (if it is open). -/
def Sim.appended (s : Sim) (toks : List Tok) : Sim :=
  { s with file := s.file.map (fun content => content ++ toks) }

/-- The tokens the header loops write for mode `i`. -/
def header_mode_tokens (ext : Externals) (tline_type : TLineType) (i : Nat) : List Tok :=
  (List.range ext.TLINERESULT_COUNT).flatMap (fun j =>
    [.chr '\t', .str (tline_type.m_modes.getD i ""), .chr ' ', .str (ext.TLINERESULT_NAMES j)])

/-- The tokens of the header line. -/
def header_tokens (ext : Externals) (tline_type : TLineType) (first : String) : List Tok :=
  [.str first]
    ++ (List.range tline_type.m_modes.length).flatMap (header_mode_tokens ext tline_type)
    ++ [.endl]

/-- The tokens of data line `i`. -/
def row_tokens (stride : Nat) (values buffer : List real_t) (i : Nat) : List Tok :=
  [.real (values.getD i 0)]
    ++ (List.range stride).flatMap (fun j => [.chr '\t', .real (buffer.getD (stride * i + j) 0)])
    ++ [.endl]

/-- The lines of a file: the runs of tokens ended by `endl`. -/
def linesOf : List Tok → List (List Tok)
  | [] => []
  | t :: ts =>
    if t = .endl then [] :: linesOf ts
    else match linesOf ts with
      | [] => [[t]]
      | l :: ls => (t :: l) :: ls

/-- The cells of a line: the runs of tokens separated by tab characters. -/
def cellsOf : List Tok → List (List Tok)
  | [] => [[]]
  | t :: ts =>
    if t = .chr '\t' then [] :: cellsOf ts
    else match cellsOf ts with
      | [] => [[t]]
      | c :: cs => (t :: c) :: cs

/-- The table of a sweep, as the output format is described: one header line
and one line per swept value; the header has the name of the independent
variable and then, mode-major and field-minor, the cells "mode name"; line
`k` has the `k`-th value and then the entries `M*F*k + c` of the buffer. -/
def IsSweepTable (modes : List String) (F : Nat) (names : Nat → String) (first : String)
    (values buffer : List real_t) (file : List Tok) : Prop :=
  (linesOf file).length = 1 + values.length ∧
  (∃ header, (linesOf file)[0]? = some header ∧
    (cellsOf header).length = 1 + modes.length * F ∧
    (cellsOf header)[0]? = some [Tok.str first] ∧
    ∀ i j, i < modes.length → j < F → ∃ mode, modes[i]? = some mode ∧
      (cellsOf header)[1 + F * i + j]? = some [Tok.str mode, Tok.chr ' ', Tok.str (names j)]) ∧
  ∀ k, k < values.length → ∃ line value, (linesOf file)[1 + k]? = some line ∧
    values[k]? = some value ∧
    (cellsOf line).length = 1 + modes.length * F ∧
    (cellsOf line)[0]? = some [Tok.real value] ∧
    ∀ c, c < modes.length * F → ∃ r, buffer[modes.length * F * k + c]? = some r ∧
      (cellsOf line)[1 + c]? = some [Tok.real r]

/-- The header line without its `endl`. -/
def header_line (ext : Externals) (tline_type : TLineType) (first : String) : List Tok :=
  [Tok.str first] ++
    ((List.range tline_type.m_modes.length).flatMap (fun i =>
      (List.range ext.TLINERESULT_COUNT).map (fun j =>
        [Tok.str (tline_type.m_modes.getD i ""), Tok.chr ' ',
          Tok.str (ext.TLINERESULT_NAMES j)]))).flatMap (fun c => Tok.chr '\t' :: c)

/-- Data line `k` without its `endl`. -/
def row_line (stride : Nat) (values buffer : List real_t) (k : Nat) : List Tok :=
  [Tok.real (values.getD k 0)] ++
    ((List.range stride).map (fun c => [Tok.real (buffer.getD (stride * k + c) 0)])).flatMap
      (fun c => Tok.chr '\t' :: c)

/-- A computation that records no solver call and stores no progress value. -/
def Run.KeepsLog {α : Type} (x : Run α) : Prop :=
  ∀ s, (x s).2.solver_calls = s.solver_calls ∧ (x s).2.task_progress = s.task_progress

/-! ## Environments to run the model with -/

/-- A `clamp` to run the model with. -/
def stub_clamp (v lo hi : Nat) : Nat := if v < lo then lo else if hi < v then hi else v

/-- A parser to run the model with: it knows a few texts; floats are stored
scaled by 1000. -/
def stub_parse (text : String) : Except Error VData :=
  if text = "1.0" then .ok (.ofFloat 1000)
  else if text = "2.0" then .ok (.ofFloat 2000)
  else if text = "0.1" then .ok (.ofFloat 100)
  else if text = "7" then .ok (.ofInt 7)
  else if text = "true" then .ok (.ofBool true)
  else .error (.runtime_error "JSON parse error")

/-- Externals to run the model with: one result field per mode. -/
def stub_ext : Externals :=
  { clamp := stub_clamp
    rintp := rint_even
    FloatScale := fun x => x * 1000
    FloatUnscale := fun x => x / 1000
    Json_FromString := stub_parse
    CanonicalName := fun name => name
    TLINERESULT_COUNT := 1
    TLINERESULT_NAMES := fun _ => "Z0"
    QString_toDouble := fun _ => 0
    QString_number := fun _ => "?"
    FinitePositive := fun x => decide (0 < x)
    FindRootRelative := fun x0 _ _ _ => .done x0 }

/-- A stub solver: its single result is twice the (unscaled) first parameter;
it throws when that parameter is not a float. -/
def stub_simulate (context : TLineContext) : SimulateResult :=
  { progress := []
    outcome := match context.m_parameters[0]? with
      | some (_, VData.ofFloat x) => Except.ok { context with m_results := [2 * (x / 1000)] }
      | _ => Except.error (Error.runtime_error "solver: parameter is not a number") }

/-- A stub solver like `stub_simulate` that throws once the first parameter
exceeds `limit`. -/
def failing_simulate (limit : real_t) (context : TLineContext) : SimulateResult :=
  { progress := []
    outcome := match context.m_parameters[0]? with
      | some (_, VData.ofFloat x) =>
        if x / 1000 ≤ limit then Except.ok { context with m_results := [2 * (x / 1000)] }
        else Except.error (Error.runtime_error "solver failed")
      | _ => Except.error (Error.runtime_error "solver: parameter is not a number") }

/-- A line type with one real parameter and one mode, solved by `stub_simulate`. -/
def stub_type : TLineType :=
  { m_description := "stub"
    m_parameters := [{ m_name := "Width", m_type := .TLINE_PARAMETERTYPE_REAL,
                       m_default_value := .ofFloat 1000, m_unit_mm := true,
                       m_separator := false }]
    m_modes := ["Single"]
    m_simulate := stub_simulate }

/-- A window on `stub_type`: the parameter field holds `text`; the parameter
sweep goes from 1.0 to 2.0 in steps of 0.1. -/
def stub_window (text : String) : MainWindow :=
  { m_tline_type := stub_type
    m_material_database := { conductors := [], dielectrics := [] }
    m_widget_parameters :=
      [.CustomLineEdit { lineEdit := text, button := some { text := "mm", checked := false },
                         originalText := text }]
    m_lineedit_frequency := "1.0"
    m_lineedit_frequency_sweep_min := "1.0"
    m_lineedit_frequency_sweep_max := "2.0"
    m_lineedit_frequency_sweep_step := "0.1"
    m_lineedit_frequency_sweep_file := "frequency.txt"
    m_combobox_parameter_sweep_parameter := { items := [("Width", 0)], currentIndex := 0 }
    m_lineedit_parameter_sweep_min := "1.0"
    m_lineedit_parameter_sweep_max := "2.0"
    m_lineedit_parameter_sweep_step := "0.1"
    m_lineedit_parameter_sweep_file := "sweep.txt"
    m_combobox_parameter_tune_parameter := { items := [("Width", 0)], currentIndex := 0 }
    m_combobox_parameter_tune_target_result := 0
    m_lineedit_parameter_tune_target_value := "2.0"
    m_lineedit_results := ["?"]
    m_meshviewer := none }

/-- The window `stub_window "1.0"` with the solver replaced by
`failing_simulate limit`. -/
def failing_window (limit : real_t) : MainWindow :=
  { stub_window "1.0" with
    m_tline_type := { stub_type with m_simulate := failing_simulate limit } }

/-- A context with the one parameter of `stub_type`. -/
def stub_context : TLineContext :=
  { TLineContext.empty with m_parameters := [("Width", .ofFloat 1000)], m_frequencies := [1] }

/-- Externals like `stub_ext` with a root finder that asks for the residual at
the seed and returns the seed when the residual is within the tolerance. -/
def tune_ext : Externals :=
  { stub_ext with
    FindRootRelative := fun x0 _ tolerance _ =>
      .eval x0 (fun r =>
        if |r| < tolerance then .done x0 else .fail (.runtime_error "no convergence")) }

/-- Externals like `stub_ext` for which no value is finite and positive. -/
def default_ext : Externals :=
  { stub_ext with FinitePositive := fun _ => false }

/-- A line type with a boolean, a real and a conductor parameter. -/
def mixed_type : TLineType :=
  { stub_type with
    m_parameters :=
      [{ m_name := "Solder Mask", m_type := .TLINE_PARAMETERTYPE_BOOL,
         m_default_value := .ofBool true, m_unit_mm := false, m_separator := false },
       { m_name := "Width", m_type := .TLINE_PARAMETERTYPE_REAL,
         m_default_value := .ofFloat 1000, m_unit_mm := true, m_separator := false },
       { m_name := "Track Material", m_type := .TLINE_PARAMETERTYPE_MATERIAL_CONDUCTOR,
         m_default_value := .ofString "Copper", m_unit_mm := false, m_separator := false }] }

/-- A window on `mixed_type`, with the widgets of its three parameters. -/
def mixed_window : MainWindow :=
  { stub_window "1.0" with
    m_tline_type := mixed_type
    m_widget_parameters :=
      [.QCheckBox true,
       .CustomLineEdit { lineEdit := "2.0", button := some { text := "mm", checked := false },
                         originalText := "1.0" },
       .QComboBox "Copper"]
    m_combobox_parameter_sweep_parameter := { items := [("Width", 1)], currentIndex := 0 }
    m_combobox_parameter_tune_parameter := { items := [("Width", 1)], currentIndex := 0 } }

/-- Externals like `stub_ext` whose `QString::toDouble` and `QString::number`
are those of Qt on the texts and values met when the text "1.234567" is
converted to the other unit and back (`QString::number` keeps six significant
digits). -/
def unit_ext : Externals :=
  { stub_ext with
    QString_toDouble := fun text =>
      if text = "1.234567" then 1234567 / 1000000
      else if text = "0.031358" then 31358 / 1000000
      else 0
    QString_number := fun value =>
      if value = 313580018 / 10000000000 then "0.031358"
      else if value = 123456696864 / 100000000000 then "1.23457"
      else "?" }

/-- A window like `stub_window "1.0"` whose parameter has no unit
(`m_unit_mm = false`), with the widget `OnUpdateTLineType` creates for it. -/
def unitless_window : MainWindow :=
  { stub_window "1.0" with
    m_tline_type :=
      { stub_type with
        m_parameters := [{ m_name := "Width", m_type := .TLINE_PARAMETERTYPE_REAL,
                           m_default_value := .ofFloat 1000, m_unit_mm := false,
                           m_separator := false }] }
    m_widget_parameters := [.CustomLineEdit ((CustomLineEdit.new false).SetText "1.0")] }

/-- A window like `stub_window "1.0"` whose parameter sweep goes from 1.0 to
2.0 in steps of 1.0. -/
def coarse_window : MainWindow :=
  { stub_window "1.0" with m_lineedit_parameter_sweep_step := "1.0" }

/-- Externals like `stub_ext` whose `QString::toDouble`, `QString::number` and
`Json::FromString` are those of Qt and of a JSON parser on the texts met when a
field in the unit "mil" holds "10" or a text that is no number ("x", which
`toDouble` turns into 0). -/
def mil_ext : Externals :=
  { stub_ext with
    QString_toDouble := fun text => if text = "10" then 10 else 0
    QString_number := fun value =>
      if value = 0 then "0"
      else if value = 3937008 / 10000 then "393.701"
      else "?"
    Json_FromString := fun text =>
      if text = "0" then .ok (.ofInt 0)
      else if text = "10" then .ok (.ofInt 10)
      else if text = "393.701" then .ok (.ofFloat 393701)
      else stub_parse text }

/-- A window like `stub_window text` whose unit button is checked (the unit is
"mil"). -/
def mil_window (text : String) : MainWindow :=
  { stub_window text with
    m_widget_parameters :=
      [.CustomLineEdit { lineEdit := text, button := some { text := "mil", checked := true },
                         originalText := "1.0" }] }

/-! ## Auxiliary definitions on the start of a run -/

/-- The texts a run mode converts with `FloatFromString` before it first calls
the solver: the frequency, the sweep bounds and step, the tuning target. -/
def numeric_inputs (mode : SimulationType) (w : MainWindow) : List String :=
  match mode with
  | .SIMULATION_SINGLE_FREQUENCY => [w.m_lineedit_frequency]
  | .SIMULATION_FREQUENCY_SWEEP =>
    [w.m_lineedit_frequency_sweep_min, w.m_lineedit_frequency_sweep_max,
      w.m_lineedit_frequency_sweep_step]
  | .SIMULATION_PARAMETER_SWEEP =>
    [w.m_lineedit_frequency, w.m_lineedit_parameter_sweep_min,
      w.m_lineedit_parameter_sweep_max, w.m_lineedit_parameter_sweep_step]
  | .SIMULATION_PARAMETER_TUNE =>
    [w.m_lineedit_frequency, w.m_lineedit_parameter_tune_target_value]

/-- A run that threw without any effect on the state. -/
def FailsAt {α : Type} (x : Run α) (s : Sim) : Prop :=
  (x s).2 = s ∧ ∃ e, (x s).1 = .error e

/-! ## Auxiliary definitions on the parameter tuning -/

/-- The end of `SimulateParameterTune`, from the value and the context the
root search returns: the write back to the widget of the parameter and the
display of the results. -/
def ParameterTune_write_back (ext : Externals) (w : MainWindow) (param_index : Nat)
    (r : real_t × TLineContext) : Run Unit :=
  match r with
  | (root_value, context) => do
    match w.m_widget_parameters[param_index]? with
    | some (.QLineEdit _) =>
      modifyWindow (fun w => { w with
        m_widget_parameters :=
          w.m_widget_parameters.set param_index (.QLineEdit (ext.QString_number root_value)) })
    | _ => Run.throw (.undefined_behaviour "static_cast<QLineEdit*>")
    let _ ← SimulationShowResult ext context

/-- The root search of `SimulateParameterTune` from the seed `initial_value`. -/
def ParameterTune_search (ext : Externals) (w : MainWindow) (target_value initial_value : real_t)
    (context : TLineContext) : Run (real_t × TLineContext) :=
  RootSearch.run
    (ParameterTune_residual ext w.m_tline_type
      (size_t_of_int w.m_combobox_parameter_tune_parameter.currentData)
      (ext.clamp (size_t_of_int w.m_combobox_parameter_tune_target_result) 0
        (size_t_of_int ((ext.TLINERESULT_COUNT * w.m_tline_type.m_modes.length : Nat) - 1)))
      target_value)
    (ext.FindRootRelative initial_value (1 / 100000000) (target_value * (1 / 100000000))
      1000000)
    context

/-- The part of `SimulateParameterTune` that follows the choice of the seed. -/
def ParameterTune_from_seed (ext : Externals) (w : MainWindow) (target_value : real_t)
    (context : TLineContext) (initial_value : real_t) : Run Unit :=
  Run.bind (ParameterTune_search ext w target_value initial_value context)
    (ParameterTune_write_back ext w
      (size_t_of_int w.m_combobox_parameter_tune_parameter.currentData))

/-! ## Sweep generation -/

/-- Assigning `f i` to entry `i` for `i = 0, ..., k-1` in turn rewrites the
first `k` entries of a vector and leaves the rest. -/
theorem foldl_set_range {α : Type} (f : Nat → α) (l : List α) (k : Nat) (hk : k ≤ l.length) :
    (List.range k).foldl (fun r i => r.set i (f i)) l = (List.range k).map f ++ l.drop k := by
  induction k with
  | zero => simp
  | succ k ih =>
    have hk2 : k < l.length := hk
    rw [List.range_succ, List.foldl_append, ih (Nat.le_of_lt hk2)]
    simp only [List.foldl_cons, List.foldl_nil, List.map_append, List.map_cons, List.map_nil]
    rw [List.set_append_right _ _ (by simp)]
    simp only [List.length_map, List.length_range, Nat.sub_self]
    rw [List.drop_eq_getElem_cons hk2]
    simp [List.set]

/-- The vector returned by `MakeSweep` in closed form. -/
theorem MakeSweep_eq_map (rintp : real_t → ℤ) (results : List real_t) (min max step : real_t) :
    MakeSweep rintp results min max step
      = (List.range (MakeSweep_num rintp min max step)).map
          (fun (i : Nat) => min + step * (i : real_t)) := by
  unfold MakeSweep
  simp only [vector_clear, vector_resize, List.take_nil, List.nil_append, List.length_nil,
    Nat.sub_zero]
  rw [foldl_set_range _ _ _ (by simp)]
  simp

theorem MakeSweep_num_pos (rintp : real_t → ℤ) (min max step : real_t) :
    1 ≤ MakeSweep_num rintp min max step := by
  unfold MakeSweep_num
  have h : (1 : ℤ) ≤ Max.max (rintp (Max.max 0 (max - min) / step + 1 / 2 + sweep_epsilon)) 1 :=
    le_max_right _ _
  omega

theorem MakeSweep_length_num (rintp : real_t → ℤ) (results : List real_t)
    (min max step : real_t) :
    (MakeSweep rintp results min max step).length = MakeSweep_num rintp min max step := by
  rw [MakeSweep_eq_map]; simp

/-- A rounding to the nearest integer maps `z + 1/2` into `[z, z + 1]`. -/
theorem IsNearest.bounds {rintp : real_t → ℤ} (hr : IsNearest rintp) (z : real_t) :
    z ≤ (rintp (z + 1 / 2) : real_t) ∧ (rintp (z + 1 / 2) : real_t) ≤ z + 1 := by
  have h := abs_le.mp (hr (z + 1 / 2))
  constructor <;> linarith [h.1, h.2]

theorem rint_even_isNearest : IsNearest rint_even := by
  intro z
  have h1 := Int.floor_le z
  have h2 := Int.lt_floor_add_one z
  unfold rint_even
  simp only
  split_ifs <;> rw [abs_le] <;> constructor <;> push_cast <;> linarith

/-- With a nearest rounding and `0 ≤ q`, the count is the rounded value itself
(the lower bound `1` is not active) and lies in `[q + ε, q + 1 + ε]`. -/
theorem MakeSweep_num_bounds {rintp : real_t → ℤ} (hr : IsNearest rintp)
    (min max step : real_t) (hstep : 0 < step) :
    Max.max 0 (max - min) / step + sweep_epsilon ≤ (MakeSweep_num rintp min max step : real_t) ∧
    (MakeSweep_num rintp min max step : real_t)
      ≤ Max.max 0 (max - min) / step + sweep_epsilon + 1 := by
  have hq : 0 ≤ Max.max 0 (max - min) / step := div_nonneg (le_max_left _ _) hstep.le
  have he : 0 < sweep_epsilon := by unfold sweep_epsilon; norm_num
  have hb := hr.bounds (Max.max 0 (max - min) / step + sweep_epsilon)
  have hz : Max.max 0 (max - min) / step + sweep_epsilon + 1 / 2
      = Max.max 0 (max - min) / step + 1 / 2 + sweep_epsilon := by ring
  rw [hz] at hb
  have hpos : (0 : real_t) < (rintp (Max.max 0 (max - min) / step + 1 / 2 + sweep_epsilon) : real_t) := by
    linarith [hb.1]
  have hpos2 : 1 ≤ rintp (Max.max 0 (max - min) / step + 1 / 2 + sweep_epsilon) := by
    have : (0 : ℤ) < rintp (Max.max 0 (max - min) / step + 1 / 2 + sweep_epsilon) := by
      exact_mod_cast hpos
    omega
  have hnum : (MakeSweep_num rintp min max step : real_t)
      = (rintp (Max.max 0 (max - min) / step + 1 / 2 + sweep_epsilon) : real_t) := by
    unfold MakeSweep_num
    rw [max_eq_left hpos2]
    have : ((rintp (Max.max 0 (max - min) / step + 1 / 2 + sweep_epsilon)).toNat : ℤ)
        = rintp (Max.max 0 (max - min) / step + 1 / 2 + sweep_epsilon) :=
      Int.toNat_of_nonneg (by omega)
    exact_mod_cast this
  rw [hnum]
  exact hb

/-! ## Effects: basic lemmas -/

theorem run_bind_eq {α β : Type} (x : Run α) (f : α → Run β) : (x >>= f) = Run.bind x f := rfl
theorem run_pure_eq {α : Type} (a : α) : (pure a : Run α) = Run.pure a := rfl

theorem Run.bind_ok {α β : Type} (x : Run α) (f : α → Run β) (s s' : Sim) (a : α)
    (h : x s = (.ok a, s')) : Run.bind x f s = f a s' := by
  simp [Run.bind, h]

theorem Run.bind_error {α β : Type} (x : Run α) (f : α → Run β) (s s' : Sim) (e : Error)
    (h : x s = (.error e, s')) : Run.bind x f s = (.error e, s') := by
  simp [Run.bind, h]

theorem report_progress_no_callback (ps : List Nat) (s : Sim) :
    report_progress no_callback ps s = (.ok (), s) := by
  induction ps with
  | nil => rfl
  | cons p ps ih => simp [report_progress, Run.bind, no_callback, Run.pure, ih]

/-- A solver call without progress callback: the call is recorded and the
solver's outcome is the outcome. -/
theorem call_simulate_no_callback (tline_type : TLineType) (context : TLineContext) (s : Sim) :
    call_simulate tline_type no_callback context s
      = ((tline_type.m_simulate context).outcome,
          { s with solver_calls := s.solver_calls ++ [context] }) := by
  unfold call_simulate
  simp only [run_bind_eq, run_pure_eq]
  by_cases h : context.m_progress_callback
  · simp [Run.bind, h, report_progress_no_callback, Run.lift]
  · simp [Run.bind, h, Run.lift, Run.pure]

theorem ParameterSweep_body_eq (ext : Externals) (tline_type : TLineType)
    (sweep_values : List real_t) (param_index : Nat) (i : Nat)
    (context : TLineContext) (combined_results : List real_t) (s : Sim) :
    ParameterSweep_body ext tline_type sweep_values param_index i (context, combined_results) s
      = match sweep_values[i]? with
        | none => (.error (.undefined_behaviour "sweep_values[i]"), s)
        | some value =>
          match set_parameter context param_index (.ofFloat (ext.FloatScale value)) with
          | .error e => (.error e, s)
          | .ok c1 =>
            match (tline_type.m_simulate c1).outcome with
            | .error e => (.error e, { s with solver_calls := s.solver_calls ++ [c1] })
            | .ok c2 =>
              match copy_n c2.m_results combined_results
                  (ext.TLINERESULT_COUNT * tline_type.m_modes.length * i) with
              | .error e => (.error e, { s with solver_calls := s.solver_calls ++ [c1] })
              | .ok combined =>
                if s.task_canceled s.canceled_reads then
                  (.error (.runtime_error "Parameter sweep canceled by user."),
                    { s with solver_calls := s.solver_calls ++ [c1],
                             task_progress := s.task_progress ++ [(i : ℤ) + 1],
                             canceled_reads := s.canceled_reads + 1 })
                else
                  (.ok (c2, combined),
                    { s with solver_calls := s.solver_calls ++ [c1],
                             task_progress := s.task_progress ++ [(i : ℤ) + 1],
                             canceled_reads := s.canceled_reads + 1 }) := by
  unfold ParameterSweep_body
  simp only [run_bind_eq, run_pure_eq]
  cases h1 : sweep_values[i]? with
  | none => simp [Run.bind, Run.throw]
  | some value =>
    cases h2 : set_parameter context param_index (.ofFloat (ext.FloatScale value)) with
    | error e => simp [Run.bind, Run.pure, Run.lift, h2]
    | ok c1 =>
      cases h3 : (tline_type.m_simulate c1).outcome with
      | error e => simp [Run.bind, Run.pure, Run.lift, h2, call_simulate_no_callback, h3]
      | ok c2 =>
        cases h4 : copy_n c2.m_results combined_results
                  (ext.TLINERESULT_COUNT * tline_type.m_modes.length * i) with
        | error e => simp [Run.bind, Run.pure, Run.lift, h2, call_simulate_no_callback, h3, h4]
        | ok combined =>
          by_cases h5 : s.task_canceled s.canceled_reads
          · simp [Run.bind, Run.pure, Run.lift, h2, call_simulate_no_callback, h3, h4,
              store_task_progress, load_task_canceled, h5, Run.throw]
          · simp [Run.bind, Run.pure, Run.lift, h2, call_simulate_no_callback, h3, h4,
              store_task_progress, load_task_canceled, h5, Run.throw]

theorem forLoop_zero {β : Type} (body : Nat → β → Run β) (i : Nat) (b : β) (s : Sim) :
    forLoop body 0 i b s = (.ok b, s) := rfl

theorem forLoop_succ {β : Type} (body : Nat → β → Run β) (n i : Nat) (b : β) (s : Sim) :
    forLoop body (n + 1) i b s
      = match body i b s with
        | (.ok b', s') => forLoop body n (i + 1) b' s'
        | (.error e, s') => (.error e, s') := rfl

/-- A loop whose body leaves the state alone leaves the state alone. -/
theorem forLoop_state {β : Type} (body : Nat → β → Run β)
    (hbody : ∀ i b s, (body i b s).2 = s) (n i : Nat) (b : β) (s : Sim) :
    (forLoop body n i b s).2 = s := by
  induction n generalizing i b s with
  | zero => rfl
  | succ n ih =>
    rw [forLoop_succ]
    have h := hbody i b s
    cases hb : body i b s with
    | mk r s' =>
      rw [hb] at h
      cases r with
      | ok b' => simp only; rw [ih]; exact h
      | error e => exact h

theorem SimulationInit_body_state (ext : Externals) (w : MainWindow) (i : Nat)
    (context : TLineContext) (s : Sim) : (SimulationInit_body ext w i context s).2 = s := by
  unfold SimulationInit_body
  cases w.m_tline_type.m_parameters[i]? with
  | none => rfl
  | some parameter =>
    simp only [run_bind_eq, run_pure_eq]
    cases SimulationInit_value ext w i parameter <;> rfl

/-- `SimulationInit` has no effect besides the context it returns. -/
theorem SimulationInit_state (ext : Externals) (context : TLineContext) (s : Sim) :
    (SimulationInit ext context s).2 = s := by
  unfold SimulationInit
  simp only [run_bind_eq]
  show (forLoop _ _ _ _ s).2 = s
  exact forLoop_state _ (SimulationInit_body_state ext s.window) _ _ _ _

/-! ## The loop of the parameter sweep -/

theorem ParameterSweep_body_cases (ext : Externals) (tline_type : TLineType)
    (sweep_values : List real_t) (param_index : Nat) (i : Nat)
    (context : TLineContext) (combined_results : List real_t) (s : Sim) :
    (∃ e, ParameterSweep_body ext tline_type sweep_values param_index i
        (context, combined_results) s = (.error e, s)) ∨
    (∃ v c1, sweep_values[i]? = some v ∧
      set_parameter context param_index (.ofFloat (ext.FloatScale v)) = .ok c1 ∧
      ((∃ e, (tline_type.m_simulate c1).outcome = .error e ∧
          ParameterSweep_body ext tline_type sweep_values param_index i
            (context, combined_results) s = (.error e, s.called c1)) ∨
       (∃ c2, (tline_type.m_simulate c1).outcome = .ok c2 ∧
          ((∃ e, copy_n c2.m_results combined_results
                (ext.TLINERESULT_COUNT * tline_type.m_modes.length * i) = .error e ∧
              ParameterSweep_body ext tline_type sweep_values param_index i
                (context, combined_results) s = (.error e, s.called c1)) ∨
           (∃ combined, copy_n c2.m_results combined_results
                (ext.TLINERESULT_COUNT * tline_type.m_modes.length * i) = .ok combined ∧
              ((s.task_canceled s.canceled_reads = true ∧
                  ParameterSweep_body ext tline_type sweep_values param_index i
                    (context, combined_results) s
                    = (.error (.runtime_error "Parameter sweep canceled by user."),
                        s.ticked c1 i)) ∨
               (s.task_canceled s.canceled_reads = false ∧
                  ParameterSweep_body ext tline_type sweep_values param_index i
                    (context, combined_results) s = (.ok (c2, combined), s.ticked c1 i)))))))) := by
  have hb := ParameterSweep_body_eq ext tline_type sweep_values param_index i context
    combined_results s
  cases h1 : sweep_values[i]? with
  | none =>
    rw [h1] at hb
    exact Or.inl ⟨_, hb⟩
  | some v =>
    rw [h1] at hb
    simp only at hb
    cases h2 : set_parameter context param_index (.ofFloat (ext.FloatScale v)) with
    | error e =>
      rw [h2] at hb
      exact Or.inl ⟨_, hb⟩
    | ok c1 =>
      rw [h2] at hb
      simp only at hb
      refine Or.inr ⟨v, c1, (by first | assumption | rfl), h2, ?_⟩
      cases h3 : (tline_type.m_simulate c1).outcome with
      | error e =>
        rw [h3] at hb
        exact Or.inl ⟨e, (by first | assumption | rfl), hb⟩
      | ok c2 =>
        rw [h3] at hb
        simp only at hb
        refine Or.inr ⟨c2, (by first | assumption | rfl), ?_⟩
        cases h4 : copy_n c2.m_results combined_results
            (ext.TLINERESULT_COUNT * tline_type.m_modes.length * i) with
        | error e =>
          rw [h4] at hb
          exact Or.inl ⟨e, (by first | assumption | rfl), hb⟩
        | ok combined =>
          rw [h4] at hb
          simp only at hb
          refine Or.inr ⟨combined, (by first | assumption | rfl), ?_⟩
          by_cases h5 : s.task_canceled s.canceled_reads = true
          · rw [if_pos h5] at hb
            exact Or.inl ⟨h5, hb⟩
          · rw [if_neg h5] at hb
            exact Or.inr ⟨by simpa using h5, hb⟩

/-- The parameter sweep loop touches neither the window nor the output file. -/
theorem ParameterSweep_loop_frame (ext : Externals) (tline_type : TLineType)
    (sweep_values : List real_t) (param_index : Nat) (n i : Nat)
    (vars : TLineContext × List real_t) (s : Sim) :
    (forLoop (ParameterSweep_body ext tline_type sweep_values param_index) n i vars s).2.file
      = s.file ∧
    (forLoop (ParameterSweep_body ext tline_type sweep_values param_index) n i vars s).2.file_writable
      = s.file_writable := by
  induction n generalizing i vars s with
  | zero => exact ⟨rfl, rfl⟩
  | succ n ih =>
    obtain ⟨context, combined_results⟩ := vars
    rw [forLoop_succ]
    rcases ParameterSweep_body_cases ext tline_type sweep_values param_index i context
      combined_results s with ⟨e, h⟩ | ⟨v, c1, -, -, ⟨e, -, h⟩ | ⟨c2, -, ⟨e, -, h⟩ |
        ⟨combined, -, ⟨-, h⟩ | ⟨-, h⟩⟩⟩⟩
    · rw [h]; exact ⟨rfl, rfl⟩
    · rw [h]; exact ⟨rfl, rfl⟩
    · rw [h]; exact ⟨rfl, rfl⟩
    · rw [h]; exact ⟨rfl, rfl⟩
    · rw [h]; simp only; rw [(ih _ _ _).1, (ih _ _ _).2]; exact ⟨rfl, rfl⟩

/-- The calls of the parameter sweep loop: every call but the last returned,
and if the last one threw, the loop ended with that exception. -/
theorem ParameterSweep_loop_calls (ext : Externals) (tline_type : TLineType)
    (sweep_values : List real_t) (param_index : Nat) (n i : Nat)
    (vars : TLineContext × List real_t) (s : Sim) :
    ∃ calls : List TLineContext,
      (forLoop (ParameterSweep_body ext tline_type sweep_values param_index) n i vars
        s).2.solver_calls = s.solver_calls ++ calls ∧
      calls.length ≤ n ∧
      ∀ k c e, calls[k]? = some c → (tline_type.m_simulate c).outcome = .error e →
        (forLoop (ParameterSweep_body ext tline_type sweep_values param_index) n i vars s).1
          = .error e ∧ calls.length = k + 1 := by
  induction n generalizing i vars s with
  | zero => exact ⟨[], by simp [forLoop_zero], by simp, by simp⟩
  | succ n ih =>
    obtain ⟨context, combined_results⟩ := vars
    rw [forLoop_succ]
    have single : ∀ (c1 : TLineContext) (r : Except Error (TLineContext × List real_t)),
        (∀ e, (tline_type.m_simulate c1).outcome = .error e → r = .error e) →
        ∃ calls : List TLineContext,
          (s.called c1).solver_calls = s.solver_calls ++ calls ∧ calls.length ≤ n + 1 ∧
          ∀ k c e, calls[k]? = some c → (tline_type.m_simulate c).outcome = .error e →
            r = .error e ∧ calls.length = k + 1 := by
      intro c1 r hr
      refine ⟨[c1], rfl, by simp, ?_⟩
      intro k c e hk he
      cases k with
      | zero =>
        simp only [List.getElem?_cons_zero, Option.some.injEq] at hk
        subst hk
        exact ⟨hr e he, rfl⟩
      | succ k => simp at hk
    rcases ParameterSweep_body_cases ext tline_type sweep_values param_index i context
      combined_results s with ⟨e, h⟩ | ⟨v, c1, -, -, ⟨e, h3, h⟩ | ⟨c2, h3, ⟨e, -, h⟩ |
        ⟨combined, -, ⟨-, h⟩ | ⟨-, h⟩⟩⟩⟩
    · rw [h]; exact ⟨[], by simp, by simp, by simp⟩
    · rw [h]
      exact single c1 _ (fun e' he' => by rw [h3] at he'; cases he'; rfl)
    · rw [h]
      exact single c1 _ (fun e' he' => by rw [h3] at he'; cases he')
    · rw [h]
      exact single c1 _ (fun e' he' => by rw [h3] at he'; cases he')
    · rw [h]
      simp only
      obtain ⟨calls, hc, hlen, hprop⟩ := ih (i + 1) (c2, combined) (s.ticked c1 i)
      refine ⟨c1 :: calls, ?_, by simp; omega, ?_⟩
      · rw [hc]; simp [Sim.ticked]
      · intro k c e hk he
        cases k with
        | zero =>
          simp only [List.getElem?_cons_zero, Option.some.injEq] at hk
          subst hk
          rw [h3] at he; cases he
        | succ k =>
          simp only [List.getElem?_cons_succ] at hk
          obtain ⟨h1, h2⟩ := hprop k c e hk he
          exact ⟨h1, by simp [h2]⟩

/-- A successful copy keeps the length of the destination, keeps what lies
before the offset, and puts the source at the offset. -/
theorem copy_n_ok {src dst result : List real_t} {offset : Nat}
    (h : copy_n src dst offset = .ok result) :
    result.length = dst.length ∧ result.take offset = dst.take offset ∧
    (result.drop offset).take src.length = src := by
  unfold copy_n at h
  split_ifs at h with hle
  simp only [Except.ok.injEq] at h
  subst h
  have hlen : (List.take offset dst).length = offset := by
    rw [List.length_take]; omega
  refine ⟨?_, ?_, ?_⟩
  · simp only [List.length_append, List.length_take, List.length_drop]; omega
  · rw [List.append_assoc, List.take_left' hlen]
  · rw [List.append_assoc, List.drop_left' hlen, List.take_left]

/-- The copy succeeds when the source fits behind the offset. -/
theorem copy_n_fits (src dst : List real_t) (offset : Nat)
    (h : offset + src.length ≤ dst.length) : ∃ result, copy_n src dst offset = .ok result := by
  unfold copy_n
  rw [if_pos h]
  exact ⟨_, rfl⟩

theorem set_parameter_ok {context c1 : TLineContext} {param_index : Nat} {value : VData}
    (h : set_parameter context param_index value = .ok c1) :
    ∃ key, c1.m_parameters[param_index]? = some (key, value) := by
  unfold set_parameter at h
  cases hp : context.m_parameters[param_index]? with
  | none => rw [hp] at h; cases h
  | some kv =>
    obtain ⟨key, old⟩ := kv
    rw [hp] at h
    simp only [Except.ok.injEq] at h
    subst h
    have hlt : param_index < context.m_parameters.length := by
      by_contra hge
      rw [List.getElem?_eq_none (by omega)] at hp
      cases hp
    exact ⟨key, by simp [List.getElem?_set_self, hlt]⟩

/-- A parameter sweep loop that runs to its end: the aggregate buffer keeps its
length and what lies before the first slice of the loop; there is one solver
call per iteration, made with the sweep value of the iteration in the selected
parameter, and its results are the slice of the iteration. -/
theorem ParameterSweep_loop_ok (ext : Externals) (tline_type : TLineType)
    (sweep_values : List real_t) (param_index : Nat)
    (hsize : ∀ c c', (tline_type.m_simulate c).outcome = .ok c' →
      c'.m_results.length = ext.TLINERESULT_COUNT * tline_type.m_modes.length)
    (n i : Nat) (context : TLineContext) (combined_results : List real_t) (s : Sim)
    (context' : TLineContext) (combined' : List real_t)
    (hok : (forLoop (ParameterSweep_body ext tline_type sweep_values param_index) n i
      (context, combined_results) s).1 = .ok (context', combined')) :
    combined'.length = combined_results.length ∧
    combined'.take (ext.TLINERESULT_COUNT * tline_type.m_modes.length * i)
      = combined_results.take (ext.TLINERESULT_COUNT * tline_type.m_modes.length * i) ∧
    ∃ calls : List TLineContext,
      (forLoop (ParameterSweep_body ext tline_type sweep_values param_index) n i
        (context, combined_results) s).2.solver_calls = s.solver_calls ++ calls ∧
      calls.length = n ∧
      ∀ j, j < n → ∃ c c' v key, calls[j]? = some c ∧ sweep_values[i + j]? = some v ∧
        c.m_parameters[param_index]? = some (key, .ofFloat (ext.FloatScale v)) ∧
        (tline_type.m_simulate c).outcome = .ok c' ∧
        (combined'.drop (ext.TLINERESULT_COUNT * tline_type.m_modes.length * (i + j))).take
          (ext.TLINERESULT_COUNT * tline_type.m_modes.length) = c'.m_results := by
  induction n generalizing i context combined_results s with
  | zero =>
    simp only [forLoop_zero, Except.ok.injEq, Prod.mk.injEq] at hok
    obtain ⟨-, rfl⟩ := hok
    exact ⟨rfl, rfl, [], by simp [forLoop_zero], rfl, by intro j hj; omega⟩
  | succ n ih =>
    rw [forLoop_succ] at hok ⊢
    rcases ParameterSweep_body_cases ext tline_type sweep_values param_index i context
      combined_results s with ⟨e, h⟩ | ⟨v, c1, hv, hset, ⟨e, -, h⟩ | ⟨c2, h3, ⟨e, -, h⟩ |
        ⟨combined, hcopy, ⟨-, h⟩ | ⟨-, h⟩⟩⟩⟩
    · rw [h] at hok; cases hok
    · rw [h] at hok; cases hok
    · rw [h] at hok; cases hok
    · rw [h] at hok; cases hok
    · rw [h] at hok ⊢
      simp only at hok ⊢
      obtain ⟨hlen, htake, calls, hcalls, hcl, hslice⟩ := ih (i + 1) c2 combined _ hok
      obtain ⟨hl1, ht1, hs1⟩ := copy_n_ok hcopy
      have hres := hsize c1 c2 h3
      obtain ⟨key, hkey⟩ := set_parameter_ok hset
      set stride := ext.TLINERESULT_COUNT * tline_type.m_modes.length with hstride
      have hmul : stride * (i + 1) = stride * i + stride := by ring
      refine ⟨by rw [hlen, hl1], ?_, c1 :: calls, ?_, by simp [hcl], ?_⟩
      · have h1 : combined'.take (stride * i)
            = (combined'.take (stride * (i + 1))).take (stride * i) := by
          rw [List.take_take, min_eq_left (by rw [hmul]; omega)]
        have h2 : combined.take (stride * i)
            = (combined.take (stride * (i + 1))).take (stride * i) := by
          rw [List.take_take, min_eq_left (by rw [hmul]; omega)]
        rw [h1, htake, ← h2, ht1]
      · rw [hcalls]; simp [Sim.ticked]
      · intro j hj
        cases j with
        | zero =>
          refine ⟨c1, c2, v, key, by simp, hv, hkey, h3, ?_⟩
          rw [Nat.add_zero, List.take_drop, ← hmul, htake, hmul, ← List.take_drop]
          rw [hres] at hs1
          exact hs1
        | succ j =>
          obtain ⟨c, c', v', key', h1, h2, h3', h4, h5⟩ := hslice j (by omega)
          refine ⟨c, c', v', key', by simpa using h1, ?_, h3', h4, ?_⟩
          · rw [← h2]; congr 1; omega
          · rw [← h5]; congr 3; omega

/-- With the cancel flag set at its next read, a parameter sweep loop of at
least one iteration throws; and if it gets to store a progress value, it stores
one value only, after one solver call, and throws the cancellation error. -/
theorem ParameterSweep_loop_canceled (ext : Externals) (tline_type : TLineType)
    (sweep_values : List real_t) (param_index : Nat) (n i : Nat)
    (vars : TLineContext × List real_t) (s : Sim)
    (hcancel : s.task_canceled s.canceled_reads = true) :
    (∃ e, (forLoop (ParameterSweep_body ext tline_type sweep_values param_index) (n + 1) i vars
      s).1 = .error e) ∧
    ((forLoop (ParameterSweep_body ext tline_type sweep_values param_index) (n + 1) i vars
        s).2.task_progress ≠ s.task_progress →
      (forLoop (ParameterSweep_body ext tline_type sweep_values param_index) (n + 1) i vars s).1
        = .error (.runtime_error "Parameter sweep canceled by user.") ∧
      (forLoop (ParameterSweep_body ext tline_type sweep_values param_index) (n + 1) i vars
        s).2.task_progress = s.task_progress ++ [(i : ℤ) + 1] ∧
      ∃ c, (forLoop (ParameterSweep_body ext tline_type sweep_values param_index) (n + 1) i vars
        s).2.solver_calls = s.solver_calls ++ [c]) := by
  obtain ⟨context, combined_results⟩ := vars
  rw [forLoop_succ]
  rcases ParameterSweep_body_cases ext tline_type sweep_values param_index i context
    combined_results s with ⟨e, h⟩ | ⟨v, c1, -, -, ⟨e, -, h⟩ | ⟨c2, -, ⟨e, -, h⟩ |
      ⟨combined, -, ⟨-, h⟩ | ⟨hno, h⟩⟩⟩⟩
  · rw [h]; exact ⟨⟨e, rfl⟩, fun hne => absurd rfl hne⟩
  · rw [h]; exact ⟨⟨e, rfl⟩, fun hne => absurd rfl hne⟩
  · rw [h]; exact ⟨⟨e, rfl⟩, fun hne => absurd rfl hne⟩
  · rw [h]; exact ⟨⟨_, rfl⟩, fun _ => ⟨rfl, rfl, c1, rfl⟩⟩
  · rw [hcancel] at hno; cases hno

/-! ## The stages of `SimulateParameterSweep` -/

theorem Run.bind_lift_ok {α β : Type} (a : α) (f : α → Run β) (s : Sim) :
    Run.bind (Run.lift (.ok a)) f s = f a s := rfl

theorem Run.bind_lift_error {α β : Type} (e : Error) (f : α → Run β) (s : Sim) :
    Run.bind (Run.lift (.error e)) f s = (.error e, s) := rfl

theorem SimulationInit_result (ext : Externals) (context : TLineContext) (s : Sim) :
    SimulationInit ext context s = ((SimulationInit ext context s).1, s) := by
  exact Prod.ext rfl (SimulationInit_state ext context s)

/-- `SimulateParameterSweep` either throws before its loop, with no effect, or
is its loop followed by its output stage. -/
theorem SimulateParameterSweep_cases (ext : Externals) (s : Sim) :
    ((SimulateParameterSweep ext s).2 = s ∧ ∃ e, (SimulateParameterSweep ext s).1 = .error e) ∨
    ∃ context frequency value_min value_max value_step,
      (SimulationInit ext TLineContext.empty s).1 = .ok context ∧
      FloatFromString ext s.window.m_lineedit_frequency = .ok frequency ∧
      FloatFromString ext s.window.m_lineedit_parameter_sweep_min = .ok value_min ∧
      FloatFromString ext s.window.m_lineedit_parameter_sweep_max = .ok value_max ∧
      FloatFromString ext s.window.m_lineedit_parameter_sweep_step = .ok value_step ∧
      SimulateParameterSweep ext s
        = Run.bind
            (ParameterSweep_task ext s.window.m_tline_type
              (MakeSweep ext.rintp [] value_min value_max value_step)
              (size_t_of_int s.window.m_combobox_parameter_sweep_parameter.currentData)
              { context with m_frequencies := [frequency * 1000000000] }
              (vector_resize [] (ext.TLINERESULT_COUNT * s.window.m_tline_type.m_modes.length
                * (MakeSweep ext.rintp [] value_min value_max value_step).length)))
            (fun r => ParameterSweep_output ext s.window.m_tline_type
              s.window.m_lineedit_parameter_sweep_file
              (MakeSweep ext.rintp [] value_min value_max value_step)
              (size_t_of_int s.window.m_combobox_parameter_sweep_parameter.currentData) r.2)
            s := by
  have hunfold : SimulateParameterSweep ext s
      = Run.bind (SimulationInit ext TLineContext.empty) (fun context =>
          Run.bind (Run.lift (FloatFromString ext s.window.m_lineedit_frequency))
            (fun frequency =>
          Run.bind (Run.lift (FloatFromString ext s.window.m_lineedit_parameter_sweep_min))
            (fun value_min =>
          Run.bind (Run.lift (FloatFromString ext s.window.m_lineedit_parameter_sweep_max))
            (fun value_max =>
          Run.bind (Run.lift (FloatFromString ext s.window.m_lineedit_parameter_sweep_step))
            (fun value_step =>
          Run.bind
            (ParameterSweep_task ext s.window.m_tline_type
              (MakeSweep ext.rintp [] value_min value_max value_step)
              (size_t_of_int s.window.m_combobox_parameter_sweep_parameter.currentData)
              { context with m_frequencies := [frequency * 1000000000] }
              (vector_resize [] (ext.TLINERESULT_COUNT * s.window.m_tline_type.m_modes.length
                * (MakeSweep ext.rintp [] value_min value_max value_step).length)))
            (fun r => ParameterSweep_output ext s.window.m_tline_type
              s.window.m_lineedit_parameter_sweep_file
              (MakeSweep ext.rintp [] value_min value_max value_step)
              (size_t_of_int s.window.m_combobox_parameter_sweep_parameter.currentData)
              r.2)))))) s := rfl
  rw [hunfold]
  cases h0 : (SimulationInit ext TLineContext.empty s).1 with
  | error e =>
    left
    rw [Run.bind_error _ _ s s e (by rw [SimulationInit_result, h0])]
    exact ⟨rfl, e, rfl⟩
  | ok context =>
    rw [Run.bind_ok _ _ s s context (by rw [SimulationInit_result, h0])]
    cases h1 : FloatFromString ext s.window.m_lineedit_frequency with
    | error e => left; rw [Run.bind_lift_error]; exact ⟨rfl, e, rfl⟩
    | ok frequency =>
      rw [Run.bind_lift_ok]
      cases h2 : FloatFromString ext s.window.m_lineedit_parameter_sweep_min with
      | error e => left; rw [Run.bind_lift_error]; exact ⟨rfl, e, rfl⟩
      | ok value_min =>
        rw [Run.bind_lift_ok]
        cases h3 : FloatFromString ext s.window.m_lineedit_parameter_sweep_max with
        | error e => left; rw [Run.bind_lift_error]; exact ⟨rfl, e, rfl⟩
        | ok value_max =>
          rw [Run.bind_lift_ok]
          cases h4 : FloatFromString ext s.window.m_lineedit_parameter_sweep_step with
          | error e => left; rw [Run.bind_lift_error]; exact ⟨rfl, e, rfl⟩
          | ok value_step =>
            rw [Run.bind_lift_ok]
            right
            exact ⟨context, frequency, value_min, value_max, value_step, rfl, rfl, rfl, rfl,
              rfl, rfl⟩

/-! ## The output table -/

theorem ofstream_write_apply (toks : List Tok) (s : Sim) :
    ofstream_write toks s = (.ok (), s.appended toks) := rfl

theorem Sim.appended_appended (s : Sim) (a b : List Tok) :
    (s.appended a).appended b = s.appended (a ++ b) := by
  cases s with
  | mk w tc cr fw sc tp file =>
    cases file <;> simp [Sim.appended]

theorem Sim.appended_nil (s : Sim) : s.appended [] = s := by
  cases s with
  | mk w tc cr fw sc tp file =>
    cases file <;> simp [Sim.appended]

/-- A loop whose iterations only write tokens writes their concatenation. -/
theorem forLoop_write (body : Nat → Unit → Run Unit) (g : Nat → List Tok) (n start : Nat)
    (hbody : ∀ i, start ≤ i → i < start + n → ∀ s, body i () s = (.ok (), s.appended (g i)))
    (s : Sim) :
    forLoop body n start () s
      = (.ok (), s.appended ((List.range n).flatMap (fun k => g (start + k)))) := by
  induction n generalizing start s with
  | zero => simp [forLoop_zero, Sim.appended_nil]
  | succ n ih =>
    rw [forLoop_succ, hbody start (le_refl _) (by omega) s]
    simp only
    rw [ih (start + 1) (fun i h1 h2 => hbody i (by omega) (by omega)), Sim.appended_appended,
      List.range_succ_eq_map, List.flatMap_cons, List.flatMap_map]
    simp only [Nat.add_zero, Function.comp_def]
    congr 4
    funext k
    congr 1
    omega

theorem write_header_eq (ext : Externals) (tline_type : TLineType) (first : String) (s : Sim) :
    write_header ext tline_type first s
      = (.ok (), s.appended (header_tokens ext tline_type first)) := by
  have houter : ∀ s : Sim,
      forLoop (fun i _ =>
        forLoop (fun j _ =>
            match tline_type.m_modes[i]? with
            | some mode =>
              ofstream_write [.chr '\t', .str mode, .chr ' ', .str (ext.TLINERESULT_NAMES j)]
            | none => Run.throw (.undefined_behaviour "m_modes[i]"))
          ext.TLINERESULT_COUNT 0 ())
        tline_type.m_modes.length 0 () s
      = (.ok (), s.appended
          ((List.range tline_type.m_modes.length).flatMap (header_mode_tokens ext tline_type))) := by
    intro s
    rw [forLoop_write _ (header_mode_tokens ext tline_type)]
    · simp
    · intro i _ hi s
      simp only [Nat.zero_add] at hi
      rw [forLoop_write _ (fun j => [.chr '\t', .str (tline_type.m_modes.getD i ""), .chr ' ',
        .str (ext.TLINERESULT_NAMES j)])]
      · simp [header_mode_tokens]
      · intro j _ _ s
        simp [List.getElem?_eq_getElem hi, List.getD_eq_getElem?_getD, ofstream_write_apply]
  unfold write_header
  simp only [run_bind_eq]
  simp only [Run.bind, ofstream_write_apply, houter, Sim.appended_appended, header_tokens]

theorem write_body_eq (stride : Nat) (values buffer : List real_t)
    (hlen : stride * values.length ≤ buffer.length) (s : Sim) :
    write_body stride values buffer s
      = (.ok (), s.appended
          ((List.range values.length).flatMap (row_tokens stride values buffer))) := by
  unfold write_body
  rw [forLoop_write _ (row_tokens stride values buffer)]
  · simp
  · intro i _ hi s
    simp only [Nat.zero_add] at hi
    have hinner : ∀ s : Sim,
        forLoop (fun j _ =>
            match buffer[stride * i + j]? with
            | some r => ofstream_write [.chr '\t', .real r]
            | none => Run.throw (.undefined_behaviour "results[j]"))
          stride 0 () s
        = (.ok (), s.appended ((List.range stride).flatMap
            (fun j => [.chr '\t', .real (buffer.getD (stride * i + j) 0)]))) := by
      intro s
      rw [forLoop_write _ (fun j => [.chr '\t', .real (buffer.getD (stride * i + j) 0)])]
      · simp
      · intro j _ hj s
        simp only [Nat.zero_add] at hj
        have hlt : stride * i + j < buffer.length := by
          have : stride * (i + 1) ≤ stride * values.length := Nat.mul_le_mul_left _ hi
          have h2 : stride * (i + 1) = stride * i + stride := by ring
          omega
        simp [List.getElem?_eq_getElem hlt, List.getD_eq_getElem?_getD, ofstream_write_apply]
    simp only [run_bind_eq]
    simp only [Run.bind, List.getElem?_eq_getElem hi, ofstream_write_apply, hinner,
      Sim.appended_appended, row_tokens, List.getD_eq_getElem?_getD, Option.getD_some]

theorem linesOf_append_endl (l rest : List Tok) (hl : ∀ t ∈ l, t ≠ Tok.endl) :
    linesOf (l ++ Tok.endl :: rest) = l :: linesOf rest := by
  induction l with
  | nil => simp [linesOf]
  | cons t l ih =>
    have ht : t ≠ Tok.endl := hl t (by simp)
    have ih' := ih (fun t' ht' => hl t' (by simp [ht']))
    simp [linesOf, ht, ih']

theorem linesOf_flatMap (ls : List (List Tok)) (hls : ∀ l ∈ ls, ∀ t ∈ l, t ≠ Tok.endl) :
    linesOf (ls.flatMap (fun l => l ++ [Tok.endl])) = ls := by
  induction ls with
  | nil => simp [linesOf]
  | cons l ls ih =>
    rw [List.flatMap_cons, List.append_assoc, List.singleton_append,
      linesOf_append_endl l _ (hls l (by simp)), ih (fun l' hl' => hls l' (by simp [hl']))]

theorem cellsOf_append_tab (c rest : List Tok) (hc : ∀ t ∈ c, t ≠ Tok.chr '\t') :
    cellsOf (c ++ Tok.chr '\t' :: rest) = c :: cellsOf rest := by
  induction c with
  | nil => simp [cellsOf]
  | cons t c ih =>
    have ht : t ≠ Tok.chr '\t' := hc t (by simp)
    have ih' := ih (fun t' ht' => hc t' (by simp [ht']))
    simp [cellsOf, ht, ih']

theorem cellsOf_single (c : List Tok) (hc : ∀ t ∈ c, t ≠ Tok.chr '\t') : cellsOf c = [c] := by
  induction c with
  | nil => simp [cellsOf]
  | cons t c ih =>
    have ht : t ≠ Tok.chr '\t' := hc t (by simp)
    have ih' := ih (fun t' ht' => hc t' (by simp [ht']))
    simp [cellsOf, ht, ih']

theorem cellsOf_flatMap (c : List Tok) (cs : List (List Tok))
    (hc : ∀ t ∈ c, t ≠ Tok.chr '\t') (hcs : ∀ c' ∈ cs, ∀ t ∈ c', t ≠ Tok.chr '\t') :
    cellsOf (c ++ cs.flatMap (fun c' => Tok.chr '\t' :: c')) = c :: cs := by
  induction cs generalizing c with
  | nil => simpa using cellsOf_single c hc
  | cons c1 cs ih =>
    rw [List.flatMap_cons, List.cons_append, cellsOf_append_tab c _ hc,
      ih c1 (hcs c1 (by simp)) (fun c' hc' => hcs c' (by simp [hc']))]

theorem flatMap_range_map_length {α : Type} (g : Nat → Nat → α) (M F : Nat) :
    ((List.range M).flatMap (fun i => (List.range F).map (g i))).length = M * F := by
  induction M with
  | zero => simp
  | succ M ih =>
    rw [List.range_succ, List.flatMap_append, List.length_append, ih]
    simp [Nat.succ_mul]

theorem flatMap_range_map_getElem? {α : Type} (g : Nat → Nat → α) (M F i j : Nat)
    (hi : i < M) (hj : j < F) :
    ((List.range M).flatMap (fun i => (List.range F).map (g i)))[F * i + j]? = some (g i j) := by
  induction M with
  | zero => omega
  | succ M ih =>
    rw [List.range_succ, List.flatMap_append]
    by_cases h : i < M
    · have hlt : F * i + j < M * F := by
        have : F * (i + 1) ≤ F * M := Nat.mul_le_mul_left _ h
        have h2 : F * (i + 1) = F * i + F := by ring
        have h3 : F * M = M * F := Nat.mul_comm _ _
        omega
      rw [List.getElem?_append_left (by rw [flatMap_range_map_length]; exact hlt)]
      exact ih h
    · have hiM : i = M := by omega
      subst hiM
      rw [List.getElem?_append_right (by rw [flatMap_range_map_length, Nat.mul_comm]; omega),
        flatMap_range_map_length]
      have : F * i + j - i * F = j := by rw [Nat.mul_comm]; omega
      rw [this]
      simp [hj]

theorem header_tokens_eq (ext : Externals) (tline_type : TLineType) (first : String) :
    header_tokens ext tline_type first = header_line ext tline_type first ++ [Tok.endl] := by
  unfold header_tokens header_line header_mode_tokens
  simp only [List.flatMap_assoc, List.flatMap_map, Function.comp_def]

theorem row_tokens_eq (stride : Nat) (values buffer : List real_t) (k : Nat) :
    row_tokens stride values buffer k = row_line stride values buffer k ++ [Tok.endl] := by
  unfold row_tokens row_line
  simp only [List.flatMap_map, Function.comp_def, List.singleton_append]

theorem table_tokens_eq (ext : Externals) (tline_type : TLineType) (first : String)
    (stride : Nat) (values buffer : List real_t) :
    header_tokens ext tline_type first
        ++ (List.range values.length).flatMap (row_tokens stride values buffer)
      = (header_line ext tline_type first
          :: (List.range values.length).map (row_line stride values buffer)).flatMap
          (fun l => l ++ [Tok.endl]) := by
  rw [List.flatMap_cons, header_tokens_eq, List.flatMap_map]
  congr 2
  funext k
  exact row_tokens_eq stride values buffer k

theorem header_line_noendl (ext : Externals) (tline_type : TLineType) (first : String) :
    ∀ t ∈ header_line ext tline_type first, t ≠ Tok.endl := by
  intro t ht
  unfold header_line at ht
  simp only [List.mem_append, List.mem_flatMap, List.mem_map,
    List.mem_cons, List.mem_range, List.not_mem_nil, or_false] at ht
  rcases ht with rfl | ⟨c, ⟨i, -, j, -, rfl⟩, rfl | ht⟩
  · simp
  · simp
  · simp only [List.mem_cons, List.not_mem_nil, or_false] at ht
    rcases ht with rfl | rfl | rfl <;> simp

theorem row_line_noendl (stride : Nat) (values buffer : List real_t) (k : Nat) :
    ∀ t ∈ row_line stride values buffer k, t ≠ Tok.endl := by
  intro t ht
  unfold row_line at ht
  simp only [List.mem_append, List.mem_flatMap, List.mem_map,
    List.mem_cons, List.mem_range, List.not_mem_nil, or_false] at ht
  rcases ht with rfl | ⟨c, ⟨j, -, rfl⟩, rfl | ht⟩
  · simp
  · simp
  · simp only [List.mem_cons, List.not_mem_nil, or_false] at ht
    subst ht; simp

theorem cellsOf_header_line (ext : Externals) (tline_type : TLineType) (first : String) :
    cellsOf (header_line ext tline_type first)
      = [Tok.str first] :: (List.range tline_type.m_modes.length).flatMap (fun i =>
          (List.range ext.TLINERESULT_COUNT).map (fun j =>
            [Tok.str (tline_type.m_modes.getD i ""), Tok.chr ' ',
              Tok.str (ext.TLINERESULT_NAMES j)])) := by
  unfold header_line
  apply cellsOf_flatMap
  · simp
  · intro c hc t ht
    simp only [List.mem_flatMap, List.mem_map, List.mem_range] at hc
    obtain ⟨i, -, j, -, rfl⟩ := hc
    simp only [List.mem_cons, List.mem_singleton, List.not_mem_nil, or_false] at ht
    rcases ht with rfl | rfl | rfl
    · simp
    · decide
    · simp

theorem cellsOf_row_line (stride : Nat) (values buffer : List real_t) (k : Nat) :
    cellsOf (row_line stride values buffer k)
      = [Tok.real (values.getD k 0)]
        :: (List.range stride).map (fun c => [Tok.real (buffer.getD (stride * k + c) 0)]) := by
  unfold row_line
  apply cellsOf_flatMap
  · simp
  · intro c hc t ht
    simp only [List.mem_map, List.mem_range] at hc
    obtain ⟨j, -, rfl⟩ := hc
    simp only [List.mem_singleton] at ht
    subst ht; simp

/-- The tokens written by the header and body writers form the table of the
sweep. -/
theorem table_tokens_isSweepTable (ext : Externals) (tline_type : TLineType) (first : String)
    (values buffer : List real_t)
    (hlen : ext.TLINERESULT_COUNT * tline_type.m_modes.length * values.length ≤ buffer.length) :
    IsSweepTable tline_type.m_modes ext.TLINERESULT_COUNT ext.TLINERESULT_NAMES first values
      buffer
      (header_tokens ext tline_type first
        ++ (List.range values.length).flatMap
            (row_tokens (ext.TLINERESULT_COUNT * tline_type.m_modes.length) values buffer)) := by
  have hlines := linesOf_flatMap
    (header_line ext tline_type first
      :: (List.range values.length).map
          (row_line (ext.TLINERESULT_COUNT * tline_type.m_modes.length) values buffer))
    (by
      intro l hl
      simp only [List.mem_cons, List.mem_map, List.mem_range] at hl
      rcases hl with rfl | ⟨k, -, rfl⟩
      · exact header_line_noendl ext tline_type first
      · exact row_line_noendl _ values buffer k)
  rw [table_tokens_eq]
  unfold IsSweepTable
  rw [hlines]
  have hMF : tline_type.m_modes.length * ext.TLINERESULT_COUNT
      = ext.TLINERESULT_COUNT * tline_type.m_modes.length := Nat.mul_comm _ _
  refine ⟨by simp; omega, ⟨header_line ext tline_type first, by simp, ?_, ?_, ?_⟩, ?_⟩
  · rw [cellsOf_header_line, List.length_cons, flatMap_range_map_length]; omega
  · rw [cellsOf_header_line]; simp
  · intro i j hi hj
    refine ⟨tline_type.m_modes[i], List.getElem?_eq_getElem hi, ?_⟩
    rw [cellsOf_header_line, Nat.add_assoc, Nat.add_comm 1, List.getElem?_cons_succ,
      flatMap_range_map_getElem? _ _ _ i j hi hj]
    simp [List.getD_eq_getElem?_getD, List.getElem?_eq_getElem hi]
  · intro k hk
    refine ⟨row_line (ext.TLINERESULT_COUNT * tline_type.m_modes.length) values buffer k,
      values[k], ?_, List.getElem?_eq_getElem hk, ?_, ?_, ?_⟩
    · rw [Nat.add_comm 1, List.getElem?_cons_succ, List.getElem?_map,
        List.getElem?_range hk]
      rfl
    · rw [cellsOf_row_line]; simp; omega
    · rw [cellsOf_row_line]
      simp [List.getD_eq_getElem?_getD, List.getElem?_eq_getElem hk]
    · intro c hc
      rw [hMF] at hc ⊢
      have hlt : ext.TLINERESULT_COUNT * tline_type.m_modes.length * k + c < buffer.length := by
        have h1 : ext.TLINERESULT_COUNT * tline_type.m_modes.length * (k + 1)
            ≤ ext.TLINERESULT_COUNT * tline_type.m_modes.length * values.length :=
          Nat.mul_le_mul_left _ hk
        have h2 : ext.TLINERESULT_COUNT * tline_type.m_modes.length * (k + 1)
            = ext.TLINERESULT_COUNT * tline_type.m_modes.length * k
              + ext.TLINERESULT_COUNT * tline_type.m_modes.length := by ring
        omega
      refine ⟨buffer[ext.TLINERESULT_COUNT * tline_type.m_modes.length * k + c],
        List.getElem?_eq_getElem hlt, ?_⟩
      rw [cellsOf_row_line, Nat.add_comm 1, List.getElem?_cons_succ, List.getElem?_map,
        List.getElem?_range hc]
      simp [List.getD_eq_getElem?_getD, List.getElem?_eq_getElem hlt]

/-! ## The output stages -/

theorem Run.KeepsLog.bind {α β : Type} {x : Run α} {f : α → Run β} (hx : x.KeepsLog)
    (hf : ∀ a, (f a).KeepsLog) : (Run.bind x f).KeepsLog := by
  intro s
  unfold Run.bind
  have h := hx s
  cases hxs : x s with
  | mk r s' =>
    rw [hxs] at h
    cases r with
    | ok a =>
      simp only
      have h2 := hf a s'
      exact ⟨h2.1.trans h.1, h2.2.trans h.2⟩
    | error e => exact h

theorem Run.KeepsLog.forLoop {β : Type} {body : Nat → β → Run β}
    (hbody : ∀ i b, (body i b).KeepsLog) (n i : Nat) (b : β) :
    (forLoop body n i b).KeepsLog := by
  induction n generalizing i b with
  | zero => intro s; exact ⟨rfl, rfl⟩
  | succ n ih => exact Run.KeepsLog.bind (hbody i b) (fun b' => ih (i + 1) b')

theorem ofstream_write_keepsLog (toks : List Tok) : (ofstream_write toks).KeepsLog :=
  fun _ => ⟨rfl, rfl⟩

theorem throw_keepsLog {α : Type} (e : Error) : (Run.throw e : Run α).KeepsLog :=
  fun _ => ⟨rfl, rfl⟩

theorem open_output_apply (filename : String) (s : Sim) :
    open_output filename s
      = if s.file_writable filename then (.ok (), { s with file := some [] })
        else (.error (.runtime_error ("Could not open file '" ++ filename ++ "' for writing.")),
          s) := by
  unfold open_output
  simp only [run_bind_eq]
  by_cases h : s.file_writable filename <;>
    simp [Run.bind, ofstream_open, h, Run.throw, run_pure_eq, Run.pure]

theorem open_output_keepsLog (filename : String) : (open_output filename).KeepsLog := by
  intro s
  rw [open_output_apply]
  split_ifs <;> exact ⟨rfl, rfl⟩

theorem write_header_keepsLog (ext : Externals) (tline_type : TLineType) (first : String) :
    (write_header ext tline_type first).KeepsLog := by
  intro s
  rw [write_header_eq]
  exact ⟨rfl, rfl⟩

theorem write_body_keepsLog (stride : Nat) (values buffer : List real_t) :
    (write_body stride values buffer).KeepsLog := by
  unfold write_body
  apply Run.KeepsLog.forLoop
  intro i _
  simp only [run_bind_eq]
  have hinner : (forLoop (fun j (_ : Unit) =>
      match buffer[stride * i + j]? with
      | some r => ofstream_write [.chr '\t', .real r]
      | none => Run.throw (.undefined_behaviour "results[j]")) stride 0 ()).KeepsLog := by
    apply Run.KeepsLog.forLoop
    intro j _
    cases buffer[stride * i + j]? with
    | none => exact throw_keepsLog _
    | some r => exact ofstream_write_keepsLog _
  cases values[i]? with
  | none =>
    exact Run.KeepsLog.bind (throw_keepsLog _) (fun _ =>
      Run.KeepsLog.bind hinner (fun _ => ofstream_write_keepsLog _))
  | some v =>
    exact Run.KeepsLog.bind (ofstream_write_keepsLog _) (fun _ =>
      Run.KeepsLog.bind hinner (fun _ => ofstream_write_keepsLog _))

theorem ParameterSweep_output_keepsLog (ext : Externals) (tline_type : TLineType)
    (filename : String) (sweep_values : List real_t) (param_index : Nat)
    (combined_results : List real_t) :
    (ParameterSweep_output ext tline_type filename sweep_values param_index
      combined_results).KeepsLog := by
  unfold ParameterSweep_output
  simp only [run_bind_eq]
  refine Run.KeepsLog.bind (open_output_keepsLog _) (fun _ => ?_)
  cases tline_type.m_parameters[param_index]? with
  | none => exact Run.KeepsLog.bind (throw_keepsLog _) (fun _ => write_body_keepsLog _ _ _)
  | some p =>
    exact Run.KeepsLog.bind (write_header_keepsLog _ _ _) (fun _ => write_body_keepsLog _ _ _)

/-- The output stage of the parameter sweep when the file cannot be opened. -/
theorem ParameterSweep_output_unwritable (ext : Externals) (tline_type : TLineType)
    (filename : String) (sweep_values : List real_t) (param_index : Nat)
    (combined_results : List real_t) (s : Sim) (hw : s.file_writable filename = false) :
    ParameterSweep_output ext tline_type filename sweep_values param_index combined_results s
      = (.error (.runtime_error ("Could not open file '" ++ filename ++ "' for writing.")),
          s) := by
  unfold ParameterSweep_output
  simp only [run_bind_eq]
  rw [Run.bind_error _ _ s s
    (.runtime_error ("Could not open file '" ++ filename ++ "' for writing."))
    (by rw [open_output_apply]; simp [hw])]

/-- The output stage of the parameter sweep when the file can be opened, the
selected parameter exists and the buffer holds a slice for every value. -/
theorem ParameterSweep_output_eq (ext : Externals) (tline_type : TLineType)
    (filename : String) (sweep_values : List real_t) (param_index : Nat)
    (combined_results : List real_t) (s : Sim) (parameter : TLineParameter)
    (hw : s.file_writable filename = true)
    (hp : tline_type.m_parameters[param_index]? = some parameter)
    (hlen : ext.TLINERESULT_COUNT * tline_type.m_modes.length * sweep_values.length
      ≤ combined_results.length) :
    ParameterSweep_output ext tline_type filename sweep_values param_index combined_results s
      = (.ok (), { s with file := some (header_tokens ext tline_type parameter.m_name
          ++ (List.range sweep_values.length).flatMap
            (row_tokens (ext.TLINERESULT_COUNT * tline_type.m_modes.length) sweep_values
              combined_results)) }) := by
  unfold ParameterSweep_output
  simp only [run_bind_eq, hp]
  rw [Run.bind_ok _ _ s { s with file := some [] } () (by rw [open_output_apply]; simp [hw])]
  rw [Run.bind_ok _ _ _ _ () (write_header_eq _ _ _ _), write_body_eq _ _ _ hlen]
  simp [Sim.appended]

/-- The loop and the output stage of the parameter sweep with the cancel flag
set at its next read: the stages fail, leave the output file alone, and if a
progress value is stored it is the only one, stored after one solver call, and
the failure is the cancellation error. -/
theorem ParameterSweep_stages_canceled (ext : Externals) (tline_type : TLineType)
    (filename : String) (sweep_values : List real_t) (param_index : Nat)
    (context : TLineContext) (combined_results : List real_t) (s : Sim)
    (hlen : 1 ≤ sweep_values.length)
    (hcancel : s.task_canceled s.canceled_reads = true) :
    (Run.bind
        (ParameterSweep_task ext tline_type sweep_values param_index context combined_results)
        (fun r => ParameterSweep_output ext tline_type filename sweep_values param_index r.2)
        s).2.file = s.file ∧
    (∃ e, (Run.bind
        (ParameterSweep_task ext tline_type sweep_values param_index context combined_results)
        (fun r => ParameterSweep_output ext tline_type filename sweep_values param_index r.2)
        s).1 = .error e) ∧
    ((Run.bind
        (ParameterSweep_task ext tline_type sweep_values param_index context combined_results)
        (fun r => ParameterSweep_output ext tline_type filename sweep_values param_index r.2)
        s).2.task_progress ≠ s.task_progress →
      (Run.bind
        (ParameterSweep_task ext tline_type sweep_values param_index context combined_results)
        (fun r => ParameterSweep_output ext tline_type filename sweep_values param_index r.2)
        s).1 = .error (.runtime_error "Parameter sweep canceled by user.") ∧
      (Run.bind
        (ParameterSweep_task ext tline_type sweep_values param_index context combined_results)
        (fun r => ParameterSweep_output ext tline_type filename sweep_values param_index r.2)
        s).2.task_progress = s.task_progress ++ [1] ∧
      ∃ c, (Run.bind
        (ParameterSweep_task ext tline_type sweep_values param_index context combined_results)
        (fun r => ParameterSweep_output ext tline_type filename sweep_values param_index r.2)
        s).2.solver_calls = s.solver_calls ++ [c]) := by
  obtain ⟨n, hn⟩ : ∃ n, sweep_values.length = n + 1 := ⟨_, (Nat.sub_add_cancel hlen).symm⟩
  have hloop := ParameterSweep_loop_canceled ext tline_type sweep_values param_index n 0
    (context, combined_results) s hcancel
  have hframe := ParameterSweep_loop_frame ext tline_type sweep_values param_index (n + 1) 0
    (context, combined_results) s
  have htask : ParameterSweep_task ext tline_type sweep_values param_index context
      combined_results s
      = forLoop (ParameterSweep_body ext tline_type sweep_values param_index) (n + 1) 0
          (context, combined_results) s := by
    unfold ParameterSweep_task; rw [hn]
  rw [← htask] at hloop hframe
  cases hl : ParameterSweep_task ext tline_type sweep_values param_index context
      combined_results s with
  | mk r s2 =>
    rw [hl] at hloop hframe
    simp only at hloop hframe
    obtain ⟨⟨e, he⟩, hprog⟩ := hloop
    subst he
    rw [Run.bind_error _ _ s s2 e hl]
    refine ⟨hframe.1, ⟨e, rfl⟩, ?_⟩
    intro hne
    obtain ⟨h1, h2, c, h3⟩ := hprog hne
    exact ⟨by rw [Except.error.inj h1], by rw [h2]; simp, c, h3⟩

/-- The loop and the output stage of the parameter sweep: if a recorded solver
call threw, the stages fail with its exception, it is the last call, and the
output file is left alone. -/
theorem ParameterSweep_stages_failure (ext : Externals) (tline_type : TLineType)
    (filename : String) (sweep_values : List real_t) (param_index : Nat)
    (context : TLineContext) (combined_results : List real_t) (s : Sim)
    (k : Nat) (c : TLineContext) (e : Error)
    (hcall : (Run.bind
        (ParameterSweep_task ext tline_type sweep_values param_index context combined_results)
        (fun r => ParameterSweep_output ext tline_type filename sweep_values param_index r.2)
        s).2.solver_calls[s.solver_calls.length + k]? = some c)
    (hfail : (tline_type.m_simulate c).outcome = .error e) :
    (Run.bind
        (ParameterSweep_task ext tline_type sweep_values param_index context combined_results)
        (fun r => ParameterSweep_output ext tline_type filename sweep_values param_index r.2)
        s).1 = .error e ∧
    (Run.bind
        (ParameterSweep_task ext tline_type sweep_values param_index context combined_results)
        (fun r => ParameterSweep_output ext tline_type filename sweep_values param_index r.2)
        s).2.solver_calls.length = s.solver_calls.length + k + 1 ∧
    (Run.bind
        (ParameterSweep_task ext tline_type sweep_values param_index context combined_results)
        (fun r => ParameterSweep_output ext tline_type filename sweep_values param_index r.2)
        s).2.file = s.file := by
  obtain ⟨calls, hcalls, -, hprop⟩ := ParameterSweep_loop_calls ext tline_type sweep_values
    param_index sweep_values.length 0 (context, combined_results) s
  have hframe := ParameterSweep_loop_frame ext tline_type sweep_values param_index
    sweep_values.length 0 (context, combined_results) s
  have htask : forLoop (ParameterSweep_body ext tline_type sweep_values param_index)
      sweep_values.length 0 (context, combined_results) s
      = ParameterSweep_task ext tline_type sweep_values param_index context
          combined_results s := rfl
  rw [htask] at hcalls hprop hframe
  cases hl : ParameterSweep_task ext tline_type sweep_values param_index context
      combined_results s with
  | mk r s2 =>
    rw [hl] at hcalls hprop hframe
    simp only at hcalls hprop hframe
    cases r with
    | error e' =>
      rw [Run.bind_error _ _ s s2 e' hl] at hcall ⊢
      simp only at hcall ⊢
      rw [hcalls] at hcall ⊢
      rw [List.getElem?_append_right (by omega), Nat.add_sub_cancel_left] at hcall
      obtain ⟨h1, h2⟩ := hprop k c e hcall hfail
      exact ⟨by rw [Except.error.inj h1], by rw [List.length_append, h2, Nat.add_assoc], hframe.1⟩
    | ok vars =>
      rw [Run.bind_ok _ _ s s2 vars hl] at hcall
      rw [(ParameterSweep_output_keepsLog ext tline_type _ _ _ _ s2).1, hcalls,
        List.getElem?_append_right (by omega), Nat.add_sub_cancel_left] at hcall
      obtain ⟨h1, -⟩ := hprop k c e hcall hfail
      cases h1

/-! ## The start of the four run modes -/

theorem bind_SimulationInit {β : Type} (ext : Externals) (context : TLineContext)
    (f : TLineContext → Run β) (s : Sim) :
    Run.bind (SimulationInit ext context) f s
      = match (SimulationInit ext context s).1 with
        | .ok c => f c s
        | .error e => (.error e, s) := by
  cases h : (SimulationInit ext context s).1 with
  | ok c => exact Run.bind_ok _ _ s s c (by rw [SimulationInit_result, h])
  | error e => exact Run.bind_error _ _ s s e (by rw [SimulationInit_result, h])

theorem bind_lift {α β : Type} (p : Except Error α) (f : α → Run β) (s : Sim) :
    Run.bind (Run.lift p) f s
      = match p with
        | .ok a => f a s
        | .error e => (.error e, s) := by
  cases p <;> rfl

/-- A loop fails when one of its iterations fails whatever it starts from. -/
theorem forLoop_fails {β : Type} (body : Nat → β → Run β) (i : Nat)
    (hbody : ∀ b s, ∃ e, (body i b s).1 = .error e) (n start : Nat)
    (h1 : start ≤ i) (h2 : i < start + n) (b : β) (s : Sim) :
    ∃ e, (forLoop body n start b s).1 = .error e := by
  induction n generalizing start b s with
  | zero => omega
  | succ n ih =>
    rw [forLoop_succ]
    cases hb : body start b s with
    | mk r s' =>
      cases r with
      | error e => exact ⟨e, rfl⟩
      | ok b' =>
        simp only
        by_cases hi : start = i
        · subst hi
          obtain ⟨e, he⟩ := hbody b s
          rw [hb] at he
          cases he
        · exact ih (start + 1) (by omega) (by omega) b' s'

/-- `SimulationInit` fails when the text of a real-typed parameter cannot be
parsed. -/
theorem SimulationInit_unparsable (ext : Externals) (context : TLineContext) (s : Sim)
    (i : Nat) (parameter : TLineParameter) (lineedit : CustomLineEdit) (text : String)
    (e : Error)
    (hp : s.window.m_tline_type.m_parameters[i]? = some parameter)
    (ht : parameter.m_type = .TLINE_PARAMETERTYPE_REAL)
    (hw : s.window.m_widget_parameters[i]? = some (.CustomLineEdit lineedit))
    (hg : lineedit.GetText ext = .ok text)
    (hj : ext.Json_FromString text = .error e) :
    ∃ e', (SimulationInit ext context s).1 = .error e' := by
  have hi : i < s.window.m_tline_type.m_parameters.length := by
    by_contra hge
    rw [List.getElem?_eq_none (by omega)] at hp
    cases hp
  have hunfold : SimulationInit ext context s
      = forLoop (SimulationInit_body ext s.window) s.window.m_tline_type.m_parameters.length 0
          { context with m_material_database := some s.window.m_material_database } s := rfl
  rw [hunfold]
  apply forLoop_fails _ i _ _ 0 (Nat.zero_le _) (by omega)
  intro b s'
  refine ⟨e, ?_⟩
  unfold SimulationInit_body
  rw [hp]
  simp only [run_bind_eq]
  have hv : SimulationInit_value ext s.window i parameter = .error e := by
    unfold SimulationInit_value
    rw [ht]
    simp only [hw, hg, hj]
  rw [hv]
  rfl

theorem SimulateSingleFrequency_prefix (ext : Externals) (s : Sim) :
    FailsAt (SimulateSingleFrequency ext) s ∨
    ((∃ c, (SimulationInit ext TLineContext.empty s).1 = .ok c) ∧
      ∃ a, FloatFromString ext s.window.m_lineedit_frequency = .ok a) := by
  obtain ⟨rest, hrest⟩ : ∃ rest : TLineContext → real_t → Run Unit,
      SimulateSingleFrequency ext s
        = Run.bind (SimulationInit ext TLineContext.empty) (fun c =>
            Run.bind (Run.lift (FloatFromString ext s.window.m_lineedit_frequency))
              (fun a => rest c a)) s := ⟨_, rfl⟩
  unfold FailsAt
  rw [hrest, bind_SimulationInit]
  cases h0 : (SimulationInit ext TLineContext.empty s).1 with
  | error e => exact Or.inl ⟨rfl, e, rfl⟩
  | ok c =>
    simp only
    rw [bind_lift]
    cases h1 : FloatFromString ext s.window.m_lineedit_frequency with
    | error e => exact Or.inl ⟨rfl, e, rfl⟩
    | ok a => exact Or.inr ⟨⟨c, rfl⟩, a, rfl⟩

theorem SimulateFrequencySweep_prefix (ext : Externals) (s : Sim) :
    FailsAt (SimulateFrequencySweep ext) s ∨
    ((∃ c, (SimulationInit ext TLineContext.empty s).1 = .ok c) ∧
      (∃ a, FloatFromString ext s.window.m_lineedit_frequency_sweep_min = .ok a) ∧
      (∃ a, FloatFromString ext s.window.m_lineedit_frequency_sweep_max = .ok a) ∧
      ∃ a, FloatFromString ext s.window.m_lineedit_frequency_sweep_step = .ok a) := by
  obtain ⟨rest, hrest⟩ : ∃ rest : TLineContext → real_t → real_t → real_t → Run Unit,
      SimulateFrequencySweep ext s
        = Run.bind (SimulationInit ext TLineContext.empty) (fun c =>
            Run.bind (Run.lift (FloatFromString ext s.window.m_lineedit_frequency_sweep_min))
              (fun a1 =>
            Run.bind (Run.lift (FloatFromString ext s.window.m_lineedit_frequency_sweep_max))
              (fun a2 =>
            Run.bind (Run.lift (FloatFromString ext s.window.m_lineedit_frequency_sweep_step))
              (fun a3 => rest c a1 a2 a3)))) s := ⟨_, rfl⟩
  unfold FailsAt
  rw [hrest, bind_SimulationInit]
  cases h0 : (SimulationInit ext TLineContext.empty s).1 with
  | error e => exact Or.inl ⟨rfl, e, rfl⟩
  | ok c =>
    simp only
    rw [bind_lift]
    cases h1 : FloatFromString ext s.window.m_lineedit_frequency_sweep_min with
    | error e => exact Or.inl ⟨rfl, e, rfl⟩
    | ok a1 =>
      simp only
      rw [bind_lift]
      cases h2 : FloatFromString ext s.window.m_lineedit_frequency_sweep_max with
      | error e => exact Or.inl ⟨rfl, e, rfl⟩
      | ok a2 =>
        simp only
        rw [bind_lift]
        cases h3 : FloatFromString ext s.window.m_lineedit_frequency_sweep_step with
        | error e => exact Or.inl ⟨rfl, e, rfl⟩
        | ok a3 => exact Or.inr ⟨⟨c, rfl⟩, ⟨a1, rfl⟩, ⟨a2, rfl⟩, a3, rfl⟩

theorem SimulateParameterTune_prefix (ext : Externals) (s : Sim) :
    FailsAt (SimulateParameterTune ext) s ∨
    ((∃ c, (SimulationInit ext TLineContext.empty s).1 = .ok c) ∧
      (∃ a, FloatFromString ext s.window.m_lineedit_frequency = .ok a) ∧
      ∃ a, FloatFromString ext s.window.m_lineedit_parameter_tune_target_value = .ok a) := by
  obtain ⟨rest, hrest⟩ : ∃ rest : TLineContext → real_t → real_t → Run Unit,
      SimulateParameterTune ext s
        = Run.bind (SimulationInit ext TLineContext.empty) (fun c =>
            Run.bind (Run.lift (FloatFromString ext s.window.m_lineedit_frequency))
              (fun a1 =>
            Run.bind (Run.lift
                (FloatFromString ext s.window.m_lineedit_parameter_tune_target_value))
              (fun a2 => rest c a1 a2))) s := ⟨_, rfl⟩
  unfold FailsAt
  rw [hrest, bind_SimulationInit]
  cases h0 : (SimulationInit ext TLineContext.empty s).1 with
  | error e => exact Or.inl ⟨rfl, e, rfl⟩
  | ok c =>
    simp only
    rw [bind_lift]
    cases h1 : FloatFromString ext s.window.m_lineedit_frequency with
    | error e => exact Or.inl ⟨rfl, e, rfl⟩
    | ok a1 =>
      simp only
      rw [bind_lift]
      cases h2 : FloatFromString ext s.window.m_lineedit_parameter_tune_target_value with
      | error e => exact Or.inl ⟨rfl, e, rfl⟩
      | ok a2 => exact Or.inr ⟨⟨c, rfl⟩, ⟨a1, rfl⟩, a2, rfl⟩

/-! ## The parameter sweep from its inputs to its table -/

/-- `SimulateParameterSweep` when its inputs are accepted: the loop followed by
the output stage. -/
theorem SimulateParameterSweep_run (ext : Externals) (s : Sim) (context : TLineContext)
    (frequency value_min value_max value_step : real_t)
    (hinit : (SimulationInit ext TLineContext.empty s).1 = .ok context)
    (hfreq : FloatFromString ext s.window.m_lineedit_frequency = .ok frequency)
    (hmin : FloatFromString ext s.window.m_lineedit_parameter_sweep_min = .ok value_min)
    (hmax : FloatFromString ext s.window.m_lineedit_parameter_sweep_max = .ok value_max)
    (hstep : FloatFromString ext s.window.m_lineedit_parameter_sweep_step = .ok value_step) :
    SimulateParameterSweep ext s
      = Run.bind
          (ParameterSweep_task ext s.window.m_tline_type
            (MakeSweep ext.rintp [] value_min value_max value_step)
            (size_t_of_int s.window.m_combobox_parameter_sweep_parameter.currentData)
            { context with m_frequencies := [frequency * 1000000000] }
            (vector_resize [] (ext.TLINERESULT_COUNT * s.window.m_tline_type.m_modes.length
              * (MakeSweep ext.rintp [] value_min value_max value_step).length)))
          (fun r => ParameterSweep_output ext s.window.m_tline_type
            s.window.m_lineedit_parameter_sweep_file
            (MakeSweep ext.rintp [] value_min value_max value_step)
            (size_t_of_int s.window.m_combobox_parameter_sweep_parameter.currentData) r.2)
          s := by
  have hunfold : SimulateParameterSweep ext s
      = Run.bind (SimulationInit ext TLineContext.empty) (fun context =>
          Run.bind (Run.lift (FloatFromString ext s.window.m_lineedit_frequency))
            (fun frequency =>
          Run.bind (Run.lift (FloatFromString ext s.window.m_lineedit_parameter_sweep_min))
            (fun value_min =>
          Run.bind (Run.lift (FloatFromString ext s.window.m_lineedit_parameter_sweep_max))
            (fun value_max =>
          Run.bind (Run.lift (FloatFromString ext s.window.m_lineedit_parameter_sweep_step))
            (fun value_step =>
          Run.bind
            (ParameterSweep_task ext s.window.m_tline_type
              (MakeSweep ext.rintp [] value_min value_max value_step)
              (size_t_of_int s.window.m_combobox_parameter_sweep_parameter.currentData)
              { context with m_frequencies := [frequency * 1000000000] }
              (vector_resize [] (ext.TLINERESULT_COUNT * s.window.m_tline_type.m_modes.length
                * (MakeSweep ext.rintp [] value_min value_max value_step).length)))
            (fun r => ParameterSweep_output ext s.window.m_tline_type
              s.window.m_lineedit_parameter_sweep_file
              (MakeSweep ext.rintp [] value_min value_max value_step)
              (size_t_of_int s.window.m_combobox_parameter_sweep_parameter.currentData)
              r.2)))))) s := rfl
  rw [hunfold, bind_SimulationInit, hinit]
  simp only
  rw [bind_lift, hfreq]
  simp only
  rw [bind_lift, hmin]
  simp only
  rw [bind_lift, hmax]
  simp only
  rw [bind_lift, hstep]

/-- The loop of `SimulationInit` appends one entry per iteration. -/
theorem SimulationInit_loop_length (ext : Externals) (w : MainWindow) (n start : Nat)
    (context context' : TLineContext) (s : Sim)
    (h : (forLoop (SimulationInit_body ext w) n start context s).1 = .ok context') :
    context'.m_parameters.length = context.m_parameters.length + n := by
  induction n generalizing start context s with
  | zero =>
    simp only [forLoop_zero, Except.ok.injEq] at h
    subst h; rfl
  | succ n ih =>
    rw [forLoop_succ] at h
    unfold SimulationInit_body at h
    cases hp : w.m_tline_type.m_parameters[start]? with
    | none => rw [hp] at h; cases h
    | some parameter =>
      rw [hp] at h
      simp only [run_bind_eq, run_pure_eq] at h
      cases hv : SimulationInit_value ext w start parameter with
      | error e => rw [hv] at h; cases h
      | ok value =>
        rw [hv] at h
        have h' := ih (start + 1) _ s h
        rw [h']
        simp only [List.length_append, List.length_singleton]
        omega

/-- After `SimulationInit` on an empty context there is one parameter entry
per parameter definition of the line type. -/
theorem SimulationInit_length (ext : Externals) (s : Sim) (context : TLineContext)
    (h : (SimulationInit ext TLineContext.empty s).1 = .ok context) :
    context.m_parameters.length = s.window.m_tline_type.m_parameters.length := by
  have hunfold : SimulationInit ext TLineContext.empty s
      = forLoop (SimulationInit_body ext s.window) s.window.m_tline_type.m_parameters.length 0
          { TLineContext.empty with
            m_material_database := some s.window.m_material_database } s := rfl
  rw [hunfold] at h
  rw [SimulationInit_loop_length ext s.window _ 0 _ context s h]
  simp [TLineContext.empty]

theorem set_parameter_length {context c1 : TLineContext} {param_index : Nat} {value : VData}
    (h : set_parameter context param_index value = .ok c1) :
    c1.m_parameters.length = context.m_parameters.length := by
  unfold set_parameter at h
  cases hp : context.m_parameters[param_index]? with
  | none => rw [hp] at h; cases h
  | some kv =>
    rw [hp] at h
    simp only [Except.ok.injEq] at h
    subst h
    simp

theorem set_parameter_succeeds (context : TLineContext) (param_index : Nat) (value : VData)
    (h : param_index < context.m_parameters.length) :
    ∃ c1, set_parameter context param_index value = .ok c1 := by
  unfold set_parameter
  rw [List.getElem?_eq_getElem h]
  exact ⟨_, rfl⟩

/-- A parameter sweep loop runs to its end when it is not cancelled, the
selected parameter exists, the buffer has room for the slices, and the solver
returns for every context whose selected parameter is a float, keeping the
parameter list and filling one slice of results. -/
theorem ParameterSweep_loop_runs (ext : Externals) (tline_type : TLineType)
    (sweep_values : List real_t) (param_index : Nat)
    (hsolver : ∀ c key x, c.m_parameters[param_index]? = some (key, .ofFloat x) →
      ∃ c', (tline_type.m_simulate c).outcome = .ok c' ∧
        c'.m_parameters.length = c.m_parameters.length ∧
        c'.m_results.length = ext.TLINERESULT_COUNT * tline_type.m_modes.length)
    (n i : Nat) (context : TLineContext) (combined_results : List real_t) (s : Sim)
    (hcancel : ∀ k, s.task_canceled k = false)
    (hindex : param_index < context.m_parameters.length)
    (hvalues : i + n ≤ sweep_values.length)
    (hroom : ext.TLINERESULT_COUNT * tline_type.m_modes.length * (i + n)
      ≤ combined_results.length) :
    ∃ context' combined',
      (forLoop (ParameterSweep_body ext tline_type sweep_values param_index) n i
        (context, combined_results) s).1 = .ok (context', combined') := by
  induction n generalizing i context combined_results s with
  | zero => exact ⟨context, combined_results, rfl⟩
  | succ n ih =>
    rw [forLoop_succ]
    have hi : i < sweep_values.length := by omega
    obtain ⟨c1, hset⟩ := set_parameter_succeeds context param_index
      (.ofFloat (ext.FloatScale sweep_values[i])) hindex
    obtain ⟨key, hkey⟩ := set_parameter_ok hset
    obtain ⟨c2, hsolve, hplen, hrlen⟩ := hsolver c1 key _ hkey
    have hfit : ext.TLINERESULT_COUNT * tline_type.m_modes.length * i + c2.m_results.length
        ≤ combined_results.length := by
      rw [hrlen]
      have h2 : ext.TLINERESULT_COUNT * tline_type.m_modes.length * (i + (n + 1))
          = ext.TLINERESULT_COUNT * tline_type.m_modes.length * i
            + ext.TLINERESULT_COUNT * tline_type.m_modes.length
            + ext.TLINERESULT_COUNT * tline_type.m_modes.length * n := by ring
      omega
    obtain ⟨combined, hcopy⟩ := copy_n_fits _ _ _ hfit
    have hbody : ParameterSweep_body ext tline_type sweep_values param_index i
        (context, combined_results) s = (.ok (c2, combined), s.ticked c1 i) := by
      rw [ParameterSweep_body_eq, List.getElem?_eq_getElem hi]
      simp only [hset, hsolve, hcopy, hcancel s.canceled_reads]
      rfl
    rw [hbody]
    simp only
    apply ih (i + 1) c2 combined (s.ticked c1 i) hcancel
    · rw [hplen, set_parameter_length hset]; exact hindex
    · omega
    · rw [(copy_n_ok hcopy).1]
      have h2 : i + 1 + n = i + (n + 1) := by omega
      rw [h2]; exact hroom

/-- With a nearest rounding, the sweep from 1 to 2 in steps of 1/10 has the
eleven values `1 + k/10`. -/
theorem MakeSweep_one_two (rintp : real_t → ℤ) (hr : IsNearest rintp) :
    MakeSweep rintp [] 1 2 (1 / 10)
      = (List.range 11).map (fun (k : Nat) => (1 : real_t) + (k : real_t) / 10) := by
  have hb := MakeSweep_num_bounds hr 1 2 (1 / 10) (by norm_num)
  have h0 : Max.max (0 : real_t) (2 - 1) / (1 / 10) = 10 := by
    rw [max_eq_right (by norm_num)]; norm_num
  rw [h0] at hb
  have he : 0 < sweep_epsilon ∧ sweep_epsilon < 1 := by unfold sweep_epsilon; norm_num
  have h1 : (10 : real_t) < (MakeSweep_num rintp 1 2 (1 / 10) : real_t) := by linarith [hb.1]
  have h2 : (MakeSweep_num rintp 1 2 (1 / 10) : real_t) < 12 := by linarith [hb.2]
  have h3 : 10 < MakeSweep_num rintp 1 2 (1 / 10) := by exact_mod_cast h1
  have h4 : MakeSweep_num rintp 1 2 (1 / 10) < 12 := by exact_mod_cast h2
  have h5 : MakeSweep_num rintp 1 2 (1 / 10) = 11 := by omega
  rw [MakeSweep_eq_map, h5]
  apply List.map_congr_left
  intro k _
  ring

/-! ## Traces of the tune residual and of the sweep loop -/

theorem ParameterTune_residual_eq (ext : Externals) (tline_type : TLineType)
    (param_index result_index : Nat) (target_value x : real_t) (context : TLineContext)
    (s : Sim) :
    ParameterTune_residual ext tline_type param_index result_index target_value x context s
      = match set_parameter context param_index (.ofFloat (ext.FloatScale x)) with
        | .error e => (.error e, s)
        | .ok c1 =>
          match (tline_type.m_simulate c1).outcome with
          | .error e => (.error e, { s with solver_calls := s.solver_calls ++ [c1] })
          | .ok c2 =>
            match c2.m_results[result_index]? with
            | some result =>
              (.ok (result - target_value, c2),
                { s with solver_calls := s.solver_calls ++ [c1] })
            | none =>
              (.error (.undefined_behaviour "m_results[result_index]"),
                { s with solver_calls := s.solver_calls ++ [c1] }) := by
  unfold ParameterTune_residual
  simp only [run_bind_eq, run_pure_eq]
  cases h2 : set_parameter context param_index (.ofFloat (ext.FloatScale x)) with
  | error e => simp [Run.bind, Run.lift]
  | ok c1 =>
    cases h3 : (tline_type.m_simulate c1).outcome with
    | error e => simp [Run.bind, Run.lift, call_simulate_no_callback, h3]
    | ok c2 =>
      cases h4 : c2.m_results[result_index]? with
      | none => simp [Run.bind, Run.lift, call_simulate_no_callback, h3, h4, Run.throw]
      | some r => simp [Run.bind, Run.lift, call_simulate_no_callback, h3, h4, Run.pure]

/-- A parameter sweep loop that runs to its end made one solver call per
iteration, with the sweep value of the iteration in the selected parameter,
and stored the progress values `i + 1, ..., i + n`, one per iteration. -/
theorem ParameterSweep_loop_trace (ext : Externals) (tline_type : TLineType)
    (sweep_values : List real_t) (param_index : Nat)
    (n i : Nat) (context : TLineContext) (combined_results : List real_t) (s : Sim)
    (context' : TLineContext) (combined' : List real_t)
    (hok : (forLoop (ParameterSweep_body ext tline_type sweep_values param_index) n i
      (context, combined_results) s).1 = .ok (context', combined')) :
    (forLoop (ParameterSweep_body ext tline_type sweep_values param_index) n i
      (context, combined_results) s).2.task_progress
      = s.task_progress ++ (List.range n).map (fun (j : Nat) => ((i + j : Nat) : ℤ) + 1) ∧
    ∃ calls : List TLineContext,
      (forLoop (ParameterSweep_body ext tline_type sweep_values param_index) n i
        (context, combined_results) s).2.solver_calls = s.solver_calls ++ calls ∧
      calls.length = n ∧
      ∀ j, j < n → ∃ c v key, calls[j]? = some c ∧ sweep_values[i + j]? = some v ∧
        c.m_parameters[param_index]? = some (key, .ofFloat (ext.FloatScale v)) := by
  induction n generalizing i context combined_results s with
  | zero => exact ⟨by simp [forLoop_zero], [], by simp [forLoop_zero], rfl, by intro j hj; omega⟩
  | succ n ih =>
    rw [forLoop_succ] at hok ⊢
    rcases ParameterSweep_body_cases ext tline_type sweep_values param_index i context
      combined_results s with ⟨e, h⟩ | ⟨v, c1, hv, hset, ⟨e, -, h⟩ | ⟨c2, h3, ⟨e, -, h⟩ |
        ⟨combined, hcopy, ⟨-, h⟩ | ⟨-, h⟩⟩⟩⟩
    · rw [h] at hok; cases hok
    · rw [h] at hok; cases hok
    · rw [h] at hok; cases hok
    · rw [h] at hok; cases hok
    · rw [h] at hok ⊢
      simp only at hok ⊢
      obtain ⟨hprog, calls, hcalls, hcl, htrace⟩ := ih (i + 1) c2 combined _ hok
      obtain ⟨key, hkey⟩ := set_parameter_ok hset
      refine ⟨?_, c1 :: calls, ?_, by simp [hcl], ?_⟩
      · rw [hprog, List.range_succ_eq_map, List.map_cons, List.map_map]
        simp only [Sim.ticked, List.append_assoc, List.singleton_append, Nat.add_zero]
        congr 2
        apply List.map_congr_left
        intro j _
        simp only [Function.comp]
        congr 2
        omega
      · rw [hcalls]; simp [Sim.ticked]
      · intro j hj
        cases j with
        | zero => exact ⟨c1, v, key, by simp, hv, hkey⟩
        | succ j =>
          obtain ⟨c, v', key', h1, h2, h3'⟩ := htrace j (by omega)
          refine ⟨c, v', key', by simpa using h1, ?_, h3'⟩
          rw [← h2]; congr 1; omega

/-- The loop of `SimulateParameterSweep`, when it runs to its end: one solver
call per sweep value, the `i`-th with the `i`-th sweep value in the selected
parameter, and the progress values `1, ..., N`. -/
theorem ParameterSweep_task_trace (ext : Externals) (tline_type : TLineType)
    (sweep_values : List real_t) (param_index : Nat) (context : TLineContext)
    (combined_results : List real_t) (s : Sim)
    (context' : TLineContext) (combined' : List real_t)
    (hok : (ParameterSweep_task ext tline_type sweep_values param_index context
      combined_results s).1 = .ok (context', combined')) :
    (∃ calls : List TLineContext,
      (ParameterSweep_task ext tline_type sweep_values param_index context combined_results
        s).2.solver_calls = s.solver_calls ++ calls ∧
      calls.length = sweep_values.length ∧
      ∀ i, i < sweep_values.length → ∃ c v key, calls[i]? = some c ∧
        sweep_values[i]? = some v ∧
        c.m_parameters[param_index]? = some (key, .ofFloat (ext.FloatScale v))) ∧
    (ParameterSweep_task ext tline_type sweep_values param_index context combined_results
        s).2.task_progress
      = s.task_progress ++ (List.range sweep_values.length).map (fun (i : Nat) => (i : ℤ) + 1) := by
  unfold ParameterSweep_task at hok ⊢
  obtain ⟨hprog, calls, hcalls, hcl, htrace⟩ := ParameterSweep_loop_trace ext tline_type
    sweep_values param_index sweep_values.length 0 context combined_results s context'
    combined' hok
  refine ⟨⟨calls, hcalls, hcl, ?_⟩, ?_⟩
  · intro i hi
    obtain ⟨c, v, key, h1, h2, h3⟩ := htrace i hi
    exact ⟨c, v, key, h1, by simpa using h2, h3⟩
  · rw [hprog]
    congr 1
    apply List.map_congr_left
    intro j _
    simp

/-! ## The entries `SimulationInit` appends -/

theorem SimulationInit_body_ok (ext : Externals) (w : MainWindow) (i : Nat)
    (context : TLineContext) (s : Sim) (p : TLineParameter) (v : VData)
    (hp : w.m_tline_type.m_parameters[i]? = some p)
    (hv : SimulationInit_value ext w i p = .ok v) :
    SimulationInit_body ext w i context s
      = (.ok { context with
          m_parameters := context.m_parameters ++ [(ext.CanonicalName p.m_name, v)] }, s) := by
  unfold SimulationInit_body
  rw [hp]
  simp only [run_bind_eq, run_pure_eq]
  rw [hv]
  rfl

/-- The loop of `SimulationInit` when every widget can be read: it appends one
entry per parameter definition, in order, and keeps the entries it found. -/
theorem SimulationInit_loop_entries (ext : Externals) (w : MainWindow) (n start : Nat)
    (context : TLineContext) (s : Sim)
    (hn : start + n ≤ w.m_tline_type.m_parameters.length)
    (hvalues : ∀ i p, w.m_tline_type.m_parameters[i]? = some p →
      ∃ v, SimulationInit_value ext w i p = .ok v) :
    ∃ context', (forLoop (SimulationInit_body ext w) n start context s).1 = .ok context' ∧
      context'.m_material_database = context.m_material_database ∧
      context'.m_parameters.length = context.m_parameters.length + n ∧
      (∀ j, j < context.m_parameters.length →
        context'.m_parameters[j]? = context.m_parameters[j]?) ∧
      ∀ j p, j < n → w.m_tline_type.m_parameters[start + j]? = some p →
        ∃ v, context'.m_parameters[context.m_parameters.length + j]?
            = some (ext.CanonicalName p.m_name, v) ∧
          SimulationInit_value ext w (start + j) p = .ok v := by
  induction n generalizing start context with
  | zero =>
    exact ⟨context, rfl, rfl, rfl, fun _ _ => rfl, fun j p hj => by omega⟩
  | succ n ih =>
    rw [forLoop_succ]
    have hstart : start < w.m_tline_type.m_parameters.length := by omega
    obtain ⟨v, hv⟩ := hvalues start _ (List.getElem?_eq_getElem hstart)
    rw [SimulationInit_body_ok ext w start context s _ v (List.getElem?_eq_getElem hstart) hv]
    simp only
    obtain ⟨context', hok, hdb, hlen, hkeep, hnew⟩ := ih (start + 1)
      { context with m_parameters := context.m_parameters
          ++ [(ext.CanonicalName (w.m_tline_type.m_parameters[start]).m_name, v)] } (by omega)
    simp only [List.length_append, List.length_singleton] at hlen hkeep hnew
    refine ⟨context', hok, hdb, by omega, ?_, ?_⟩
    · intro j hj
      rw [hkeep j (by omega), List.getElem?_append_left hj]
    · intro j p hj hp
      cases j with
      | zero =>
        rw [Nat.add_zero] at hp ⊢
        rw [List.getElem?_eq_getElem hstart] at hp
        cases hp
        refine ⟨v, ?_, hv⟩
        rw [hkeep _ (by omega), List.getElem?_append_right (Nat.le_refl _)]
        simp
      | succ j =>
        obtain ⟨v', h1, h2⟩ := hnew j p (by omega) (by rw [← hp]; congr 1; omega)
        refine ⟨v', ?_, ?_⟩
        · rw [← h1]; congr 1; omega
        · rw [← h2]; congr 1; omega

/-- The value `SimulationInit` reads for a parameter, by the type of the
parameter. -/
theorem SimulationInit_value_kind (ext : Externals) (w : MainWindow) (i : Nat)
    (p : TLineParameter) (v : VData) (hv : SimulationInit_value ext w i p = .ok v) :
    (p.m_type = .TLINE_PARAMETERTYPE_BOOL →
      ∃ isChecked, w.m_widget_parameters[i]? = some (.QCheckBox isChecked) ∧
        v = .ofBool isChecked) ∧
    (p.m_type = .TLINE_PARAMETERTYPE_MATERIAL_CONDUCTOR ∨
        p.m_type = .TLINE_PARAMETERTYPE_MATERIAL_DIELECTRIC →
      ∃ currentText, w.m_widget_parameters[i]? = some (.QComboBox currentText) ∧
        v = .ofString currentText) ∧
    (p.m_type = .TLINE_PARAMETERTYPE_REAL →
      ∃ lineedit_value text, w.m_widget_parameters[i]? = some (.CustomLineEdit lineedit_value) ∧
        lineedit_value.GetText ext = .ok text ∧ ext.Json_FromString text = .ok v) := by
  unfold SimulationInit_value at hv
  cases ht : p.m_type <;> rw [ht] at hv <;> simp only at hv
  all_goals
    cases hw : w.m_widget_parameters[i]? with
    | none => rw [hw] at hv; cases hv
    | some widget =>
      rw [hw] at hv
      cases widget with
      | QCheckBox isChecked =>
        simp only at hv
        first
        | cases hv
          exact ⟨fun _ => ⟨_, rfl, rfl⟩, fun h => (by rcases h with h | h <;> cases h),
            fun h => (by cases h)⟩
        | cases hv
      | QComboBox currentText =>
        simp only at hv
        first
        | cases hv
          exact ⟨fun h => (by cases h), fun _ => ⟨_, rfl, rfl⟩, fun h => (by cases h)⟩
        | cases hv
      | QLineEdit text => simp only at hv; cases hv
      | CustomLineEdit lineedit_value =>
        simp only at hv
        first
        | cases hv
        | refine ⟨fun h => (by cases h), fun h => (by rcases h with h | h <;> cases h),
            fun _ => ?_⟩
          cases hg : lineedit_value.GetText ext with
          | error e => rw [hg] at hv; cases hv
          | ok text => rw [hg] at hv; exact ⟨_, text, rfl, hg, hv⟩

/-! ## The stages of `SimulateParameterTune` -/

theorem SimulateParameterTune_unfold (ext : Externals) (s : Sim) :
    SimulateParameterTune ext s
      = Run.bind (SimulationInit ext TLineContext.empty) (fun context =>
          Run.bind (Run.lift (FloatFromString ext s.window.m_lineedit_frequency))
            (fun frequency =>
          Run.bind (Run.lift
              (FloatFromString ext s.window.m_lineedit_parameter_tune_target_value))
            (fun target_value =>
          match context.m_parameters[
              size_t_of_int s.window.m_combobox_parameter_tune_parameter.currentData]? with
          | some (_, value) =>
            Run.bind (Run.lift (FloatFromVData ext value)) (fun initial_value =>
              if !ext.FinitePositive initial_value then
                match s.window.m_tline_type.m_parameters[
                  size_t_of_int s.window.m_combobox_parameter_tune_parameter.currentData]? with
                | some parameter =>
                  Run.bind (Run.lift (FloatFromVData ext parameter.m_default_value))
                    (ParameterTune_from_seed ext s.window target_value
                      { context with m_frequencies := [frequency * 1000000000] })
                | none =>
                  Run.bind (Run.throw (.undefined_behaviour "m_parameters[param_index]"))
                    (ParameterTune_from_seed ext s.window target_value
                      { context with m_frequencies := [frequency * 1000000000] })
              else
                Run.bind (Run.pure initial_value)
                  (ParameterTune_from_seed ext s.window target_value
                    { context with m_frequencies := [frequency * 1000000000] }))
          | none =>
            Run.bind (Run.throw (.undefined_behaviour "m_parameters[param_index]"))
              (fun initial_value =>
              if !ext.FinitePositive initial_value then
                match s.window.m_tline_type.m_parameters[
                  size_t_of_int s.window.m_combobox_parameter_tune_parameter.currentData]? with
                | some parameter =>
                  Run.bind (Run.lift (FloatFromVData ext parameter.m_default_value))
                    (ParameterTune_from_seed ext s.window target_value
                      { context with m_frequencies := [frequency * 1000000000] })
                | none =>
                  Run.bind (Run.throw (.undefined_behaviour "m_parameters[param_index]"))
                    (ParameterTune_from_seed ext s.window target_value
                      { context with m_frequencies := [frequency * 1000000000] })
              else
                Run.bind (Run.pure initial_value)
                  (ParameterTune_from_seed ext s.window target_value
                    { context with m_frequencies := [frequency * 1000000000] }))))) s := by
  rfl

/-- `SimulateParameterTune` when its inputs are accepted: the root search from
the seed `x0`, followed by the write back and the display. -/
theorem SimulateParameterTune_run (ext : Externals) (s : Sim) (context : TLineContext)
    (frequency target_value : real_t) (key : String) (value : VData) (x x0 : real_t)
    (hinit : (SimulationInit ext TLineContext.empty s).1 = .ok context)
    (hfreq : FloatFromString ext s.window.m_lineedit_frequency = .ok frequency)
    (htarget : FloatFromString ext s.window.m_lineedit_parameter_tune_target_value
      = .ok target_value)
    (hparam : context.m_parameters[
      size_t_of_int s.window.m_combobox_parameter_tune_parameter.currentData]?
      = some (key, value))
    (hvalue : FloatFromVData ext value = .ok x)
    (hseed : (ext.FinitePositive x = true ∧ x0 = x) ∨
      (ext.FinitePositive x = false ∧ ∃ parameter : TLineParameter,
        s.window.m_tline_type.m_parameters[
          size_t_of_int s.window.m_combobox_parameter_tune_parameter.currentData]?
          = some parameter ∧
        FloatFromVData ext parameter.m_default_value = .ok x0)) :
    SimulateParameterTune ext s
      = ParameterTune_from_seed ext s.window target_value
          { context with m_frequencies := [frequency * 1000000000] } x0 s := by
  rw [SimulateParameterTune_unfold, bind_SimulationInit, hinit]
  simp only
  rw [bind_lift, hfreq]
  simp only
  rw [bind_lift, htarget]
  simp only [hparam]
  rw [bind_lift, hvalue]
  simp only
  rcases hseed with ⟨hfp, rfl⟩ | ⟨hfp, parameter, hp, hd⟩
  · simp only [hfp, Bool.not_true, Bool.false_eq_true, if_false]
    rfl
  · simp only [hfp, Bool.not_false, if_true, hp]
    rw [bind_lift, hd]

/-- `SimulationInit` succeeds only when it could read the widget of every
parameter. -/
theorem SimulationInit_values (ext : Externals) (s : Sim) (context : TLineContext)
    (hinit : (SimulationInit ext TLineContext.empty s).1 = .ok context)
    (i : Nat) (p : TLineParameter) (hp : s.window.m_tline_type.m_parameters[i]? = some p) :
    ∃ v, SimulationInit_value ext s.window i p = .ok v := by
  cases hv : SimulationInit_value ext s.window i p with
  | ok v => exact ⟨v, rfl⟩
  | error e =>
    exfalso
    have hi : i < s.window.m_tline_type.m_parameters.length := by
      by_contra hge
      rw [List.getElem?_eq_none (by omega)] at hp
      cases hp
    have hunfold : SimulationInit ext TLineContext.empty s
        = forLoop (SimulationInit_body ext s.window) s.window.m_tline_type.m_parameters.length 0
            { TLineContext.empty with
              m_material_database := some s.window.m_material_database } s := rfl
    obtain ⟨e', he'⟩ := forLoop_fails (SimulationInit_body ext s.window) i
      (by
        intro b s'
        refine ⟨e, ?_⟩
        unfold SimulationInit_body
        rw [hp]
        simp only [run_bind_eq, run_pure_eq]
        rw [hv]
        rfl)
      s.window.m_tline_type.m_parameters.length 0 (Nat.zero_le _) (by omega)
      { TLineContext.empty with m_material_database := some s.window.m_material_database } s
    rw [hunfold, he'] at hinit
    cases hinit

/-- A widget `SimulationInit` could read is no `QLineEdit`. -/
theorem SimulationInit_value_widget (ext : Externals) (w : MainWindow) (i : Nat)
    (p : TLineParameter) (v : VData) (hv : SimulationInit_value ext w i p = .ok v)
    (text : String) : w.m_widget_parameters[i]? ≠ some (.QLineEdit text) := by
  obtain ⟨h1, h2, h3⟩ := SimulationInit_value_kind ext w i p v hv
  intro hw
  cases ht : p.m_type with
  | TLINE_PARAMETERTYPE_BOOL =>
    obtain ⟨b, hb, -⟩ := h1 ht
    rw [hw] at hb; cases hb
  | TLINE_PARAMETERTYPE_REAL =>
    obtain ⟨l, t, hl, -⟩ := h3 ht
    rw [hw] at hl; cases hl
  | TLINE_PARAMETERTYPE_MATERIAL_CONDUCTOR =>
    obtain ⟨t, hc, -⟩ := h2 (Or.inl ht)
    rw [hw] at hc; cases hc
  | TLINE_PARAMETERTYPE_MATERIAL_DIELECTRIC =>
    obtain ⟨t, hc, -⟩ := h2 (Or.inr ht)
    rw [hw] at hc; cases hc

/-- The write back of `SimulateParameterTune` throws on every widget that is
no `QLineEdit`, leaving the window as it is. -/
theorem ParameterTune_write_back_fails (ext : Externals) (w : MainWindow) (param_index : Nat)
    (r : real_t × TLineContext) (s : Sim)
    (hw : ∀ text, w.m_widget_parameters[param_index]? ≠ some (.QLineEdit text)) :
    ParameterTune_write_back ext w param_index r s
      = (.error (.undefined_behaviour "static_cast<QLineEdit*>"), s) := by
  obtain ⟨root_value, context⟩ := r
  unfold ParameterTune_write_back
  simp only
  cases hwidget : w.m_widget_parameters[param_index]? with
  | none => rfl
  | some widget =>
    cases widget with
    | QLineEdit text => exact absurd hwidget (hw text)
    | QCheckBox _ => rfl
    | CustomLineEdit _ => rfl
    | QComboBox _ => rfl

/-- The end of every `SimulateParameterTune`: from the seed on, the run either
fails in its root search or throws at the write back. -/
theorem ParameterTune_from_seed_fails (ext : Externals) (w : MainWindow)
    (target_value : real_t) (context : TLineContext) (initial_value : real_t) (s : Sim)
    (hw : ∀ text, w.m_widget_parameters[
      size_t_of_int w.m_combobox_parameter_tune_parameter.currentData]?
      ≠ some (.QLineEdit text)) :
    ∃ e, (ParameterTune_from_seed ext w target_value context initial_value s).1 = .error e := by
  unfold ParameterTune_from_seed
  cases hsearch : ParameterTune_search ext w target_value initial_value context s with
  | mk result s' =>
    cases result with
    | error e => exact ⟨e, by rw [Run.bind_error _ _ s s' e hsearch]⟩
    | ok r =>
      rw [Run.bind_ok _ _ s s' r hsearch, ParameterTune_write_back_fails ext w _ r s' hw]
      exact ⟨_, rfl⟩

/-- No run of `SimulateParameterTune` succeeds. -/
theorem SimulateParameterTune_fails (ext : Externals) (s : Sim) :
    ∃ e, (SimulateParameterTune ext s).1 = .error e := by
  rw [SimulateParameterTune_unfold, bind_SimulationInit]
  cases hinit : (SimulationInit ext TLineContext.empty s).1 with
  | error e => exact ⟨e, rfl⟩
  | ok context =>
    simp only
    rw [bind_lift]
    cases hfreq : FloatFromString ext s.window.m_lineedit_frequency with
    | error e => exact ⟨e, rfl⟩
    | ok frequency =>
      simp only
      rw [bind_lift]
      cases htarget : FloatFromString ext s.window.m_lineedit_parameter_tune_target_value with
      | error e => exact ⟨e, rfl⟩
      | ok target_value =>
        simp only
        cases hparam : context.m_parameters[
            size_t_of_int s.window.m_combobox_parameter_tune_parameter.currentData]? with
        | none => exact ⟨_, rfl⟩
        | some kv =>
          obtain ⟨key, value⟩ := kv
          simp only
          have hindex : size_t_of_int s.window.m_combobox_parameter_tune_parameter.currentData
              < s.window.m_tline_type.m_parameters.length := by
            rw [← SimulationInit_length ext s context hinit]
            by_contra hge
            rw [List.getElem?_eq_none (by omega)] at hparam
            cases hparam
          obtain ⟨v, hv⟩ := SimulationInit_values ext s context hinit _ _
            (List.getElem?_eq_getElem hindex)
          have hw := SimulationInit_value_widget ext s.window _ _ v hv
          rw [bind_lift]
          cases hvalue : FloatFromVData ext value with
          | error e => exact ⟨e, rfl⟩
          | ok x =>
            simp only
            cases hfp : ext.FinitePositive x with
            | true =>
              simp only [Bool.not_true, Bool.false_eq_true, if_false]
              exact ParameterTune_from_seed_fails ext s.window target_value _ x s hw
            | false =>
              simp only [Bool.not_false, if_true, List.getElem?_eq_getElem hindex]
              rw [bind_lift]
              cases hd : FloatFromVData ext
                  (s.window.m_tline_type.m_parameters[size_t_of_int
                    s.window.m_combobox_parameter_tune_parameter.currentData]).m_default_value with
              | error e => exact ⟨e, rfl⟩
              | ok d =>
                simp only
                exact ParameterTune_from_seed_fails ext s.window target_value _ d s hw

/-! ## The parameter sweep loop under hypotheses on the calls it makes -/

/-- One iteration of the parameter sweep, when the sweep value and the selected
parameter exist, records its solver call first of all. -/
theorem ParameterSweep_body_call (ext : Externals) (tline_type : TLineType)
    (sweep_values : List real_t) (param_index : Nat) (i : Nat)
    (context : TLineContext) (combined_results : List real_t) (s : Sim)
    (hi : i < sweep_values.length) (hindex : param_index < context.m_parameters.length) :
    ∃ c1 key, set_parameter context param_index (.ofFloat (ext.FloatScale sweep_values[i]))
        = .ok c1 ∧
      c1.m_parameters[param_index]? = some (key, .ofFloat (ext.FloatScale sweep_values[i])) ∧
      c1.m_parameters.length = context.m_parameters.length ∧
      ((∃ e, (tline_type.m_simulate c1).outcome = .error e ∧
          ParameterSweep_body ext tline_type sweep_values param_index i
            (context, combined_results) s = (.error e, s.called c1)) ∨
       (∃ c2, (tline_type.m_simulate c1).outcome = .ok c2 ∧
          ((∃ e, copy_n c2.m_results combined_results
                (ext.TLINERESULT_COUNT * tline_type.m_modes.length * i) = .error e ∧
              ParameterSweep_body ext tline_type sweep_values param_index i
                (context, combined_results) s = (.error e, s.called c1)) ∨
           (∃ combined, copy_n c2.m_results combined_results
                (ext.TLINERESULT_COUNT * tline_type.m_modes.length * i) = .ok combined ∧
              ((s.task_canceled s.canceled_reads = true ∧
                  ParameterSweep_body ext tline_type sweep_values param_index i
                    (context, combined_results) s
                    = (.error (.runtime_error "Parameter sweep canceled by user."),
                        s.ticked c1 i)) ∨
               (s.task_canceled s.canceled_reads = false ∧
                  ParameterSweep_body ext tline_type sweep_values param_index i
                    (context, combined_results) s = (.ok (c2, combined), s.ticked c1 i))))))) := by
  obtain ⟨c1, hset⟩ := set_parameter_succeeds context param_index
    (.ofFloat (ext.FloatScale sweep_values[i])) hindex
  obtain ⟨key, hkey⟩ := set_parameter_ok hset
  refine ⟨c1, key, hset, hkey, set_parameter_length hset, ?_⟩
  rcases ParameterSweep_body_cases ext tline_type sweep_values param_index i context
    combined_results s with ⟨e, h⟩ | ⟨v, c1', hv, hset', hrest⟩
  · exfalso
    have hb := ParameterSweep_body_eq ext tline_type sweep_values param_index i context
      combined_results s
    rw [List.getElem?_eq_getElem hi] at hb
    simp only [hset] at hb
    rw [h] at hb
    have hlen : s.solver_calls.length = (s.solver_calls ++ [c1]).length := by
      cases h3 : (tline_type.m_simulate c1).outcome with
      | error e' =>
        rw [h3] at hb
        exact congrArg (fun r => r.2.solver_calls.length) hb
      | ok c2 =>
        rw [h3] at hb
        simp only at hb
        cases h4 : copy_n c2.m_results combined_results
            (ext.TLINERESULT_COUNT * tline_type.m_modes.length * i) with
        | error e' =>
          rw [h4] at hb
          exact congrArg (fun r => r.2.solver_calls.length) hb
        | ok combined =>
          rw [h4] at hb
          simp only at hb
          split_ifs at hb
          · exact congrArg (fun r => r.2.solver_calls.length) hb
          · exact congrArg (fun r => r.2.solver_calls.length) hb
    simp at hlen
  · rw [List.getElem?_eq_getElem hi] at hv
    cases hv
    rw [hset] at hset'
    cases hset'
    exact hrest

/-- A parameter sweep loop runs to its end when it is not cancelled, the
selected parameter exists, the buffer has room for the slices, and every solver
call the loop makes returns, keeping the parameter list and filling no more
than one slice of results. -/
theorem ParameterSweep_loop_completes (ext : Externals) (tline_type : TLineType)
    (sweep_values : List real_t) (param_index : Nat)
    (n i : Nat) (context : TLineContext) (combined_results : List real_t) (s : Sim)
    (hgood : ∀ k c,
      (forLoop (ParameterSweep_body ext tline_type sweep_values param_index) n i
        (context, combined_results) s).2.solver_calls[s.solver_calls.length + k]? = some c →
      ∃ c', (tline_type.m_simulate c).outcome = .ok c' ∧
        c'.m_parameters.length = c.m_parameters.length ∧
        c'.m_results.length ≤ ext.TLINERESULT_COUNT * tline_type.m_modes.length)
    (hcancel : ∀ k, s.task_canceled k = false)
    (hindex : param_index < context.m_parameters.length)
    (hvalues : i + n ≤ sweep_values.length)
    (hroom : ext.TLINERESULT_COUNT * tline_type.m_modes.length * (i + n)
      ≤ combined_results.length) :
    ∃ context' combined',
      (forLoop (ParameterSweep_body ext tline_type sweep_values param_index) n i
        (context, combined_results) s).1 = .ok (context', combined') := by
  induction n generalizing i context combined_results s with
  | zero => exact ⟨context, combined_results, rfl⟩
  | succ n ih =>
    rw [forLoop_succ] at hgood ⊢
    have hi : i < sweep_values.length := by omega
    obtain ⟨c1, key, -, -, hplen, hcases⟩ := ParameterSweep_body_call ext tline_type
      sweep_values param_index i context combined_results s hi hindex
    have hmul : ext.TLINERESULT_COUNT * tline_type.m_modes.length * (i + (n + 1))
        = ext.TLINERESULT_COUNT * tline_type.m_modes.length * i
          + ext.TLINERESULT_COUNT * tline_type.m_modes.length
          + ext.TLINERESULT_COUNT * tline_type.m_modes.length * n := by ring
    rcases hcases with ⟨e, h3, h⟩ | ⟨c2, h3, ⟨e, h4, h⟩ | ⟨combined, h4, ⟨hc, h⟩ | ⟨-, h⟩⟩⟩
    · exfalso
      rw [h] at hgood
      obtain ⟨c', hc', -⟩ := hgood 0 c1 (by simp [Sim.called])
      rw [h3] at hc'
      cases hc'
    · exfalso
      rw [h] at hgood
      obtain ⟨c', hc', -, hlen⟩ := hgood 0 c1 (by simp [Sim.called])
      rw [h3] at hc'
      cases hc'
      obtain ⟨r, hr⟩ := copy_n_fits c2.m_results combined_results
        (ext.TLINERESULT_COUNT * tline_type.m_modes.length * i) (by omega)
      rw [hr] at h4
      cases h4
    · rw [hcancel] at hc
      cases hc
    · rw [h] at hgood ⊢
      simp only at hgood ⊢
      obtain ⟨calls, hcalls, -, -⟩ := ParameterSweep_loop_calls ext tline_type sweep_values
        param_index n (i + 1) (c2, combined) (s.ticked c1 i)
      have hfirst : (forLoop (ParameterSweep_body ext tline_type sweep_values param_index) n
          (i + 1) (c2, combined) (s.ticked c1 i)).2.solver_calls[s.solver_calls.length + 0]?
          = some c1 := by
        rw [hcalls]
        show (s.solver_calls ++ [c1] ++ calls)[s.solver_calls.length + 0]? = some c1
        rw [List.append_assoc, List.getElem?_append_right (by omega)]
        simp
      obtain ⟨c', hc', hpl, -⟩ := hgood 0 c1 hfirst
      rw [h3] at hc'
      cases hc'
      apply ih (i + 1) c2 combined (s.ticked c1 i)
      · intro k c hk
        apply hgood (k + 1) c
        rw [← hk]
        congr 1
        simp [Sim.ticked]
        omega
      · exact hcancel
      · rw [hpl, hplen]; exact hindex
      · omega
      · rw [(copy_n_ok h4).1]
        have : ext.TLINERESULT_COUNT * tline_type.m_modes.length * (i + 1 + n)
            = ext.TLINERESULT_COUNT * tline_type.m_modes.length * (i + (n + 1)) := by
          congr 1; omega
        omega

/-- A parameter sweep loop that runs to its end, when every solver call it made
returned exactly one slice of results: the aggregate buffer keeps its length
and what lies before the first slice of the loop, and the slice of each
iteration holds the results of the solver call of the iteration. -/
theorem ParameterSweep_loop_slices (ext : Externals) (tline_type : TLineType)
    (sweep_values : List real_t) (param_index : Nat)
    (n i : Nat) (context : TLineContext) (combined_results : List real_t) (s : Sim)
    (context' : TLineContext) (combined' : List real_t)
    (hsize : ∀ k c c',
      (forLoop (ParameterSweep_body ext tline_type sweep_values param_index) n i
        (context, combined_results) s).2.solver_calls[s.solver_calls.length + k]? = some c →
      (tline_type.m_simulate c).outcome = .ok c' →
      c'.m_results.length = ext.TLINERESULT_COUNT * tline_type.m_modes.length)
    (hok : (forLoop (ParameterSweep_body ext tline_type sweep_values param_index) n i
      (context, combined_results) s).1 = .ok (context', combined')) :
    combined'.length = combined_results.length ∧
    combined'.take (ext.TLINERESULT_COUNT * tline_type.m_modes.length * i)
      = combined_results.take (ext.TLINERESULT_COUNT * tline_type.m_modes.length * i) ∧
    ∃ calls : List TLineContext,
      (forLoop (ParameterSweep_body ext tline_type sweep_values param_index) n i
        (context, combined_results) s).2.solver_calls = s.solver_calls ++ calls ∧
      calls.length = n ∧
      ∀ j, j < n → ∃ c c' v key, calls[j]? = some c ∧ sweep_values[i + j]? = some v ∧
        c.m_parameters[param_index]? = some (key, .ofFloat (ext.FloatScale v)) ∧
        (tline_type.m_simulate c).outcome = .ok c' ∧
        (combined'.drop (ext.TLINERESULT_COUNT * tline_type.m_modes.length * (i + j))).take
          (ext.TLINERESULT_COUNT * tline_type.m_modes.length) = c'.m_results := by
  induction n generalizing i context combined_results s with
  | zero =>
    simp only [forLoop_zero, Except.ok.injEq, Prod.mk.injEq] at hok
    obtain ⟨-, rfl⟩ := hok
    exact ⟨rfl, rfl, [], by simp [forLoop_zero], rfl, by intro j hj; omega⟩
  | succ n ih =>
    rw [forLoop_succ] at hok hsize ⊢
    rcases ParameterSweep_body_cases ext tline_type sweep_values param_index i context
      combined_results s with ⟨e, h⟩ | ⟨v, c1, hv, hset, ⟨e, -, h⟩ | ⟨c2, h3, ⟨e, -, h⟩ |
        ⟨combined, hcopy, ⟨-, h⟩ | ⟨-, h⟩⟩⟩⟩
    · rw [h] at hok; cases hok
    · rw [h] at hok; cases hok
    · rw [h] at hok; cases hok
    · rw [h] at hok; cases hok
    · rw [h] at hok hsize ⊢
      simp only at hok hsize ⊢
      obtain ⟨hlen, htake, calls, hcalls, hcl, hslice⟩ := ih (i + 1) c2 combined _
        (by
          intro k c c' hk hc
          apply hsize (k + 1) c c' _ hc
          rw [← hk]
          congr 1
          simp [Sim.ticked]
          omega)
        hok
      obtain ⟨hl1, ht1, hs1⟩ := copy_n_ok hcopy
      have hres := hsize 0 c1 c2
        (by
          rw [hcalls]
          show (s.solver_calls ++ [c1] ++ calls)[s.solver_calls.length + 0]? = some c1
          rw [List.append_assoc, List.getElem?_append_right (by omega)]
          simp) h3
      obtain ⟨key, hkey⟩ := set_parameter_ok hset
      set stride := ext.TLINERESULT_COUNT * tline_type.m_modes.length with hstride
      have hmul : stride * (i + 1) = stride * i + stride := by ring
      refine ⟨by rw [hlen, hl1], ?_, c1 :: calls, ?_, by simp [hcl], ?_⟩
      · have h1 : combined'.take (stride * i)
            = (combined'.take (stride * (i + 1))).take (stride * i) := by
          rw [List.take_take, min_eq_left (by rw [hmul]; omega)]
        have h2 : combined.take (stride * i)
            = (combined.take (stride * (i + 1))).take (stride * i) := by
          rw [List.take_take, min_eq_left (by rw [hmul]; omega)]
        rw [h1, htake, ← h2, ht1]
      · rw [hcalls]; simp [Sim.ticked]
      · intro j hj
        cases j with
        | zero =>
          refine ⟨c1, c2, v, key, by simp, hv, hkey, h3, ?_⟩
          rw [Nat.add_zero, List.take_drop, ← hmul, htake, hmul, ← List.take_drop]
          rw [hres] at hs1
          exact hs1
        | succ j =>
          obtain ⟨c, c', v', key', h1, h2, h3', h4, h5⟩ := hslice j (by omega)
          refine ⟨c, c', v', key', by simpa using h1, ?_, h3', h4, ?_⟩
          · rw [← h2]; congr 1; omega
          · rw [← h5]; congr 3; omega

/-- What follows a computation without recording solver calls or progress
leaves the log of that computation. -/
theorem bind_keepsLog {α β : Type} (x : Run α) (f : α → Run β)
    (hf : ∀ a, (f a).KeepsLog) (s : Sim) :
    (Run.bind x f s).2.solver_calls = (x s).2.solver_calls ∧
    (Run.bind x f s).2.task_progress = (x s).2.task_progress := by
  cases hx : x s with
  | mk r s' =>
    cases r with
    | error e => rw [Run.bind_error x f s s' e hx]; exact ⟨rfl, rfl⟩
    | ok a => rw [Run.bind_ok x f s s' a hx]; exact hf a s'

/-- The log of a `SimulateParameterSweep` whose inputs are accepted is the log
of its loop. -/
theorem SimulateParameterSweep_log (ext : Externals) (s : Sim) (context : TLineContext)
    (frequency value_min value_max value_step : real_t)
    (hinit : (SimulationInit ext TLineContext.empty s).1 = .ok context)
    (hfreq : FloatFromString ext s.window.m_lineedit_frequency = .ok frequency)
    (hmin : FloatFromString ext s.window.m_lineedit_parameter_sweep_min = .ok value_min)
    (hmax : FloatFromString ext s.window.m_lineedit_parameter_sweep_max = .ok value_max)
    (hstep : FloatFromString ext s.window.m_lineedit_parameter_sweep_step = .ok value_step) :
    (SimulateParameterSweep ext s).2.solver_calls
      = (ParameterSweep_task ext s.window.m_tline_type
          (MakeSweep ext.rintp [] value_min value_max value_step)
          (size_t_of_int s.window.m_combobox_parameter_sweep_parameter.currentData)
          { context with m_frequencies := [frequency * 1000000000] }
          (vector_resize [] (ext.TLINERESULT_COUNT * s.window.m_tline_type.m_modes.length
            * (MakeSweep ext.rintp [] value_min value_max value_step).length))
          s).2.solver_calls ∧
    (SimulateParameterSweep ext s).2.task_progress
      = (ParameterSweep_task ext s.window.m_tline_type
          (MakeSweep ext.rintp [] value_min value_max value_step)
          (size_t_of_int s.window.m_combobox_parameter_sweep_parameter.currentData)
          { context with m_frequencies := [frequency * 1000000000] }
          (vector_resize [] (ext.TLINERESULT_COUNT * s.window.m_tline_type.m_modes.length
            * (MakeSweep ext.rintp [] value_min value_max value_step).length))
          s).2.task_progress := by
  rw [SimulateParameterSweep_run ext s context frequency value_min value_max value_step
    hinit hfreq hmin hmax hstep]
  apply bind_keepsLog
  intro r
  exact ParameterSweep_output_keepsLog ext _ _ _ _ r.2

/-! ## The stages of `SimulateFrequencySweep` -/

/-- A rounding to the nearest integer is monotone. -/
theorem IsNearest.mono {rintp : real_t → ℤ} (hr : IsNearest rintp) {x y : real_t}
    (h : x ≤ y) : rintp x ≤ rintp y := by
  by_contra hlt
  have h1 : rintp y + 1 ≤ rintp x := by omega
  have h2 : ((rintp y : real_t)) + 1 ≤ (rintp x : real_t) := by exact_mod_cast h1
  have hx := abs_le.mp (hr x)
  have hy := abs_le.mp (hr y)
  have hxy : x = y := le_antisymm h (by linarith [hx.2, hy.1])
  subst hxy
  omega

/-- A rounding to the nearest integer fixes the integers. -/
theorem IsNearest.int {rintp : real_t → ℤ} (hr : IsNearest rintp) (n : ℤ) :
    rintp (n : real_t) = n := by
  have h := abs_le.mp (hr (n : real_t))
  have h1 : ((rintp (n : real_t) - n : ℤ) : real_t) ≤ 1 / 2 := by push_cast; exact h.2
  have h2 : -(1 / 2) ≤ ((rintp (n : real_t) - n : ℤ) : real_t) := by push_cast; exact h.1
  have h3 : ((rintp (n : real_t) - n : ℤ) : real_t) < 1 := by linarith
  have h4 : (-1 : real_t) < ((rintp (n : real_t) - n : ℤ) : real_t) := by linarith
  have h5 : rintp (n : real_t) - n < 1 := by exact_mod_cast h3
  have h6 : -1 < rintp (n : real_t) - n := by exact_mod_cast h4
  omega

theorem double_round_zero : double_round 0 = 0 := by
  simp [double_round]

/-- The exponent of the binade of `x`. -/
theorem log_eq_of_binade {x : real_t} (e : ℤ) (h1 : 2 ^ e ≤ |x|) (h2 : |x| < 2 ^ (e + 1)) :
    Int.log 2 |x| = e := by
  have hpos : 0 < |x| := lt_of_lt_of_le (zpow_pos (by norm_num) e) h1
  have ha : e ≤ Int.log 2 |x| :=
    (Int.zpow_le_iff_le_log (by norm_num) hpos).mp (by exact_mod_cast h1)
  have hb : Int.log 2 |x| < e + 1 :=
    (Int.lt_zpow_iff_log_lt (by norm_num) hpos).mp (by exact_mod_cast h2)
  omega

theorem binade_le {x : real_t} (hx : x ≠ 0) : (2 : real_t) ^ Int.log 2 |x| ≤ |x| := by
  have h := Int.zpow_log_le_self (b := 2) (r := |x|) (by norm_num) (abs_pos.mpr hx)
  exact_mod_cast h

theorem binade_lt (x : real_t) : |x| < (2 : real_t) ^ (Int.log 2 |x| + 1) := by
  have h := Int.lt_zpow_succ_log_self (b := 2) (by norm_num) |x|
  exact_mod_cast h

/-- The rounding of a value whose binade is known. -/
theorem double_round_eq {x : real_t} (e : ℤ) (h1 : 2 ^ e ≤ |x|) (h2 : |x| < 2 ^ (e + 1)) :
    double_round x = (rint_even (x / 2 ^ (e - 52)) : real_t) * 2 ^ (e - 52) := by
  have hx : x ≠ 0 := by
    intro h
    rw [h, abs_zero] at h1
    exact absurd h1 (not_le.mpr (zpow_pos (by norm_num) e))
  unfold double_round
  rw [if_neg hx, log_eq_of_binade e h1 h2]

/-- The rounding error is at most `2^-53` times the value. -/
theorem double_round_error (x : real_t) : |double_round x - x| ≤ |x| / 2 ^ 53 := by
  by_cases hx : x = 0
  · rw [hx, double_round_zero]; simp
  · unfold double_round
    rw [if_neg hx]
    have hu : (0 : real_t) < 2 ^ (Int.log 2 |x| - 52) := zpow_pos (by norm_num) _
    have hr := rint_even_isNearest (x / 2 ^ (Int.log 2 |x| - 52))
    have heq : (rint_even (x / 2 ^ (Int.log 2 |x| - 52)) : real_t) * 2 ^ (Int.log 2 |x| - 52) - x
        = ((rint_even (x / 2 ^ (Int.log 2 |x| - 52)) : real_t) - x / 2 ^ (Int.log 2 |x| - 52))
          * 2 ^ (Int.log 2 |x| - 52) := by
      field_simp
    rw [heq, abs_mul, abs_of_pos hu]
    have hsplit : (2 : real_t) ^ (Int.log 2 |x| - 52) = 2 ^ Int.log 2 |x| / 2 ^ 52 := by
      rw [zpow_sub₀ (by norm_num)]
      norm_num
    have hb := binade_le hx
    calc |(rint_even (x / 2 ^ (Int.log 2 |x| - 52)) : real_t) - x / 2 ^ (Int.log 2 |x| - 52)|
          * 2 ^ (Int.log 2 |x| - 52)
        ≤ 1 / 2 * 2 ^ (Int.log 2 |x| - 52) := mul_le_mul_of_nonneg_right hr (le_of_lt hu)
      _ = 2 ^ Int.log 2 |x| / 2 ^ 53 := by rw [hsplit]; ring
      _ ≤ |x| / 2 ^ 53 := by
        apply div_le_div_of_nonneg_right hb
        positivity

theorem binade_split (e : ℤ) : (2 : real_t) ^ e = 2 ^ 52 * 2 ^ (e - 52) := by
  rw [zpow_sub₀ (by norm_num)]
  field_simp
  ring

theorem binade_split_succ (e : ℤ) : (2 : real_t) ^ (e + 1) = 2 ^ 53 * 2 ^ (e - 52) := by
  rw [zpow_add₀ (by norm_num), zpow_sub₀ (by norm_num)]
  field_simp
  ring

/-- The rounding of a positive value stays in the closure of its binade. -/
theorem double_round_pos {x : real_t} (hx : 0 < x) :
    (2 : real_t) ^ Int.log 2 |x| ≤ double_round x ∧
    double_round x ≤ 2 ^ (Int.log 2 |x| + 1) := by
  have hne : x ≠ 0 := ne_of_gt hx
  have hu : (0 : real_t) < 2 ^ (Int.log 2 |x| - 52) := zpow_pos (by norm_num) _
  have h1 := binade_le hne
  have h2 := binade_lt x
  rw [abs_of_pos hx] at h1 h2 hu
  rw [abs_of_pos hx]
  unfold double_round
  rw [if_neg hne, abs_of_pos hx]
  have hs := binade_split (Int.log 2 x)
  have hs' := binade_split_succ (Int.log 2 x)
  have hlo : ((2 ^ 52 : ℤ) : real_t) ≤ x / 2 ^ (Int.log 2 x - 52) := by
    rw [le_div_iff₀ hu]
    push_cast
    linarith
  have hhi : x / 2 ^ (Int.log 2 x - 52) ≤ ((2 ^ 53 : ℤ) : real_t) := by
    rw [div_le_iff₀ hu]
    push_cast
    linarith
  have hlo' := rint_even_isNearest.mono hlo
  have hhi' := rint_even_isNearest.mono hhi
  rw [rint_even_isNearest.int] at hlo' hhi'
  have hlo'' : ((2 : real_t) ^ 52) ≤ (rint_even (x / 2 ^ (Int.log 2 x - 52)) : real_t) := by
    exact_mod_cast hlo'
  have hhi'' : (rint_even (x / 2 ^ (Int.log 2 x - 52)) : real_t) ≤ (2 : real_t) ^ 53 := by
    exact_mod_cast hhi'
  constructor
  · rw [hs]
    exact mul_le_mul_of_nonneg_right hlo'' (le_of_lt hu)
  · rw [hs']
    exact mul_le_mul_of_nonneg_right hhi'' (le_of_lt hu)

/-- The rounding of a negative value stays in the closure of its binade. -/
theorem double_round_neg {x : real_t} (hx : x < 0) :
    -(2 : real_t) ^ (Int.log 2 |x| + 1) ≤ double_round x ∧
    double_round x ≤ -(2 : real_t) ^ Int.log 2 |x| := by
  have hne : x ≠ 0 := ne_of_lt hx
  have hu : (0 : real_t) < 2 ^ (Int.log 2 |x| - 52) := zpow_pos (by norm_num) _
  have h1 := binade_le hne
  have h2 := binade_lt x
  rw [abs_of_neg hx] at h1 h2 hu
  rw [abs_of_neg hx]
  unfold double_round
  rw [if_neg hne, abs_of_neg hx]
  have hs := binade_split (Int.log 2 (-x))
  have hs' := binade_split_succ (Int.log 2 (-x))
  have hhi : x / 2 ^ (Int.log 2 (-x) - 52) ≤ ((-(2 ^ 52) : ℤ) : real_t) := by
    rw [div_le_iff₀ hu]
    push_cast
    linarith
  have hlo : ((-(2 ^ 53) : ℤ) : real_t) ≤ x / 2 ^ (Int.log 2 (-x) - 52) := by
    rw [le_div_iff₀ hu]
    push_cast
    linarith
  have hlo' := rint_even_isNearest.mono hlo
  have hhi' := rint_even_isNearest.mono hhi
  rw [rint_even_isNearest.int] at hlo' hhi'
  have hlo'' : -((2 : real_t) ^ 53) ≤ (rint_even (x / 2 ^ (Int.log 2 (-x) - 52)) : real_t) := by
    exact_mod_cast hlo'
  have hhi'' : (rint_even (x / 2 ^ (Int.log 2 (-x) - 52)) : real_t) ≤ -((2 : real_t) ^ 52) := by
    exact_mod_cast hhi'
  constructor
  · rw [hs', ← neg_mul]
    exact mul_le_mul_of_nonneg_right hlo'' (le_of_lt hu)
  · rw [hs, ← neg_mul]
    exact mul_le_mul_of_nonneg_right hhi'' (le_of_lt hu)

/-- The rounding of `double` is monotone. -/
theorem double_round_mono {x y : real_t} (h : x ≤ y) : double_round x ≤ double_round y := by
  have hpow : ∀ a b : ℤ, a ≤ b → (2 : real_t) ^ a ≤ 2 ^ b :=
    fun a b hab => zpow_le_zpow_right₀ (by norm_num) hab
  have hsame : ∀ (a b : real_t) (e : ℤ), a ≤ b →
      (rint_even (a / 2 ^ (e - 52)) : real_t) * 2 ^ (e - 52)
        ≤ (rint_even (b / 2 ^ (e - 52)) : real_t) * 2 ^ (e - 52) := by
    intro a b e hab
    have hu : (0 : real_t) < 2 ^ (e - 52) := zpow_pos (by norm_num) _
    apply mul_le_mul_of_nonneg_right _ (le_of_lt hu)
    have := rint_even_isNearest.mono (div_le_div_of_nonneg_right hab (le_of_lt hu))
    exact_mod_cast this
  rcases lt_trichotomy x 0 with hx | hx | hx
  · rcases lt_trichotomy y 0 with hy | hy | hy
    · -- both negative
      have hlog : Int.log 2 |y| ≤ Int.log 2 |x| := by
        apply Int.log_mono_right (abs_pos.mpr (ne_of_lt hy))
        rw [abs_of_neg hx, abs_of_neg hy]
        linarith
      rcases eq_or_lt_of_le hlog with heq | hlt
      · unfold double_round
        rw [if_neg (ne_of_lt hx), if_neg (ne_of_lt hy), heq]
        exact hsame x y _ h
      · have h1 := (double_round_neg hx).2
        have h2 := (double_round_neg hy).1
        have h3 := hpow (Int.log 2 |y| + 1) (Int.log 2 |x|) (by omega)
        linarith
    · rw [hy, double_round_zero]
      have h1 := (double_round_neg hx).2
      have h2 : (0 : real_t) < 2 ^ Int.log 2 |x| := zpow_pos (by norm_num) _
      linarith
    · have h1 := (double_round_neg hx).2
      have h2 : (0 : real_t) < 2 ^ Int.log 2 |x| := zpow_pos (by norm_num) _
      have h3 := (double_round_pos hy).1
      have h4 : (0 : real_t) < 2 ^ Int.log 2 |y| := zpow_pos (by norm_num) _
      linarith
  · rw [hx, double_round_zero]
    rcases eq_or_lt_of_le (hx ▸ h) with hy | hy
    · rw [← hy, double_round_zero]
    · have h3 := (double_round_pos hy).1
      have h4 : (0 : real_t) < 2 ^ Int.log 2 |y| := zpow_pos (by norm_num) _
      linarith
  · have hy : 0 < y := lt_of_lt_of_le hx h
    have hlog : Int.log 2 |x| ≤ Int.log 2 |y| := by
      apply Int.log_mono_right (abs_pos.mpr (ne_of_gt hx))
      rw [abs_of_pos hx, abs_of_pos hy]
      exact h
    rcases eq_or_lt_of_le hlog with heq | hlt
    · unfold double_round
      rw [if_neg (ne_of_gt hx), if_neg (ne_of_gt hy), heq]
      exact hsame x y _ h
    · have h1 := (double_round_pos hx).2
      have h2 := (double_round_pos hy).1
      have h3 := hpow (Int.log 2 |x| + 1) (Int.log 2 |y|) (by omega)
      linarith

/-- The vector returned by `MakeSweep` in the arithmetic of `double`, in closed
form. -/
theorem MakeSweep_double_eq_map (rintp : real_t → ℤ) (results : List real_t)
    (min max step : real_t) :
    MakeSweep_double rintp results min max step
      = (List.range (MakeSweep_num_double rintp min max step)).map
          (fun (i : Nat) => double_round (min + double_round (step * double_round (i : real_t)))) := by
  unfold MakeSweep_double
  simp only [vector_clear, vector_resize, List.take_nil, List.nil_append, List.length_nil,
    Nat.sub_zero]
  rw [foldl_set_range _ _ _ (by simp)]
  simp

theorem MakeSweep_double_length (rintp : real_t → ℤ) (results : List real_t)
    (min max step : real_t) :
    (MakeSweep_double rintp results min max step).length
      = MakeSweep_num_double rintp min max step := by
  rw [MakeSweep_double_eq_map]; simp

theorem MakeSweep_num_double_pos (rintp : real_t → ℤ) (min max step : real_t) :
    1 ≤ MakeSweep_num_double rintp min max step := by
  unfold MakeSweep_num_double
  have h : (1 : ℤ) ≤ Max.max (rintp (double_round (double_round (double_round
      (Max.max 0 (double_round (max - min)) / step) + 1 / 2) + double_round sweep_epsilon))) 1 :=
    le_max_right _ _
  omega

/-- The rounding of a value, computed from the exponent of its binade. -/
theorem double_round_of_binade (x v : real_t) (e : ℤ)
    (h : 2 ^ e ≤ |x| ∧ |x| < 2 ^ (e + 1) ∧
      (rint_even (x / 2 ^ (e - 52)) : real_t) * 2 ^ (e - 52) = v) :
    double_round x = v := by
  rw [double_round_eq e h.1 h.2.1]
  exact h.2.2

/-- The `double` nearest to `1e-12`. -/
theorem double_round_sweep_epsilon :
    double_round sweep_epsilon = 4951760157141521 / 4951760157141521099596496896 :=
  double_round_of_binade _ _ (-40) (by decide!)

/-- The count of the sweep from 0 to 16384 in steps of 1, in the arithmetic of
`double`: `16384.5 + 1e-12` rounds to `16384.5`, which `rint` rounds to the
even 16384. -/
theorem MakeSweep_num_double_16384 : MakeSweep_num_double rint_even 0 16384 1 = 16384 := by
  have e1 : double_round ((16384 : real_t) - 0) = 16384 :=
    double_round_of_binade _ _ 14 (by decide!)
  have e2 : double_round (Max.max 0 (16384 : real_t) / 1) = 16384 :=
    double_round_of_binade _ _ 14 (by decide!)
  have e3 : double_round ((16384 : real_t) + 1 / 2) = 32769 / 2 :=
    double_round_of_binade _ _ 14 (by decide!)
  have e4 : double_round ((32769 / 2 : real_t)
      + 4951760157141521 / 4951760157141521099596496896) = 32769 / 2 :=
    double_round_of_binade _ _ 14 (by decide!)
  have e5 : rint_even (32769 / 2 : real_t) = 16384 := by decide!
  unfold MakeSweep_num_double
  rw [e1, e2, e3, double_round_sweep_epsilon, e4, e5]
  rfl

/-! ## Sweeps evaluated in the arithmetic of `double` -/

/-- An entry of the vector returned by `MakeSweep` in the arithmetic of
`double`. -/
theorem MakeSweep_double_getElem? (rintp : real_t → ℤ) (results : List real_t)
    (min max step : real_t) (i : Nat) (hi : i < MakeSweep_num_double rintp min max step) :
    (MakeSweep_double rintp results min max step)[i]?
      = some (double_round (min + double_round (step * double_round (i : real_t)))) := by
  rw [MakeSweep_double_eq_map, List.getElem?_map, List.getElem?_range hi]
  rfl

/-- The count of the sweep from 0 to 2 in steps of 0.0001 (the `double` nearest
to it), in the arithmetic of `double`: the quotient is rounded to 20000, and
`20000.5 + 1e-12` is rounded back to `20000.5`, a tie. -/
theorem MakeSweep_num_double_20000 :
    MakeSweep_num_double rint_even 0 2 (7378697629483821 / 73786976294838206464) = 20000 := by
  have e1 : double_round ((2 : real_t) - 0) = 2 :=
    double_round_of_binade _ _ 1 (by decide!)
  have e2 : double_round (Max.max 0 (2 : real_t) / (7378697629483821 / 73786976294838206464))
      = 20000 :=
    double_round_of_binade _ _ 14 (by decide!)
  have e3 : double_round ((20000 : real_t) + 1 / 2) = 40001 / 2 :=
    double_round_of_binade _ _ 14 (by decide!)
  have e4 : double_round ((40001 / 2 : real_t)
      + 4951760157141521 / 4951760157141521099596496896) = 40001 / 2 :=
    double_round_of_binade _ _ 14 (by decide!)
  have e5 : rint_even (40001 / 2 : real_t) = 20000 := by decide!
  unfold MakeSweep_num_double
  rw [e1, e2, e3, double_round_sweep_epsilon, e4, e5]
  rfl

/-- The `double` nearest to `0.1`. -/
theorem double_round_tenth :
    double_round (1 / 10) = 3602879701896397 / 36028797018963968 :=
  double_round_of_binade _ _ (-4) (by decide!)

/-- The count of the sweep from 1 to 2 in steps of 0.1, in the arithmetic of
`double`. -/
theorem MakeSweep_num_double_default :
    MakeSweep_num_double rint_even 1 2 (3602879701896397 / 36028797018963968) = 11 := by
  have e1 : double_round ((2 : real_t) - 1) = 1 :=
    double_round_of_binade _ _ 0 (by decide!)
  have e2 : double_round (Max.max 0 (1 : real_t) / (3602879701896397 / 36028797018963968))
      = 10 :=
    double_round_of_binade _ _ 3 (by decide!)
  have e3 : double_round ((10 : real_t) + 1 / 2) = 21 / 2 :=
    double_round_of_binade _ _ 3 (by decide!)
  have e4 : double_round ((21 / 2 : real_t)
      + 4951760157141521 / 4951760157141521099596496896)
      = 5910974510924339 / 562949953421312 :=
    double_round_of_binade _ _ 3 (by decide!)
  have e5 : rint_even (5910974510924339 / 562949953421312 : real_t) = 11 := by decide!
  unfold MakeSweep_num_double
  rw [e1, e2, e3, double_round_sweep_epsilon, e4, e5]
  rfl

/-- The count of the sweep from `10^16` to `10^16 + 4` in steps of 1, in the
arithmetic of `double`. -/
theorem MakeSweep_num_double_large :
    MakeSweep_num_double rint_even 10000000000000000 10000000000000004 1 = 5 := by
  have e1 : double_round ((10000000000000004 : real_t) - 10000000000000000) = 4 :=
    double_round_of_binade _ _ 2 (by decide!)
  have e2 : double_round (Max.max 0 (4 : real_t) / 1) = 4 :=
    double_round_of_binade _ _ 2 (by decide!)
  have e3 : double_round ((4 : real_t) + 1 / 2) = 9 / 2 :=
    double_round_of_binade _ _ 2 (by decide!)
  have e4 : double_round ((9 / 2 : real_t)
      + 4951760157141521 / 4951760157141521099596496896)
      = 2533274790396467 / 562949953421312 :=
    double_round_of_binade _ _ 2 (by decide!)
  have e5 : rint_even (2533274790396467 / 562949953421312 : real_t) = 5 := by decide!
  unfold MakeSweep_num_double
  rw [e1, e2, e3, double_round_sweep_epsilon, e4, e5]
  rfl

/-- C1 fails on the code: for the sweep from 0 to 16384 in steps of 1 the
formula gives `round(16384 + 0.5 + 1e-12) = 16385` values, and `MakeSweep`
produces 16384: in the arithmetic of `double` the sum `16384.5 + 1e-12` is
rounded back to `16384.5`, a tie, which `rintp` rounds to the even 16384. -/
theorem MakeSweep_count_absorbed :
    (MakeSweep_double rint_even [] 0 16384 1).length = 16384 ∧
    Max.max (1 : ℤ) (rint_even (Max.max 0 ((16384 : real_t) - 0) / 1 + 1 / 2
      + 1 / 1000000000000)) = 16385 ∧
    double_round ((16384 : real_t) + 1 / 2 + double_round (1 / 1000000000000))
      = 16384 + 1 / 2 ∧
    rint_even ((16384 : real_t) + 1 / 2) = 16384 := by
  refine ⟨?_, by decide!, ?_, by decide!⟩
  · rw [MakeSweep_double_length, MakeSweep_num_double_16384]
  · have h := double_round_sweep_epsilon
    unfold sweep_epsilon at h
    rw [h]
    exact double_round_of_binade _ _ 14 (by decide!)

/-- C2 as stated fails. In the sweep from 1 to 2 in steps of 0.1 (the `double`
nearest to it), the second value is the `double` nearest to 1.1: it is not
`min + step`, and it differs from the first value by more than `step`. In the
sweep from `10^16` to `10^16 + 4` in steps of 1, the second value equals the
first (`10^16 + 1` is rounded to `10^16`): the sequence is not strictly
ascending. -/
theorem MakeSweep_values_rounded :
    (MakeSweep_double rint_even [] 1 2 (double_round (1 / 10)))[0]? = some 1 ∧
    (MakeSweep_double rint_even [] 1 2 (double_round (1 / 10)))[1]?
      = some (2476979795053773 / 2251799813685248) ∧
    (2476979795053773 / 2251799813685248 : real_t) ≠ 1 + double_round (1 / 10) * 1 ∧
    (2476979795053773 / 2251799813685248 : real_t) - 1 ≠ double_round (1 / 10) ∧
    (MakeSweep_double rint_even [] 10000000000000000 10000000000000004 1)[0]?
      = some 10000000000000000 ∧
    (MakeSweep_double rint_even [] 10000000000000000 10000000000000004 1)[1]?
      = some 10000000000000000 := by
  have a0 : double_round ((0 : Nat) : real_t) = 0 := by
    rw [Nat.cast_zero, double_round_zero]
  have a1 : double_round ((1 : Nat) : real_t) = 1 :=
    double_round_of_binade _ _ 0 (by decide!)
  have b0 : double_round ((3602879701896397 / 36028797018963968 : real_t) * 0) = 0 := by
    rw [mul_zero, double_round_zero]
  have b1 : double_round ((3602879701896397 / 36028797018963968 : real_t) * 1)
      = 3602879701896397 / 36028797018963968 :=
    double_round_of_binade _ _ (-4) (by decide!)
  have c0 : double_round ((1 : real_t) + 0) = 1 :=
    double_round_of_binade _ _ 0 (by decide!)
  have c1 : double_round ((1 : real_t) + 3602879701896397 / 36028797018963968)
      = 2476979795053773 / 2251799813685248 :=
    double_round_of_binade _ _ 0 (by decide!)
  have g0 : double_round ((1 : real_t) * 0) = 0 := by
    rw [mul_zero, double_round_zero]
  have g1 : double_round ((1 : real_t) * 1) = 1 :=
    double_round_of_binade _ _ 0 (by decide!)
  have k0 : double_round ((10000000000000000 : real_t) + 0) = 10000000000000000 :=
    double_round_of_binade _ _ 53 (by decide!)
  have k1 : double_round ((10000000000000000 : real_t) + 1) = 10000000000000000 :=
    double_round_of_binade _ _ 53 (by decide!)
  rw [double_round_tenth]
  refine ⟨?_, ?_, by norm_num, by norm_num, ?_, ?_⟩
  · rw [MakeSweep_double_getElem? rint_even [] 1 2 _ 0
      (by rw [MakeSweep_num_double_default]; decide), a0, b0, c0]
  · rw [MakeSweep_double_getElem? rint_even [] 1 2 _ 1
      (by rw [MakeSweep_num_double_default]; decide), a1, b1, c1]
  · rw [MakeSweep_double_getElem? rint_even [] _ _ 1 0
      (by rw [MakeSweep_num_double_large]; decide), a0, g0, k0]
  · rw [MakeSweep_double_getElem? rint_even [] _ _ 1 1
      (by rw [MakeSweep_num_double_large]; decide), a1, g1, k1]

/-- C2, amended: for `step > 0` and a `double` `min`, the `i`-th value produced
by `MakeSweep` is `min + step * i` as the arithmetic of `double` computes it
(the conversion of `i`, the product and the sum each rounded to the nearest
`double`); it differs from the exact `min + step * i` by at most
`(|min| + 4 * step * i) * 2^-53`. The first value is `min`, two consecutive
values differ by `step` up to `(2 * |min| + 4 * step * (2 * i + 1)) * 2^-53`,
the sequence is ascending (not always strictly), and the previous contents of
the output vector are discarded. -/
theorem MakeSweep_values_double (rintp : real_t → ℤ) (results : List real_t)
    (min max step : real_t) (hstep : 0 < step) (hmin : double_round min = min) :
    (∀ i : Nat, i < (MakeSweep_double rintp results min max step).length →
      (MakeSweep_double rintp results min max step)[i]?
        = some (double_round (min + double_round (step * double_round (i : real_t)))) ∧
      |double_round (min + double_round (step * double_round (i : real_t)))
          - (min + step * (i : real_t))|
        ≤ (|min| + 4 * step * (i : real_t)) / 2 ^ 53) ∧
    (MakeSweep_double rintp results min max step)[0]? = some min ∧
    (∀ i : Nat, i + 1 < (MakeSweep_double rintp results min max step).length →
      ∃ a b : real_t, (MakeSweep_double rintp results min max step)[i]? = some a ∧
        (MakeSweep_double rintp results min max step)[i + 1]? = some b ∧
        |b - a - step| ≤ (2 * |min| + 4 * step * (2 * (i : real_t) + 1)) / 2 ^ 53) ∧
    (MakeSweep_double rintp results min max step).Pairwise (fun a b => a ≤ b) ∧
    MakeSweep_double rintp results min max step = MakeSweep_double rintp [] min max step := by
  have hmap := MakeSweep_double_eq_map rintp results min max step
  have hlen := MakeSweep_double_length rintp results min max step
  have hval : ∀ i : Nat, i < (MakeSweep_double rintp results min max step).length →
      (MakeSweep_double rintp results min max step)[i]?
        = some (double_round (min + double_round (step * double_round (i : real_t)))) ∧
      |double_round (min + double_round (step * double_round (i : real_t)))
          - (min + step * (i : real_t))|
        ≤ (|min| + 4 * step * (i : real_t)) / 2 ^ 53 := by
    intro i hi
    rw [hlen] at hi
    refine ⟨MakeSweep_double_getElem? rintp results min max step i hi, ?_⟩
    have hi0 : (0 : real_t) ≤ (i : real_t) := Nat.cast_nonneg i
    have h1 := abs_le.mp (double_round_error (i : real_t))
    rw [abs_of_nonneg hi0] at h1
    have ha0 : 0 ≤ double_round (i : real_t) := by
      have := double_round_mono hi0
      rwa [double_round_zero] at this
    have hb0 : 0 ≤ step * double_round (i : real_t) := mul_nonneg (le_of_lt hstep) ha0
    have h2 := abs_le.mp (double_round_error (step * double_round (i : real_t)))
    rw [abs_of_nonneg hb0] at h2
    have hp0 : 0 ≤ double_round (step * double_round (i : real_t)) := by
      have := double_round_mono hb0
      rwa [double_round_zero] at this
    have h3 := double_round_error (min + double_round (step * double_round (i : real_t)))
    have h4 : |min + double_round (step * double_round (i : real_t))|
        ≤ |min| + double_round (step * double_round (i : real_t)) := by
      calc |min + double_round (step * double_round (i : real_t))|
          ≤ |min| + |double_round (step * double_round (i : real_t))| := abs_add _ _
        _ = |min| + double_round (step * double_round (i : real_t)) := by
          rw [abs_of_nonneg hp0]
    have hE : 0 ≤ step * (i : real_t) := mul_nonneg (le_of_lt hstep) hi0
    -- bounds on the product
    have hB1 : step * double_round (i : real_t) ≤ step * (i : real_t) + step * (i : real_t) / 2 ^ 53 := by
      have := mul_le_mul_of_nonneg_left (show double_round (i : real_t) ≤ (i : real_t) + (i : real_t) / 2 ^ 53 by linarith [h1.2]) (le_of_lt hstep)
      linarith [this, show step * ((i : real_t) + (i : real_t) / 2 ^ 53) = step * (i : real_t) + step * (i : real_t) / 2 ^ 53 by ring]
    have hB2 : step * (i : real_t) - step * (i : real_t) / 2 ^ 53 ≤ step * double_round (i : real_t) := by
      have := mul_le_mul_of_nonneg_left (show (i : real_t) - (i : real_t) / 2 ^ 53 ≤ double_round (i : real_t) by linarith [h1.1]) (le_of_lt hstep)
      linarith [this, show step * ((i : real_t) - (i : real_t) / 2 ^ 53) = step * (i : real_t) - step * (i : real_t) / 2 ^ 53 by ring]
    have h3' := abs_le.mp (le_trans h3 (div_le_div_of_nonneg_right h4 (by positivity)))
    have hmin0 : 0 ≤ |min| := abs_nonneg min
    rw [abs_le]
    constructor
    · norm_num at h1 h2 h3' hB1 hB2 ⊢
      linarith [h2.1, h2.2, h3'.1, h3'.2]
    · norm_num at h1 h2 h3' hB1 hB2 ⊢
      linarith [h2.1, h2.2, h3'.1, h3'.2]
  refine ⟨hval, ?_, ?_, ?_, ?_⟩
  · rw [MakeSweep_double_getElem? rintp results min max step 0
      (MakeSweep_num_double_pos rintp min max step)]
    simp [double_round_zero, hmin]
  · intro i hi
    obtain ⟨ha, hea⟩ := hval i (by omega)
    obtain ⟨hb, heb⟩ := hval (i + 1) hi
    refine ⟨_, _, ha, hb, ?_⟩
    have hea' := abs_le.mp hea
    have heb' := abs_le.mp heb
    push_cast at heb' ⊢
    rw [abs_le]
    constructor
    · linarith [hea'.1, hea'.2, heb'.1, heb'.2]
    · linarith [hea'.1, hea'.2, heb'.1, heb'.2]
  · rw [hmap, List.pairwise_map]
    refine List.Pairwise.imp ?_ (List.pairwise_lt_range _)
    intro a b hab
    apply double_round_mono
    have h1 : double_round (a : real_t) ≤ double_round (b : real_t) :=
      double_round_mono (by exact_mod_cast le_of_lt hab)
    have h2 := double_round_mono (mul_le_mul_of_nonneg_left h1 (le_of_lt hstep))
    linarith
  · rw [hmap, MakeSweep_double_eq_map]

theorem MakeSweep_values_double_witness :
    (MakeSweep_double rint_even [5, 6, 7] 1 2 (3602879701896397 / 36028797018963968))[0]?
      = some 1 :=
  (MakeSweep_values_double rint_even [5, 6, 7] 1 2 (3602879701896397 / 36028797018963968)
    (by norm_num) (double_round_of_binade _ _ 0 (by decide!))).2.1

/-- C3: for `step > 0` and `max ≤ min`, `MakeSweep` (with a rounding to the
nearest integer) produces exactly one value, which is `min`. -/
theorem MakeSweep_degenerate (rintp : real_t → ℤ) (hr : IsNearest rintp)
    (results : List real_t) (min max step : real_t) (hstep : 0 < step) (hle : max ≤ min) :
    MakeSweep rintp results min max step = [min] := by
  have hb := MakeSweep_num_bounds hr min max step hstep
  have h0 : Max.max 0 (max - min) = 0 := max_eq_left (by linarith)
  rw [h0, zero_div, zero_add] at hb
  have he : sweep_epsilon < 1 := by unfold sweep_epsilon; norm_num
  have hpos := MakeSweep_num_pos rintp min max step
  have h2 : (MakeSweep_num rintp min max step : real_t) < 2 := by linarith [hb.2]
  have h3 : MakeSweep_num rintp min max step < 2 := by exact_mod_cast h2
  have h1 : MakeSweep_num rintp min max step = 1 := by omega
  rw [MakeSweep_eq_map, h1]
  show [min + step * ((0 : Nat) : real_t)] = [min]
  rw [Nat.cast_zero, mul_zero, add_zero]

theorem MakeSweep_degenerate_witness :
    IsNearest rint_even ∧ (0 : real_t) < 1 / 2 ∧ (3 : real_t) ≤ 5 ∧
    MakeSweep rint_even [] 5 3 (1 / 2) = [5] :=
  ⟨rint_even_isNearest, by norm_num, by norm_num,
    MakeSweep_degenerate rint_even rint_even_isNearest [] 5 3 (1 / 2) (by norm_num)
      (by norm_num)⟩

/-- C5: a `SimulateParameterSweep` whose inputs are accepted is its loop, run
on an aggregate buffer allocated with `N*M*F` entries (`N` sweep values, `M`
modes, `F` result fields per mode), followed by the output stage. When the run
is never cancelled and every solver call it makes returns with exactly `M*F`
results (and the parameter list in place), the loop runs to its end, the buffer
handed to the output stage still has `N*M*F` entries, and for every `i < N` the
`i`-th solver call of the run was made with the `i`-th sweep value, its results
were copied inside the buffer, and they are the slice `[i*M*F, (i+1)*M*F)` of
the buffer. -/
theorem SimulateParameterSweep_layout (ext : Externals) (s : Sim)
    (context : TLineContext) (frequency value_min value_max value_step : real_t)
    (hinit : (SimulationInit ext TLineContext.empty s).1 = .ok context)
    (hfreq : FloatFromString ext s.window.m_lineedit_frequency = .ok frequency)
    (hmin : FloatFromString ext s.window.m_lineedit_parameter_sweep_min = .ok value_min)
    (hmax : FloatFromString ext s.window.m_lineedit_parameter_sweep_max = .ok value_max)
    (hstep : FloatFromString ext s.window.m_lineedit_parameter_sweep_step = .ok value_step)
    (hindex : size_t_of_int s.window.m_combobox_parameter_sweep_parameter.currentData
      < s.window.m_tline_type.m_parameters.length)
    (hsolver : ∀ k c,
      (SimulateParameterSweep ext s).2.solver_calls[s.solver_calls.length + k]? = some c →
      ∃ c', (s.window.m_tline_type.m_simulate c).outcome = .ok c' ∧
        c'.m_parameters.length = c.m_parameters.length ∧
        c'.m_results.length = s.window.m_tline_type.m_modes.length * ext.TLINERESULT_COUNT)
    (hcancel : ∀ k, s.task_canceled k = false) :
    SimulateParameterSweep ext s
      = Run.bind
          (ParameterSweep_task ext s.window.m_tline_type
            (MakeSweep ext.rintp [] value_min value_max value_step)
            (size_t_of_int s.window.m_combobox_parameter_sweep_parameter.currentData)
            { context with m_frequencies := [frequency * 1000000000] }
            (vector_resize [] (ext.TLINERESULT_COUNT * s.window.m_tline_type.m_modes.length
              * (MakeSweep ext.rintp [] value_min value_max value_step).length)))
          (fun r => ParameterSweep_output ext s.window.m_tline_type
            s.window.m_lineedit_parameter_sweep_file
            (MakeSweep ext.rintp [] value_min value_max value_step)
            (size_t_of_int s.window.m_combobox_parameter_sweep_parameter.currentData) r.2)
          s ∧
    (vector_resize [] (ext.TLINERESULT_COUNT * s.window.m_tline_type.m_modes.length
        * (MakeSweep ext.rintp [] value_min value_max value_step).length)).length
      = (MakeSweep ext.rintp [] value_min value_max value_step).length
        * s.window.m_tline_type.m_modes.length * ext.TLINERESULT_COUNT ∧
    ∃ context' combined,
      (ParameterSweep_task ext s.window.m_tline_type
        (MakeSweep ext.rintp [] value_min value_max value_step)
        (size_t_of_int s.window.m_combobox_parameter_sweep_parameter.currentData)
        { context with m_frequencies := [frequency * 1000000000] }
        (vector_resize [] (ext.TLINERESULT_COUNT * s.window.m_tline_type.m_modes.length
          * (MakeSweep ext.rintp [] value_min value_max value_step).length)) s).1
        = .ok (context', combined) ∧
      combined.length = (MakeSweep ext.rintp [] value_min value_max value_step).length
        * s.window.m_tline_type.m_modes.length * ext.TLINERESULT_COUNT ∧
      ∀ i, i < (MakeSweep ext.rintp [] value_min value_max value_step).length →
        ∃ c c' v key,
          (SimulateParameterSweep ext s).2.solver_calls[s.solver_calls.length + i]? = some c ∧
          (MakeSweep ext.rintp [] value_min value_max value_step)[i]? = some v ∧
          c.m_parameters[
            size_t_of_int s.window.m_combobox_parameter_sweep_parameter.currentData]?
            = some (key, .ofFloat (ext.FloatScale v)) ∧
          (s.window.m_tline_type.m_simulate c).outcome = .ok c' ∧
          i * s.window.m_tline_type.m_modes.length * ext.TLINERESULT_COUNT
            + c'.m_results.length ≤ combined.length ∧
          (combined.drop (i * s.window.m_tline_type.m_modes.length * ext.TLINERESULT_COUNT)).take
            (s.window.m_tline_type.m_modes.length * ext.TLINERESULT_COUNT) = c'.m_results := by
  have hrun := SimulateParameterSweep_run ext s context frequency value_min value_max
    value_step hinit hfreq hmin hmax hstep
  obtain ⟨hlogc, -⟩ := SimulateParameterSweep_log ext s context frequency value_min
    value_max value_step hinit hfreq hmin hmax hstep
  have hplen := SimulationInit_length ext s context hinit
  have hlen0 : (vector_resize [] (ext.TLINERESULT_COUNT * s.window.m_tline_type.m_modes.length
        * (MakeSweep ext.rintp [] value_min value_max value_step).length)).length
      = (MakeSweep ext.rintp [] value_min value_max value_step).length
        * s.window.m_tline_type.m_modes.length * ext.TLINERESULT_COUNT := by
    simp only [vector_resize, List.take_nil, List.nil_append, List.length_nil, Nat.sub_zero,
      List.length_replicate]
    ring
  refine ⟨hrun, hlen0, ?_⟩
  rw [hlogc] at hsolver ⊢
  unfold ParameterSweep_task at hsolver ⊢
  obtain ⟨context', combined, hok⟩ := ParameterSweep_loop_completes ext s.window.m_tline_type
    (MakeSweep ext.rintp [] value_min value_max value_step)
    (size_t_of_int s.window.m_combobox_parameter_sweep_parameter.currentData)
    (MakeSweep ext.rintp [] value_min value_max value_step).length 0
    { context with m_frequencies := [frequency * 1000000000] }
    (vector_resize [] (ext.TLINERESULT_COUNT * s.window.m_tline_type.m_modes.length
      * (MakeSweep ext.rintp [] value_min value_max value_step).length))
    s
    (by
      intro k c hk
      obtain ⟨c', h1, h2, h3⟩ := hsolver k c hk
      exact ⟨c', h1, h2, by rw [h3, Nat.mul_comm]⟩)
    hcancel (by rw [← hplen] at hindex; exact hindex) (by omega)
    (by simp [vector_resize])
  obtain ⟨hlen, -, calls, hcalls, hcl, hslice⟩ := ParameterSweep_loop_slices ext
    s.window.m_tline_type (MakeSweep ext.rintp [] value_min value_max value_step)
    (size_t_of_int s.window.m_combobox_parameter_sweep_parameter.currentData)
    (MakeSweep ext.rintp [] value_min value_max value_step).length 0
    { context with m_frequencies := [frequency * 1000000000] }
    (vector_resize [] (ext.TLINERESULT_COUNT * s.window.m_tline_type.m_modes.length
      * (MakeSweep ext.rintp [] value_min value_max value_step).length))
    s context' combined
    (by
      intro k c c' hk hc
      obtain ⟨c'', h1, -, h3⟩ := hsolver k c hk
      rw [hc] at h1
      cases h1
      rw [h3, Nat.mul_comm])
    hok
  refine ⟨context', combined, hok, by rw [hlen, hlen0], ?_⟩
  intro i hi
  obtain ⟨c, c', v, key, h1, h2, h3, h4, h5⟩ := hslice i hi
  have hcall : (forLoop (ParameterSweep_body ext s.window.m_tline_type
      (MakeSweep ext.rintp [] value_min value_max value_step)
      (size_t_of_int s.window.m_combobox_parameter_sweep_parameter.currentData))
      (MakeSweep ext.rintp [] value_min value_max value_step).length 0
      ({ context with m_frequencies := [frequency * 1000000000] },
        vector_resize [] (ext.TLINERESULT_COUNT * s.window.m_tline_type.m_modes.length
          * (MakeSweep ext.rintp [] value_min value_max value_step).length))
      s).2.solver_calls[s.solver_calls.length + i]? = some c := by
    rw [hcalls, List.getElem?_append_right (by omega)]
    simpa using h1
  obtain ⟨c'', h6, -, h7⟩ := hsolver i c hcall
  rw [h4] at h6
  cases h6
  have e1 : i * s.window.m_tline_type.m_modes.length * ext.TLINERESULT_COUNT
      = ext.TLINERESULT_COUNT * s.window.m_tline_type.m_modes.length * i := by ring
  refine ⟨c, c', v, key, hcall, by simpa using h2, h3, h4, ?_, ?_⟩
  · rw [h7, hlen, hlen0]
    have h8 : (i + 1) * (s.window.m_tline_type.m_modes.length * ext.TLINERESULT_COUNT)
        ≤ (MakeSweep ext.rintp [] value_min value_max value_step).length
          * (s.window.m_tline_type.m_modes.length * ext.TLINERESULT_COUNT) :=
      Nat.mul_le_mul_right _ hi
    calc i * s.window.m_tline_type.m_modes.length * ext.TLINERESULT_COUNT
          + s.window.m_tline_type.m_modes.length * ext.TLINERESULT_COUNT
        = (i + 1) * (s.window.m_tline_type.m_modes.length * ext.TLINERESULT_COUNT) := by ring
      _ ≤ (MakeSweep ext.rintp [] value_min value_max value_step).length
          * (s.window.m_tline_type.m_modes.length * ext.TLINERESULT_COUNT) := h8
      _ = (MakeSweep ext.rintp [] value_min value_max value_step).length
          * s.window.m_tline_type.m_modes.length * ext.TLINERESULT_COUNT := by ring
  · rw [Nat.zero_add] at h5
    rw [e1, Nat.mul_comm s.window.m_tline_type.m_modes.length]
    exact h5

theorem SimulateParameterSweep_layout_witness :
    ∃ context' combined,
      (ParameterSweep_task stub_ext stub_type (MakeSweep rint_even [] 1 2 1) 0
        { TLineContext.empty with
          m_material_database := some { conductors := [], dielectrics := [] },
          m_parameters := [("Width", .ofFloat 1000)], m_frequencies := [1 * 1000000000] }
        (vector_resize [] (1 * 1 * (MakeSweep rint_even [] 1 2 1).length))
        (Sim.start coarse_window (fun _ => false) (fun _ => true))).1
        = .ok (context', combined) ∧
      combined = [2, 4] := by
  have htrace : (SimulateParameterSweep stub_ext
      (Sim.start coarse_window (fun _ => false) (fun _ => true))).2.solver_calls
      = [{ TLineContext.empty with
            m_material_database := some { conductors := [], dielectrics := [] },
            m_parameters := [("Width", .ofFloat 1000)], m_frequencies := [1000000000] },
         { TLineContext.empty with
            m_material_database := some { conductors := [], dielectrics := [] },
            m_parameters := [("Width", .ofFloat 2000)], m_frequencies := [1000000000],
            m_results := [2] }] := by decide!
  obtain ⟨context', combined, hok, -, -⟩ := (SimulateParameterSweep_layout stub_ext
    (Sim.start coarse_window (fun _ => false) (fun _ => true))
    { TLineContext.empty with
      m_material_database := some { conductors := [], dielectrics := [] },
      m_parameters := [("Width", .ofFloat 1000)] }
    1 1 2 1
    (by decide!) (by decide!) (by decide!) (by decide!) (by decide!) (by decide!)
    (by
      intro k c hk
      rw [htrace] at hk
      match k, hk with
      | 0, hk =>
        simp only [Sim.start, List.length_nil, Nat.add_zero, List.getElem?_cons_zero,
          Option.some.injEq] at hk
        subst hk
        exact ⟨_, rfl, rfl, by decide⟩
      | 1, hk =>
        simp only [Sim.start, List.length_nil, Nat.zero_add, List.getElem?_cons_succ,
          List.getElem?_cons_zero, Option.some.injEq] at hk
        subst hk
        exact ⟨_, rfl, rfl, by decide⟩
      | k + 2, hk => simp [Sim.start] at hk)
    (fun _ => rfl)).2.2
  have hok' : (ParameterSweep_task stub_ext stub_type (MakeSweep rint_even [] 1 2 1) 0
        { TLineContext.empty with
          m_material_database := some { conductors := [], dielectrics := [] },
          m_parameters := [("Width", .ofFloat 1000)], m_frequencies := [1 * 1000000000] }
        (vector_resize [] (1 * 1 * (MakeSweep rint_even [] 1 2 1).length))
        (Sim.start coarse_window (fun _ => false) (fun _ => true))).1
      = .ok (context', combined) := hok
  refine ⟨context', combined, hok', ?_⟩
  have hrun : (ParameterSweep_task stub_ext stub_type (MakeSweep rint_even [] 1 2 1) 0
        { TLineContext.empty with
          m_material_database := some { conductors := [], dielectrics := [] },
          m_parameters := [("Width", .ofFloat 1000)], m_frequencies := [1 * 1000000000] }
        (vector_resize [] (1 * 1 * (MakeSweep rint_even [] 1 2 1).length))
        (Sim.start coarse_window (fun _ => false) (fun _ => true))).1
      = .ok ({ TLineContext.empty with
          m_material_database := some { conductors := [], dielectrics := [] },
          m_parameters := [("Width", .ofFloat 2000)], m_frequencies := [1000000000],
          m_results := [4] }, [2, 4]) := by decide!
  rw [hrun] at hok'
  cases hok'
  rfl

/-- C6: end to end, with sweep bounds 1.0 and 2.0, step 0.1, one result field,
one mode, and a stub solver whose single result is twice the swept parameter,
an uncancelled `SimulateParameterSweep` whose inputs parse and whose file opens
succeeds and writes a table of a header and eleven data lines; data line `k`
has exactly two cells, the sweep value `1 + k/10` and twice that value, so the
lines come in ascending order of the sweep value. -/
theorem SimulateParameterSweep_end_to_end (ext : Externals) (window : MainWindow)
    (task_canceled : Nat → Bool) (file_writable : String → Bool)
    (context : TLineContext) (frequency : real_t) (parameter : TLineParameter)
    (hr : IsNearest ext.rintp)
    (hscale : ∀ x, ext.FloatUnscale (ext.FloatScale x) = x)
    (hF : ext.TLINERESULT_COUNT = 1) (hM : window.m_tline_type.m_modes.length = 1)
    (hinit : (SimulationInit ext TLineContext.empty
      (Sim.start window task_canceled file_writable)).1 = .ok context)
    (hfreq : FloatFromString ext window.m_lineedit_frequency = .ok frequency)
    (hmin : FloatFromString ext window.m_lineedit_parameter_sweep_min = .ok 1)
    (hmax : FloatFromString ext window.m_lineedit_parameter_sweep_max = .ok 2)
    (hstep : FloatFromString ext window.m_lineedit_parameter_sweep_step = .ok (1 / 10))
    (hparam : window.m_tline_type.m_parameters[
      size_t_of_int window.m_combobox_parameter_sweep_parameter.currentData]? = some parameter)
    (hsolver : ∀ c key x,
      c.m_parameters[size_t_of_int window.m_combobox_parameter_sweep_parameter.currentData]?
        = some (key, .ofFloat x) →
      (window.m_tline_type.m_simulate c).outcome
        = .ok { c with m_results := [2 * ext.FloatUnscale x] })
    (hsingle : ∀ c c', (window.m_tline_type.m_simulate c).outcome = .ok c' →
      c'.m_results.length = 1)
    (hcancel : ∀ n, task_canceled n = false)
    (hwrite : file_writable window.m_lineedit_parameter_sweep_file = true) :
    (SimulateParameterSweep ext (Sim.start window task_canceled file_writable)).1 = .ok () ∧
    ∃ file, (SimulateParameterSweep ext (Sim.start window task_canceled file_writable)).2.file
        = some file ∧
      (linesOf file).length = 1 + 11 ∧
      ∀ k : Nat, k < 11 → ∃ line, (linesOf file)[1 + k]? = some line ∧
        cellsOf line = [[Tok.real (1 + (k : real_t) / 10)],
          [Tok.real (2 * (1 + (k : real_t) / 10))]] := by
  have hrun := SimulateParameterSweep_run ext (Sim.start window task_canceled file_writable)
    context frequency 1 2 (1 / 10) hinit hfreq hmin hmax hstep
  simp only [show (Sim.start window task_canceled file_writable).window = window from rfl]
    at hrun
  have hstride : ext.TLINERESULT_COUNT * window.m_tline_type.m_modes.length = 1 := by
    rw [hF, hM]
  have hsv := MakeSweep_one_two ext.rintp hr
  have hN : (MakeSweep ext.rintp [] 1 2 (1 / 10)).length = 11 := by rw [hsv]; simp
  have hplen := SimulationInit_length ext _ context hinit
  simp only [show (Sim.start window task_canceled file_writable).window = window from rfl]
    at hplen
  have hindex : size_t_of_int window.m_combobox_parameter_sweep_parameter.currentData
      < context.m_parameters.length := by
    rw [hplen]
    by_contra hge
    rw [List.getElem?_eq_none (by omega)] at hparam
    cases hparam
  have hsize : ∀ c c', (window.m_tline_type.m_simulate c).outcome = .ok c' →
      c'.m_results.length = ext.TLINERESULT_COUNT * window.m_tline_type.m_modes.length := by
    intro c c' h
    rw [hstride]; exact hsingle c c' h
  have hroom : (vector_resize [] (ext.TLINERESULT_COUNT * window.m_tline_type.m_modes.length
      * (MakeSweep ext.rintp [] 1 2 (1 / 10)).length)).length
      = ext.TLINERESULT_COUNT * window.m_tline_type.m_modes.length
        * (MakeSweep ext.rintp [] 1 2 (1 / 10)).length := by
    simp [vector_resize]
  obtain ⟨context', combined, hok⟩ := ParameterSweep_loop_runs ext window.m_tline_type
    (MakeSweep ext.rintp [] 1 2 (1 / 10))
    (size_t_of_int window.m_combobox_parameter_sweep_parameter.currentData)
    (fun c key x h => ⟨_, hsolver c key x h, rfl, by rw [hstride]; rfl⟩)
    (MakeSweep ext.rintp [] 1 2 (1 / 10)).length 0
    { context with m_frequencies := [frequency * 1000000000] }
    (vector_resize [] (ext.TLINERESULT_COUNT * window.m_tline_type.m_modes.length
      * (MakeSweep ext.rintp [] 1 2 (1 / 10)).length))
    (Sim.start window task_canceled file_writable) hcancel hindex (by omega)
    (by rw [hroom, Nat.zero_add])
  obtain ⟨hclen, -, calls, -, -, hslice⟩ := ParameterSweep_loop_ok ext window.m_tline_type
    (MakeSweep ext.rintp [] 1 2 (1 / 10))
    (size_t_of_int window.m_combobox_parameter_sweep_parameter.currentData) hsize
    (MakeSweep ext.rintp [] 1 2 (1 / 10)).length 0 _ _ _ context' combined hok
  have hframe := ParameterSweep_loop_frame ext window.m_tline_type
    (MakeSweep ext.rintp [] 1 2 (1 / 10))
    (size_t_of_int window.m_combobox_parameter_sweep_parameter.currentData)
    (MakeSweep ext.rintp [] 1 2 (1 / 10)).length 0
    ({ context with m_frequencies := [frequency * 1000000000] },
      vector_resize [] (ext.TLINERESULT_COUNT * window.m_tline_type.m_modes.length
        * (MakeSweep ext.rintp [] 1 2 (1 / 10)).length))
    (Sim.start window task_canceled file_writable)
  have htask : forLoop (ParameterSweep_body ext window.m_tline_type
        (MakeSweep ext.rintp [] 1 2 (1 / 10))
        (size_t_of_int window.m_combobox_parameter_sweep_parameter.currentData))
      (MakeSweep ext.rintp [] 1 2 (1 / 10)).length 0
      ({ context with m_frequencies := [frequency * 1000000000] },
        vector_resize [] (ext.TLINERESULT_COUNT * window.m_tline_type.m_modes.length
          * (MakeSweep ext.rintp [] 1 2 (1 / 10)).length))
      (Sim.start window task_canceled file_writable)
      = ParameterSweep_task ext window.m_tline_type (MakeSweep ext.rintp [] 1 2 (1 / 10))
          (size_t_of_int window.m_combobox_parameter_sweep_parameter.currentData)
          { context with m_frequencies := [frequency * 1000000000] }
          (vector_resize [] (ext.TLINERESULT_COUNT * window.m_tline_type.m_modes.length
            * (MakeSweep ext.rintp [] 1 2 (1 / 10)).length))
          (Sim.start window task_canceled file_writable) := rfl
  rw [htask] at hok hframe
  rw [hroom] at hclen
  cases hl : ParameterSweep_task ext window.m_tline_type (MakeSweep ext.rintp [] 1 2 (1 / 10))
      (size_t_of_int window.m_combobox_parameter_sweep_parameter.currentData)
      { context with m_frequencies := [frequency * 1000000000] }
      (vector_resize [] (ext.TLINERESULT_COUNT * window.m_tline_type.m_modes.length
        * (MakeSweep ext.rintp [] 1 2 (1 / 10)).length))
      (Sim.start window task_canceled file_writable) with
  | mk r s2 =>
    rw [hl] at hok hframe
    simp only at hok hframe
    subst hok
    rw [hrun, Run.bind_ok _ _ _ s2 (context', combined) hl]
    simp only
    have hw2 : s2.file_writable window.m_lineedit_parameter_sweep_file = true := by
      rw [hframe.2]; exact hwrite
    rw [ParameterSweep_output_eq ext window.m_tline_type _ _ _ combined s2 parameter hw2 hparam
      (by rw [hclen])]
    refine ⟨rfl, _, rfl, ?_⟩
    obtain ⟨hlines, -, hrows⟩ := table_tokens_isSweepTable ext window.m_tline_type
      parameter.m_name (MakeSweep ext.rintp [] 1 2 (1 / 10)) combined (by rw [hclen])
    refine ⟨by rw [hlines, hN], ?_⟩
    intro k hk
    obtain ⟨line, value, hline, hvalue, hcl, hc0, hcells⟩ := hrows k (by rw [hN]; exact hk)
    obtain ⟨r, hr1, hr2⟩ := hcells 0 (by rw [hM, hF]; decide)
    obtain ⟨c, c', v, key, -, hv, hkey, hout, hsl⟩ := hslice k (by rw [hN]; exact hk)
    rw [Nat.zero_add] at hv hsl
    rw [hv] at hvalue
    have hvv : v = value := Option.some.inj hvalue
    subst hvv
    have hvk : v = 1 + (k : real_t) / 10 := by
      rw [hsv, List.getElem?_map, List.getElem?_range hk] at hv
      simpa using hv.symm
    rw [hsolver c key _ hkey] at hout
    cases hout
    rw [hscale, hstride, Nat.one_mul] at hsl
    have hrk : r = 2 * v := by
      have h1 : combined[k]? = some (2 * v) := by
        have h2 : (List.take 1 (List.drop k combined))[0]? = some (2 * v) := by
          rw [hsl]; rfl
        rw [List.getElem?_take_of_lt (by decide), List.getElem?_drop, Nat.add_zero] at h2
        exact h2
      rw [hM, hF, Nat.mul_one, Nat.one_mul, Nat.add_zero, h1] at hr1
      exact (Option.some.inj hr1).symm
    rw [hM, hF] at hcl
    refine ⟨line, hline, ?_⟩
    rw [hrk, hvk] at hr2
    rw [hvk] at hc0
    match hcells' : cellsOf line, hcl, hc0, hr2 with
    | [a, b], _, h0, h1 =>
      simp only [List.getElem?_cons_zero, Option.some.injEq] at h0
      simp only [Nat.add_zero, List.getElem?_cons_succ, List.getElem?_cons_zero,
        Option.some.injEq] at h1
      rw [h0, h1]

theorem SimulateParameterSweep_end_to_end_witness :
    (SimulateParameterSweep stub_ext
      (Sim.start (stub_window "1.0") (fun _ => false) (fun _ => true))).1 = .ok () :=
  (SimulateParameterSweep_end_to_end stub_ext (stub_window "1.0") (fun _ => false)
    (fun _ => true)
    { TLineContext.empty with
      m_material_database := some { conductors := [], dielectrics := [] },
      m_parameters := [("Width", .ofFloat 1000)] }
    1
    { m_name := "Width", m_type := .TLINE_PARAMETERTYPE_REAL, m_default_value := .ofFloat 1000,
      m_unit_mm := true, m_separator := false }
    rint_even_isNearest
    (by intro x; show x * 1000 / 1000 = x; field_simp)
    rfl rfl (by decide!) (by decide!) (by decide!) (by decide!) (by decide!) (by decide!)
    (by
      intro c key x h
      have h0 : c.m_parameters[0]? = some (key, VData.ofFloat x) := h
      show (stub_simulate c).outcome = _
      unfold stub_simulate
      simp only [h0]
      rfl)
    (by
      intro c c' h
      have h' : (stub_simulate c).outcome = .ok c' := h
      unfold stub_simulate at h'
      simp only at h'
      split at h'
      · cases h'; rfl
      · cases h')
    (fun _ => rfl) rfl).1

/-- C8 as stated fails: with the cancel flag set from the start and a solver
that throws at its first call, the run ends with the error of the solver, not
with the cancellation error. -/
theorem canceled_run_ends_with_solver_error :
    (SimulateParameterSweep stub_ext
        (Sim.start (failing_window 0) (fun _ => true) (fun _ => true))).1
      = .error (.runtime_error "solver failed") ∧
    (Error.runtime_error "solver failed")
      ≠ .runtime_error "Parameter sweep canceled by user." := by
  decide!

/-- C8, amended: if the cancel flag is set at its first read, then
`SimulateParameterSweep` fails and never opens the output file; and if the run
reports a progress value at all (its input parsed and its first solver call
returned), it reports this one value only, after exactly one solver call, and
fails with the cancellation error. -/
theorem SimulateParameterSweep_canceled (ext : Externals) (window : MainWindow)
    (task_canceled : Nat → Bool) (file_writable : String → Bool)
    (hcancel : task_canceled 0 = true) :
    (SimulateParameterSweep ext (Sim.start window task_canceled file_writable)).2.file = none ∧
    (∃ e, (SimulateParameterSweep ext (Sim.start window task_canceled file_writable)).1
      = .error e) ∧
    ((SimulateParameterSweep ext (Sim.start window task_canceled file_writable)).2.task_progress
        ≠ [] →
      (SimulateParameterSweep ext (Sim.start window task_canceled file_writable)).1
        = .error (.runtime_error "Parameter sweep canceled by user.") ∧
      (SimulateParameterSweep ext (Sim.start window task_canceled file_writable)).2.task_progress
        = [1] ∧
      (SimulateParameterSweep ext
        (Sim.start window task_canceled file_writable)).2.solver_calls.length = 1) := by
  rcases SimulateParameterSweep_cases ext (Sim.start window task_canceled file_writable) with
    ⟨hs, e, he⟩ | ⟨context, frequency, value_min, value_max, value_step, -, -, -, -, -, hrun⟩
  · rw [hs, he]
    exact ⟨rfl, ⟨e, rfl⟩, fun h => absurd rfl h⟩
  · simp only [show (Sim.start window task_canceled file_writable).window = window from rfl]
      at hrun
    have hlen : 1 ≤ (MakeSweep ext.rintp [] value_min value_max value_step).length := by
      rw [MakeSweep_length_num]
      exact MakeSweep_num_pos ext.rintp value_min value_max value_step
    obtain ⟨h1, h2, h3⟩ := ParameterSweep_stages_canceled ext window.m_tline_type
      window.m_lineedit_parameter_sweep_file
      (MakeSweep ext.rintp [] value_min value_max value_step)
      (size_t_of_int window.m_combobox_parameter_sweep_parameter.currentData)
      { context with m_frequencies := [frequency * 1000000000] }
      (vector_resize [] (ext.TLINERESULT_COUNT * window.m_tline_type.m_modes.length
        * (MakeSweep ext.rintp [] value_min value_max value_step).length))
      (Sim.start window task_canceled file_writable) hlen hcancel
    rw [hrun]
    refine ⟨h1, h2, ?_⟩
    intro hne
    obtain ⟨h4, h5, c, h6⟩ := h3 hne
    exact ⟨h4, h5, by rw [h6]; rfl⟩

theorem SimulateParameterSweep_canceled_witness :
    (SimulateParameterSweep stub_ext
      (Sim.start (stub_window "1.0") (fun _ => true) (fun _ => true))).1
      = .error (.runtime_error "Parameter sweep canceled by user.") :=
  ((SimulateParameterSweep_canceled stub_ext (stub_window "1.0") (fun _ => true)
    (fun _ => true) rfl).2.2 (by decide!)).1

/-- C9 as stated fails: the text `true` in the field of a real-typed parameter
does not denote a number (`FloatFromString` rejects it), yet
`SimulationInit` accepts it and the single-frequency run calls the solver. So
does the text `x` in a field whose unit is "mil": `GetText` hands over the text
of `toDouble("x") * 39.37008`, that is "0". -/
theorem nonnumeric_parameter_reaches_solver :
    FloatFromString stub_ext "true"
      = .error (.runtime_error "Expected float, got bool instead.") ∧
    (SimulationInit stub_ext TLineContext.empty
        (Sim.start (stub_window "true") (fun _ => false) (fun _ => true))).1
      = .ok { TLineContext.empty with
              m_material_database := some { conductors := [], dielectrics := [] },
              m_parameters := [("Width", .ofBool true)] } ∧
    (Simulate stub_ext .SIMULATION_SINGLE_FREQUENCY
        (Sim.start (stub_window "true") (fun _ => false) (fun _ => true))).2.solver_calls.length
      = 1 ∧
    FloatFromString mil_ext "x" = .error (.runtime_error "JSON parse error") ∧
    (SimulationInit mil_ext TLineContext.empty
        (Sim.start (mil_window "x") (fun _ => false) (fun _ => true))).1
      = .ok { TLineContext.empty with
              m_material_database := some { conductors := [], dielectrics := [] },
              m_parameters := [("Width", .ofInt 0)] } ∧
    (Simulate mil_ext .SIMULATION_SINGLE_FREQUENCY
        (Sim.start (mil_window "x") (fun _ => false) (fun _ => true))).2.solver_calls.length
      = 1 := by
  decide!

/-- C9, amended: in each of the four run modes, the run fails and the solver is
never called if, for some real-typed parameter, the text its input field hands
over through `GetText` (the text of the field while the unit is "mm", the text
`QString::number` gives for the number of the field times 39.37008 while it is
"mil") cannot be parsed, or if the frequency, a sweep bound or step, or the
tuning target is not a number (its text cannot be parsed or parses to a value
that is not numeric). -/
theorem Simulate_malformed_input (ext : Externals) (window : MainWindow)
    (task_canceled : Nat → Bool) (file_writable : String → Bool) (mode : SimulationType)
    (h : (∃ (i : Nat) (parameter : TLineParameter) (lineedit : CustomLineEdit)
          (text : String) (e : Error),
          window.m_tline_type.m_parameters[i]? = some parameter ∧
          parameter.m_type = .TLINE_PARAMETERTYPE_REAL ∧
          window.m_widget_parameters[i]? = some (.CustomLineEdit lineedit) ∧
          lineedit.GetText ext = .ok text ∧
          ext.Json_FromString text = .error e) ∨
        ∃ text, text ∈ numeric_inputs mode window ∧ ∃ e, FloatFromString ext text = .error e) :
    (∃ e, (Simulate ext mode (Sim.start window task_canceled file_writable)).1 = .error e) ∧
    (Simulate ext mode (Sim.start window task_canceled file_writable)).2.solver_calls
      = [] := by
  have hfails : ∀ x : Run Unit, FailsAt x (Sim.start window task_canceled file_writable) →
      (∃ e, (x (Sim.start window task_canceled file_writable)).1 = .error e) ∧
      (x (Sim.start window task_canceled file_writable)).2.solver_calls = [] := by
    intro x hx
    exact ⟨hx.2, by rw [hx.1]; rfl⟩
  have hinit : (∃ c, (SimulationInit ext TLineContext.empty
        (Sim.start window task_canceled file_writable)).1 = .ok c) →
      ∃ text, text ∈ numeric_inputs mode window ∧ ∃ e, FloatFromString ext text = .error e := by
    rintro ⟨c, hc⟩
    rcases h with ⟨i, parameter, lineedit, text, e, hp, ht, hw, hg, hj⟩ | h
    · obtain ⟨e', he'⟩ := SimulationInit_unparsable ext TLineContext.empty
        (Sim.start window task_canceled file_writable) i parameter lineedit text e hp ht hw
        hg hj
      rw [hc] at he'
      cases he'
    · exact h
  cases mode with
  | SIMULATION_SINGLE_FREQUENCY =>
    rcases SimulateSingleFrequency_prefix ext (Sim.start window task_canceled file_writable)
      with hf | ⟨h0, a, h1⟩
    · exact hfails _ hf
    · obtain ⟨text, hmem, e, he⟩ := hinit h0
      simp only [numeric_inputs, List.mem_cons, List.not_mem_nil, or_false] at hmem
      subst hmem
      rw [show (Sim.start window task_canceled file_writable).window = window from rfl] at h1
      rw [h1] at he
      cases he
  | SIMULATION_FREQUENCY_SWEEP =>
    rcases SimulateFrequencySweep_prefix ext (Sim.start window task_canceled file_writable)
      with hf | ⟨h0, ⟨a1, h1⟩, ⟨a2, h2⟩, a3, h3⟩
    · exact hfails _ hf
    · obtain ⟨text, hmem, e, he⟩ := hinit h0
      simp only [numeric_inputs, List.mem_cons, List.not_mem_nil, or_false] at hmem
      rw [show (Sim.start window task_canceled file_writable).window = window from rfl]
        at h1 h2 h3
      rcases hmem with rfl | rfl | rfl
      · rw [h1] at he; cases he
      · rw [h2] at he; cases he
      · rw [h3] at he; cases he
  | SIMULATION_PARAMETER_SWEEP =>
    rcases SimulateParameterSweep_cases ext (Sim.start window task_canceled file_writable)
      with hf | ⟨c, a0, a1, a2, a3, h0, h1, h2, h3, h4, -⟩
    · exact hfails _ hf
    · obtain ⟨text, hmem, e, he⟩ := hinit ⟨c, h0⟩
      simp only [numeric_inputs, List.mem_cons, List.not_mem_nil, or_false] at hmem
      rw [show (Sim.start window task_canceled file_writable).window = window from rfl]
        at h1 h2 h3 h4
      rcases hmem with rfl | rfl | rfl | rfl
      · rw [h1] at he; cases he
      · rw [h2] at he; cases he
      · rw [h3] at he; cases he
      · rw [h4] at he; cases he
  | SIMULATION_PARAMETER_TUNE =>
    rcases SimulateParameterTune_prefix ext (Sim.start window task_canceled file_writable)
      with hf | ⟨h0, ⟨a1, h1⟩, a2, h2⟩
    · exact hfails _ hf
    · obtain ⟨text, hmem, e, he⟩ := hinit h0
      simp only [numeric_inputs, List.mem_cons, List.not_mem_nil, or_false] at hmem
      rw [show (Sim.start window task_canceled file_writable).window = window from rfl]
        at h1 h2
      rcases hmem with rfl | rfl
      · rw [h1] at he; cases he
      · rw [h2] at he; cases he

theorem Simulate_malformed_input_witness :
    (Simulate stub_ext .SIMULATION_PARAMETER_TUNE
      (Sim.start (stub_window "x") (fun _ => false) (fun _ => true))).2.solver_calls = [] :=
  (Simulate_malformed_input stub_ext (stub_window "x") (fun _ => false) (fun _ => true)
    .SIMULATION_PARAMETER_TUNE
    (Or.inl ⟨0, { m_name := "Width", m_type := .TLINE_PARAMETERTYPE_REAL,
                  m_default_value := .ofFloat 1000, m_unit_mm := true, m_separator := false },
      { lineEdit := "x", button := some { text := "mm", checked := false },
        originalText := "x" },
      "x", .runtime_error "JSON parse error", rfl, rfl, rfl, rfl, by decide!⟩)).2

/-- C10: if the solver throws at the `k`-th call of `SimulateParameterSweep`
(the call of iteration `k`), the run fails with that exception, the failing
call is the last one, and the output file is never opened. -/
theorem SimulateParameterSweep_solver_failure (ext : Externals) (window : MainWindow)
    (task_canceled : Nat → Bool) (file_writable : String → Bool)
    (k : Nat) (c : TLineContext) (e : Error)
    (hcall : (SimulateParameterSweep ext
      (Sim.start window task_canceled file_writable)).2.solver_calls[k]? = some c)
    (hfail : (window.m_tline_type.m_simulate c).outcome = .error e) :
    (SimulateParameterSweep ext (Sim.start window task_canceled file_writable)).1 = .error e ∧
    (SimulateParameterSweep ext
      (Sim.start window task_canceled file_writable)).2.solver_calls.length = k + 1 ∧
    (SimulateParameterSweep ext (Sim.start window task_canceled file_writable)).2.file
      = none := by
  rcases SimulateParameterSweep_cases ext (Sim.start window task_canceled file_writable) with
    ⟨hs, -, -⟩ | ⟨context, frequency, value_min, value_max, value_step, -, -, -, -, -, hrun⟩
  · rw [hs] at hcall
    simp [Sim.start] at hcall
  · simp only [show (Sim.start window task_canceled file_writable).window = window from rfl]
      at hrun
    rw [hrun] at hcall ⊢
    have h := ParameterSweep_stages_failure ext window.m_tline_type
      window.m_lineedit_parameter_sweep_file
      (MakeSweep ext.rintp [] value_min value_max value_step)
      (size_t_of_int window.m_combobox_parameter_sweep_parameter.currentData)
      { context with m_frequencies := [frequency * 1000000000] }
      (vector_resize [] (ext.TLINERESULT_COUNT * window.m_tline_type.m_modes.length
        * (MakeSweep ext.rintp [] value_min value_max value_step).length))
      (Sim.start window task_canceled file_writable) k c e
      (by rw [← hcall]; congr 1; exact Nat.zero_add k) hfail
    exact ⟨h.1, by rw [h.2.1]; exact congrArg (· + 1) (Nat.zero_add k), h.2.2⟩

theorem SimulateParameterSweep_solver_failure_witness :
    (SimulateParameterSweep stub_ext
      (Sim.start (failing_window (23 / 20)) (fun _ => false) (fun _ => true))).2.solver_calls.length
      = 2 + 1 :=
  (SimulateParameterSweep_solver_failure stub_ext (failing_window (23 / 20)) (fun _ => false)
    (fun _ => true) 2
    { stub_context with m_material_database := some { conductors := [], dielectrics := [] },
                        m_parameters := [("Width", .ofFloat 1200)],
                        m_frequencies := [1000000000], m_results := [11 / 5] }
    (.runtime_error "solver failed") (by decide!) (by decide!)).2.1

/-! ## Claims on `FloatFromVData` and `SimulateParameterTune` -/

/-- C11: `FloatFromVData` returns the integer of an Int value as a float and
the unscaled form of the float of a Float value, throws its `runtime_error` on
every Bool and String value, and so succeeds exactly when the tag is Int or
Float. -/
theorem FloatFromVData_tags (ext : Externals) :
    (∀ i : ℤ, FloatFromVData ext (.ofInt i) = .ok (i : real_t)) ∧
    (∀ x : real_t, FloatFromVData ext (.ofFloat x) = .ok (ext.FloatUnscale x)) ∧
    (∀ b : Bool, FloatFromVData ext (.ofBool b)
      = .error (.runtime_error "Expected float, got bool instead.")) ∧
    (∀ s : String, FloatFromVData ext (.ofString s)
      = .error (.runtime_error "Expected float, got string instead.")) ∧
    (∀ data : VData, (∃ r, FloatFromVData ext data = .ok r) ↔
      (data.GetType = .VDATA_INT ∨ data.GetType = .VDATA_FLOAT)) := by
  refine ⟨fun _ => rfl, fun _ => rfl,
    fun _ => congrArg (fun what => Except.error (Error.runtime_error what))
      (show "Expected float, got " ++ "bool" ++ " instead."
        = "Expected float, got bool instead." by decide),
    fun _ => congrArg (fun what => Except.error (Error.runtime_error what))
      (show "Expected float, got " ++ "string" ++ " instead."
        = "Expected float, got string instead." by decide), ?_⟩
  intro data
  cases data with
  | ofBool b =>
    constructor
    · rintro ⟨r, hr⟩; cases hr
    · rintro (h | h) <;> cases h
  | ofInt i => exact ⟨fun _ => Or.inl rfl, fun _ => ⟨_, rfl⟩⟩
  | ofFloat x => exact ⟨fun _ => Or.inr rfl, fun _ => ⟨_, rfl⟩⟩
  | ofString s =>
    constructor
    · rintro ⟨r, hr⟩; cases hr
    · rintro (h | h) <;> cases h

/-- C12: in a `SimulateParameterTune` whose inputs are accepted, the seed
handed to the root finder is the current value `x` of the selected parameter
when `FinitePositive x` holds, and otherwise the default value `d` the line
type declares for that parameter. The whole run is the root search from that
seed, started in the state the run started in (so that no solver call comes
before the choice of the seed), followed by the write back. -/
theorem SimulateParameterTune_seed (ext : Externals) (s : Sim) (context : TLineContext)
    (frequency target_value : real_t) (key : String) (value : VData) (x d : real_t)
    (hinit : (SimulationInit ext TLineContext.empty s).1 = .ok context)
    (hfreq : FloatFromString ext s.window.m_lineedit_frequency = .ok frequency)
    (htarget : FloatFromString ext s.window.m_lineedit_parameter_tune_target_value
      = .ok target_value)
    (hparam : context.m_parameters[
      size_t_of_int s.window.m_combobox_parameter_tune_parameter.currentData]?
      = some (key, value))
    (hvalue : FloatFromVData ext value = .ok x)
    (hdefault : ext.FinitePositive x = false → ∃ parameter : TLineParameter,
      s.window.m_tline_type.m_parameters[
        size_t_of_int s.window.m_combobox_parameter_tune_parameter.currentData]?
        = some parameter ∧
      FloatFromVData ext parameter.m_default_value = .ok d) :
    SimulateParameterTune ext s
      = Run.bind
          (RootSearch.run
            (ParameterTune_residual ext s.window.m_tline_type
              (size_t_of_int s.window.m_combobox_parameter_tune_parameter.currentData)
              (ext.clamp (size_t_of_int s.window.m_combobox_parameter_tune_target_result) 0
                (size_t_of_int
                  ((ext.TLINERESULT_COUNT * s.window.m_tline_type.m_modes.length : Nat) - 1)))
              target_value)
            (ext.FindRootRelative (if ext.FinitePositive x then x else d) (1 / 100000000)
              (target_value * (1 / 100000000)) 1000000)
            { context with m_frequencies := [frequency * 1000000000] })
          (ParameterTune_write_back ext s.window
            (size_t_of_int s.window.m_combobox_parameter_tune_parameter.currentData))
          s := by
  rw [SimulateParameterTune_run ext s context frequency target_value key value x
    (if ext.FinitePositive x then x else d) hinit hfreq htarget hparam hvalue
    (by
      cases hfp : ext.FinitePositive x with
      | true => exact Or.inl ⟨rfl, by simp⟩
      | false =>
        obtain ⟨parameter, hp, hd⟩ := hdefault hfp
        exact Or.inr ⟨rfl, parameter, hp, by simpa using hd⟩)]
  rfl

theorem SimulateParameterTune_seed_witness :
    SimulateParameterTune default_ext
        (Sim.start (stub_window "2.0") (fun _ => false) (fun _ => true))
      = Run.bind
          (RootSearch.run
            (ParameterTune_residual default_ext stub_type 0 0 2)
            (default_ext.FindRootRelative (if default_ext.FinitePositive 2 then 2 else 1)
              (1 / 100000000) (2 * (1 / 100000000)) 1000000)
            { TLineContext.empty with
              m_material_database := some { conductors := [], dielectrics := [] },
              m_parameters := [("Width", .ofFloat 2000)],
              m_frequencies := [1 * 1000000000] })
          (ParameterTune_write_back default_ext (stub_window "2.0") 0)
          (Sim.start (stub_window "2.0") (fun _ => false) (fun _ => true)) :=
  SimulateParameterTune_seed default_ext
    (Sim.start (stub_window "2.0") (fun _ => false) (fun _ => true))
    { TLineContext.empty with
      m_material_database := some { conductors := [], dielectrics := [] },
      m_parameters := [("Width", .ofFloat 2000)] }
    1 2 "Width" (.ofFloat 2000) 2 1
    (by decide!) (by decide!) (by decide!) (by decide!) (by decide!)
    (fun _ => ⟨{ m_name := "Width", m_type := .TLINE_PARAMETERTYPE_REAL,
                 m_default_value := .ofFloat 1000, m_unit_mm := true, m_separator := false },
      by decide!, by decide!⟩)

/-- C13 fails on the code: the write back of `SimulateParameterTune` casts the
widget of the selected parameter to `QLineEdit`, while the widget of a real
parameter, the one `SimulationInit` reads, is a `CustomLineEdit`. So no run of
`SimulateParameterTune` succeeds; on a window with one real parameter at 1.0,
a solver returning twice the parameter and the target 2.0, the search
converges to 1.0 after one solver call, and the run ends in the undefined
cast: the input field and the result field keep their texts. -/
theorem SimulateParameterTune_write_back_undefined :
    (∀ (ext : Externals) (s : Sim), ∃ e, (SimulateParameterTune ext s).1 = .error e) ∧
    (ParameterTune_search tune_ext (stub_window "1.0") 2 1
      { TLineContext.empty with
        m_material_database := some { conductors := [], dielectrics := [] },
        m_parameters := [("Width", .ofFloat 1000)],
        m_frequencies := [1000000000] }
      (Sim.start (stub_window "1.0") (fun _ => false) (fun _ => true))).1
      = .ok (1, { TLineContext.empty with
        m_material_database := some { conductors := [], dielectrics := [] },
        m_parameters := [("Width", .ofFloat 1000)],
        m_frequencies := [1000000000], m_results := [2] }) ∧
    (SimulateParameterTune tune_ext
      (Sim.start (stub_window "1.0") (fun _ => false) (fun _ => true))).1
      = .error (.undefined_behaviour "static_cast<QLineEdit*>") ∧
    (SimulateParameterTune tune_ext
      (Sim.start (stub_window "1.0") (fun _ => false) (fun _ => true))).2.solver_calls.length
      = 1 ∧
    (SimulateParameterTune tune_ext
      (Sim.start (stub_window "1.0") (fun _ => false) (fun _ => true))).2.window.m_widget_parameters
      = (stub_window "1.0").m_widget_parameters ∧
    (SimulateParameterTune tune_ext
      (Sim.start (stub_window "1.0") (fun _ => false) (fun _ => true))).2.window.m_lineedit_results
      = ["?"] :=
  ⟨SimulateParameterTune_fails, by decide!, by decide!, by decide!, by decide!, by decide!⟩

/-- C14: an evaluation of the residual function of `SimulateParameterTune` at
`x`, in a context that has the selected parameter, stores (the scaled form of)
`x` in the selected parameter and changes nothing else of the context (the
other parameter entries, the key, the frequencies), then calls the solver
exactly once, with that context, and returns entry `result_index` of the
results minus the target value. -/
theorem ParameterTune_residual_effect (ext : Externals) (tline_type : TLineType)
    (param_index result_index : Nat) (target_value x : real_t) (context : TLineContext)
    (s : Sim) (hindex : param_index < context.m_parameters.length) :
    ∃ key old c1,
      context.m_parameters[param_index]? = some (key, old) ∧
      c1 = { context with
             m_parameters := context.m_parameters.set param_index
               (key, .ofFloat (ext.FloatScale x)) } ∧
      c1.m_parameters[param_index]? = some (key, .ofFloat (ext.FloatScale x)) ∧
      (∀ j, j ≠ param_index → c1.m_parameters[j]? = context.m_parameters[j]?) ∧
      c1.m_parameters.length = context.m_parameters.length ∧
      c1.m_frequencies = context.m_frequencies ∧
      (ParameterTune_residual ext tline_type param_index result_index target_value x context
        s).2 = { s with solver_calls := s.solver_calls ++ [c1] } ∧
      (ParameterTune_residual ext tline_type param_index result_index target_value x context
        s).1
        = match (tline_type.m_simulate c1).outcome with
          | .error e => .error e
          | .ok c2 =>
            match c2.m_results[result_index]? with
            | some result => .ok (result - target_value, c2)
            | none => .error (.undefined_behaviour "m_results[result_index]") := by
  obtain ⟨⟨key, old⟩, hget⟩ : ∃ kv, context.m_parameters[param_index]? = some kv :=
    ⟨_, List.getElem?_eq_getElem hindex⟩
  have hset : set_parameter context param_index (.ofFloat (ext.FloatScale x))
      = .ok { context with
              m_parameters := context.m_parameters.set param_index
                (key, .ofFloat (ext.FloatScale x)) } := by
    unfold set_parameter
    rw [hget]
  refine ⟨key, old, _, hget, rfl, ?_, ?_, ?_, rfl, ?_, ?_⟩
  · simp [List.getElem?_set_self, hindex]
  · intro j hj
    simp only
    rw [List.getElem?_set_ne (Ne.symm hj)]
  · simp
  all_goals
    rw [ParameterTune_residual_eq, hset]
    simp only
    cases h3 : (tline_type.m_simulate { context with
        m_parameters := context.m_parameters.set param_index
          (key, .ofFloat (ext.FloatScale x)) }).outcome with
    | error e => rfl
    | ok c2 =>
      simp only
      cases h4 : c2.m_results[result_index]? <;> rfl

theorem ParameterTune_residual_effect_witness :
    (ParameterTune_residual stub_ext stub_type 0 0 2 (3 / 2) stub_context
      (Sim.start (stub_window "1.0") (fun _ => false) (fun _ => true))).1
      = .ok (1, { stub_context with m_parameters := [("Width", .ofFloat 1500)],
                                    m_results := [3] }) := by
  obtain ⟨key, old, c1, h0, h1, -, -, -, -, -, h2⟩ :=
    ParameterTune_residual_effect stub_ext stub_type 0 0 2 (3 / 2) stub_context
      (Sim.start (stub_window "1.0") (fun _ => false) (fun _ => true)) (by decide)
  have hk : key = "Width" ∧ old = .ofFloat 1000 := by
    have : some (key, old) = some ("Width", VData.ofFloat 1000) := by rw [← h0]; rfl
    simpa using this
  obtain ⟨rfl, rfl⟩ := hk
  subst h1
  rw [h2]
  decide!

/-! ## Claims on the trace of the parameter sweep, `SimulationInit` and the end of the sweep -/

/-- C15: in a `SimulateParameterSweep` whose inputs are accepted, that is never
cancelled and in which no solver call fails (every call the run makes returns,
leaves the parameter list in place and fills no more results than one slice of
the buffer holds), the solver is called exactly `N` times, `N` being the number
of sweep values and the maximum given to the progress dialog; the `i`-th call
sees the `i`-th sweep value in the selected parameter; and the progress values
stored are `1, 2, ..., N` in this order, which are non-decreasing and lie
between `0` and `N`. -/
theorem SimulateParameterSweep_calls_and_progress (ext : Externals) (s : Sim)
    (context : TLineContext) (frequency value_min value_max value_step : real_t)
    (hinit : (SimulationInit ext TLineContext.empty s).1 = .ok context)
    (hfreq : FloatFromString ext s.window.m_lineedit_frequency = .ok frequency)
    (hmin : FloatFromString ext s.window.m_lineedit_parameter_sweep_min = .ok value_min)
    (hmax : FloatFromString ext s.window.m_lineedit_parameter_sweep_max = .ok value_max)
    (hstep : FloatFromString ext s.window.m_lineedit_parameter_sweep_step = .ok value_step)
    (hindex : size_t_of_int s.window.m_combobox_parameter_sweep_parameter.currentData
      < s.window.m_tline_type.m_parameters.length)
    (hsolver : ∀ k c,
      (SimulateParameterSweep ext s).2.solver_calls[s.solver_calls.length + k]? = some c →
      ∃ c', (s.window.m_tline_type.m_simulate c).outcome = .ok c' ∧
        c'.m_parameters.length = c.m_parameters.length ∧
        c'.m_results.length ≤ ext.TLINERESULT_COUNT * s.window.m_tline_type.m_modes.length)
    (hcancel : ∀ k, s.task_canceled k = false) :
    (∃ calls : List TLineContext,
      (SimulateParameterSweep ext s).2.solver_calls = s.solver_calls ++ calls ∧
      calls.length = (MakeSweep ext.rintp [] value_min value_max value_step).length ∧
      ∀ i, i < (MakeSweep ext.rintp [] value_min value_max value_step).length →
        ∃ c v key, calls[i]? = some c ∧
          (MakeSweep ext.rintp [] value_min value_max value_step)[i]? = some v ∧
          c.m_parameters[
            size_t_of_int s.window.m_combobox_parameter_sweep_parameter.currentData]?
            = some (key, .ofFloat (ext.FloatScale v))) ∧
    (∃ progress : List ℤ,
      (SimulateParameterSweep ext s).2.task_progress = s.task_progress ++ progress ∧
      progress = (List.range (MakeSweep ext.rintp [] value_min value_max value_step).length).map
        (fun (i : Nat) => (i : ℤ) + 1) ∧
      progress.Pairwise (fun a b => a ≤ b) ∧
      ∀ p ∈ progress, 0 ≤ p ∧
        p ≤ ((MakeSweep ext.rintp [] value_min value_max value_step).length : ℤ)) := by
  obtain ⟨hlogc, hlogp⟩ := SimulateParameterSweep_log ext s context frequency value_min
    value_max value_step hinit hfreq hmin hmax hstep
  have hplen := SimulationInit_length ext s context hinit
  rw [hlogc] at hsolver ⊢
  rw [hlogp]
  obtain ⟨context', combined, hok⟩ := ParameterSweep_loop_completes ext s.window.m_tline_type
    (MakeSweep ext.rintp [] value_min value_max value_step)
    (size_t_of_int s.window.m_combobox_parameter_sweep_parameter.currentData)
    (MakeSweep ext.rintp [] value_min value_max value_step).length 0
    { context with m_frequencies := [frequency * 1000000000] }
    (vector_resize [] (ext.TLINERESULT_COUNT * s.window.m_tline_type.m_modes.length
      * (MakeSweep ext.rintp [] value_min value_max value_step).length))
    s hsolver hcancel (by rw [← hplen] at hindex; exact hindex) (by omega)
    (by simp [vector_resize])
  have hok' : (ParameterSweep_task ext s.window.m_tline_type
      (MakeSweep ext.rintp [] value_min value_max value_step)
      (size_t_of_int s.window.m_combobox_parameter_sweep_parameter.currentData)
      { context with m_frequencies := [frequency * 1000000000] }
      (vector_resize [] (ext.TLINERESULT_COUNT * s.window.m_tline_type.m_modes.length
        * (MakeSweep ext.rintp [] value_min value_max value_step).length)) s).1
      = .ok (context', combined) := hok
  obtain ⟨⟨calls, hcalls, hcl, htrace⟩, hprog⟩ := ParameterSweep_task_trace ext _ _ _ _ _ s
    context' combined hok'
  refine ⟨⟨calls, hcalls, hcl, htrace⟩, ⟨_, hprog, rfl, ?_, ?_⟩⟩
  · rw [List.pairwise_map]
    refine List.Pairwise.imp ?_ (List.pairwise_lt_range _)
    intro a b hab
    omega
  · intro p hp
    simp only [List.mem_map, List.mem_range] at hp
    obtain ⟨j, hj, rfl⟩ := hp
    constructor <;> omega

theorem SimulateParameterSweep_calls_and_progress_witness :
    (SimulateParameterSweep stub_ext
      (Sim.start coarse_window (fun _ => false) (fun _ => true))).2.task_progress
      = [1, 2] := by
  have htrace : (SimulateParameterSweep stub_ext
      (Sim.start coarse_window (fun _ => false) (fun _ => true))).2.solver_calls
      = [{ TLineContext.empty with
            m_material_database := some { conductors := [], dielectrics := [] },
            m_parameters := [("Width", .ofFloat 1000)], m_frequencies := [1000000000] },
         { TLineContext.empty with
            m_material_database := some { conductors := [], dielectrics := [] },
            m_parameters := [("Width", .ofFloat 2000)], m_frequencies := [1000000000],
            m_results := [2] }] := by decide!
  obtain ⟨progress, h1, h2, -⟩ := (SimulateParameterSweep_calls_and_progress stub_ext
    (Sim.start coarse_window (fun _ => false) (fun _ => true))
    { TLineContext.empty with
      m_material_database := some { conductors := [], dielectrics := [] },
      m_parameters := [("Width", .ofFloat 1000)] }
    1 1 2 1
    (by decide!) (by decide!) (by decide!) (by decide!) (by decide!) (by decide!)
    (by
      intro k c hk
      rw [htrace] at hk
      match k, hk with
      | 0, hk =>
        simp only [Sim.start, List.length_nil, Nat.add_zero, List.getElem?_cons_zero,
          Option.some.injEq] at hk
        subst hk
        exact ⟨_, rfl, rfl, by decide⟩
      | 1, hk =>
        simp only [Sim.start, List.length_nil, Nat.zero_add, List.getElem?_cons_succ,
          List.getElem?_cons_zero, Option.some.injEq] at hk
        subst hk
        exact ⟨_, rfl, rfl, by decide⟩
      | k + 2, hk => simp [Sim.start] at hk)
    (fun _ => rfl)).2
  rw [h1, h2]
  have hlen : (MakeSweep stub_ext.rintp [] 1 2 1).length = 2 := by decide!
  rw [hlen]
  rfl

/-- C16 as stated fails: with the unit button on "mil" and "10" in the input
field of a real parameter, the value of the entry is what is parsed from
"393.701", the text of `10 * 39.37008`, not what is parsed from the text "10"
of the field. -/
theorem SimulationInit_converts_mil :
    (SimulationInit mil_ext TLineContext.empty
        (Sim.start (mil_window "10") (fun _ => false) (fun _ => true))).1
      = .ok { TLineContext.empty with
              m_material_database := some { conductors := [], dielectrics := [] },
              m_parameters := [("Width", .ofFloat 393701)] } ∧
    mil_ext.Json_FromString "10" = .ok (.ofInt 10) ∧
    (mil_window "10").m_widget_parameters
      = [.CustomLineEdit { lineEdit := "10", button := some { text := "mil", checked := true },
                           originalText := "1.0" }] := by
  decide!

/-- C16, amended: when the widgets are those of the parameters (a check box for
a boolean, a combo box for a material, an input field with its unit button for
a real parameter) and the text every input field hands over can be parsed,
`SimulationInit` on a fresh context succeeds with exactly one entry per
parameter definition of the line type, in the declared order: the key of entry
`i` is the canonical name of parameter `i`, and its value is the Bool state of
the check box for a boolean parameter, the String text of the combo box for a
conductor or dielectric parameter, and for a real parameter what
`Json::FromString` parses from the text of the input field while the unit
button is unchecked ("mm"), and from the text `QString::number` gives for the
number of the field times 39.37008 while it is checked ("mil"). -/
theorem SimulationInit_entries (ext : Externals) (s : Sim)
    (hbool : ∀ (i : Nat) (p : TLineParameter), s.window.m_tline_type.m_parameters[i]? = some p →
      p.m_type = .TLINE_PARAMETERTYPE_BOOL →
      ∃ isChecked, s.window.m_widget_parameters[i]? = some (.QCheckBox isChecked))
    (hmaterial : ∀ (i : Nat) (p : TLineParameter),
      s.window.m_tline_type.m_parameters[i]? = some p →
      p.m_type = .TLINE_PARAMETERTYPE_MATERIAL_CONDUCTOR ∨
        p.m_type = .TLINE_PARAMETERTYPE_MATERIAL_DIELECTRIC →
      ∃ currentText, s.window.m_widget_parameters[i]? = some (.QComboBox currentText))
    (hreal : ∀ (i : Nat) (p : TLineParameter), s.window.m_tline_type.m_parameters[i]? = some p →
      p.m_type = .TLINE_PARAMETERTYPE_REAL →
      ∃ (lineedit_value : CustomLineEdit) (button : QPushButton) (text : String) (v : VData),
        s.window.m_widget_parameters[i]? = some (.CustomLineEdit lineedit_value) ∧
        lineedit_value.button = some button ∧
        lineedit_value.GetText ext = .ok text ∧ ext.Json_FromString text = .ok v) :
    ∃ context, (SimulationInit ext TLineContext.empty s).1 = .ok context ∧
      context.m_parameters.length = s.window.m_tline_type.m_parameters.length ∧
      ∀ (i : Nat) (p : TLineParameter), s.window.m_tline_type.m_parameters[i]? = some p →
        ∃ v : VData, context.m_parameters[i]? = some (ext.CanonicalName p.m_name, v) ∧
          (p.m_type = .TLINE_PARAMETERTYPE_BOOL →
            ∃ isChecked, s.window.m_widget_parameters[i]? = some (.QCheckBox isChecked) ∧
              v = .ofBool isChecked) ∧
          (p.m_type = .TLINE_PARAMETERTYPE_MATERIAL_CONDUCTOR ∨
              p.m_type = .TLINE_PARAMETERTYPE_MATERIAL_DIELECTRIC →
            ∃ currentText, s.window.m_widget_parameters[i]? = some (.QComboBox currentText) ∧
              v = .ofString currentText) ∧
          (p.m_type = .TLINE_PARAMETERTYPE_REAL →
            ∃ (lineedit_value : CustomLineEdit) (button : QPushButton),
              s.window.m_widget_parameters[i]? = some (.CustomLineEdit lineedit_value) ∧
              lineedit_value.button = some button ∧
              (button.checked = false →
                ext.Json_FromString lineedit_value.lineEdit = .ok v) ∧
              (button.checked = true →
                ext.Json_FromString (ext.QString_number
                  (ext.QString_toDouble lineedit_value.lineEdit * (3937008 / 100000)))
                  = .ok v)) := by
  have hvalues : ∀ i p, s.window.m_tline_type.m_parameters[i]? = some p →
      ∃ v, SimulationInit_value ext s.window i p = .ok v := by
    intro i p hp
    unfold SimulationInit_value
    cases ht : p.m_type with
    | TLINE_PARAMETERTYPE_BOOL =>
      obtain ⟨b, hb⟩ := hbool i p hp ht
      simp only [hb]
      exact ⟨_, rfl⟩
    | TLINE_PARAMETERTYPE_REAL =>
      obtain ⟨l, b, text, v, hl, -, hg, hj⟩ := hreal i p hp ht
      simp only [hl, hg, hj]
      exact ⟨_, rfl⟩
    | TLINE_PARAMETERTYPE_MATERIAL_CONDUCTOR =>
      obtain ⟨t, hc⟩ := hmaterial i p hp (Or.inl ht)
      simp only [hc]
      exact ⟨_, rfl⟩
    | TLINE_PARAMETERTYPE_MATERIAL_DIELECTRIC =>
      obtain ⟨t, hc⟩ := hmaterial i p hp (Or.inr ht)
      simp only [hc]
      exact ⟨_, rfl⟩
  have hunfold : SimulationInit ext TLineContext.empty s
      = forLoop (SimulationInit_body ext s.window) s.window.m_tline_type.m_parameters.length 0
          { TLineContext.empty with
            m_material_database := some s.window.m_material_database } s := rfl
  obtain ⟨context, hok, -, hlen, -, hnew⟩ := SimulationInit_loop_entries ext s.window
    s.window.m_tline_type.m_parameters.length 0
    { TLineContext.empty with m_material_database := some s.window.m_material_database } s
    (by omega) hvalues
  refine ⟨context, by rw [hunfold]; exact hok, by simpa [TLineContext.empty] using hlen, ?_⟩
  intro i p hp
  have hi : i < s.window.m_tline_type.m_parameters.length := by
    by_contra hge
    rw [List.getElem?_eq_none (by omega)] at hp
    cases hp
  obtain ⟨v, hentry, hv⟩ := hnew i p hi (by rw [Nat.zero_add]; exact hp)
  rw [Nat.zero_add] at hv
  obtain ⟨h1, h2, h3⟩ := SimulationInit_value_kind ext s.window i p v hv
  refine ⟨v, by simpa [TLineContext.empty] using hentry, h1, h2, ?_⟩
  intro ht
  obtain ⟨l, text, hl, hg, hj⟩ := h3 ht
  obtain ⟨l', b, -, -, hl', hb, -, -⟩ := hreal i p hp ht
  rw [hl] at hl'
  cases hl'
  refine ⟨l, b, hl, hb, ?_, ?_⟩
  · intro hc
    have : l.GetText ext = .ok l.lineEdit := by
      unfold CustomLineEdit.GetText CustomLineEdit.GetMMValue
      simp only [hb, hc]
      rfl
    rw [this] at hg
    cases hg
    exact hj
  · intro hc
    have : l.GetText ext = .ok (ext.QString_number
        (ext.QString_toDouble l.lineEdit * (3937008 / 100000))) := by
      unfold CustomLineEdit.GetText CustomLineEdit.GetMMValue
      simp only [hb, hc]
      rfl
    rw [this] at hg
    cases hg
    exact hj

theorem SimulationInit_entries_witness :
    ∃ context, (SimulationInit stub_ext TLineContext.empty
        (Sim.start mixed_window (fun _ => false) (fun _ => true))).1 = .ok context ∧
      context.m_parameters
        = [("Solder Mask", .ofBool true), ("Width", .ofFloat 2000),
           ("Track Material", .ofString "Copper")] := by
  obtain ⟨context, hok, -, -⟩ := SimulationInit_entries stub_ext
    (Sim.start mixed_window (fun _ => false) (fun _ => true))
    (by
      intro i p hp ht
      have hp' : mixed_type.m_parameters[i]? = some p := hp
      match i, hp' with
      | 0, h => exact ⟨true, rfl⟩
      | 1, h => cases h; cases ht
      | 2, h => cases h; cases ht
      | n + 3, h => cases h)
    (by
      intro i p hp ht
      have hp' : mixed_type.m_parameters[i]? = some p := hp
      match i, hp' with
      | 0, h => cases h; rcases ht with ht | ht <;> cases ht
      | 1, h => cases h; rcases ht with ht | ht <;> cases ht
      | 2, h => exact ⟨"Copper", rfl⟩
      | n + 3, h => cases h)
    (by
      intro i p hp ht
      have hp' : mixed_type.m_parameters[i]? = some p := hp
      match i, hp' with
      | 0, h => cases h; cases ht
      | 1, h => exact ⟨_, _, "2.0", .ofFloat 2000, rfl, rfl, rfl, by decide!⟩
      | 2, h => cases h; cases ht
      | n + 3, h => cases h)
  refine ⟨context, hok, ?_⟩
  have hrun : (SimulationInit stub_ext TLineContext.empty
      (Sim.start mixed_window (fun _ => false) (fun _ => true))).1
      = .ok { TLineContext.empty with
          m_material_database := some { conductors := [], dielectrics := [] },
          m_parameters := [("Solder Mask", .ofBool true), ("Width", .ofFloat 2000),
            ("Track Material", .ofString "Copper")] } := by decide!
  rw [hrun] at hok
  cases hok
  rfl

/-- C17 fails on the code: the sweep from 0 to 16384 in steps of 1 has 16384
values and ends with 16383, one step short of `max`: one further step,
`min + step * count = 16384`, reaches `max` and does not pass it. Likewise the
sweep from 0 to 2 in steps of 0.0001 (the `double` nearest to it) has 20000
values and ends with the `double` nearest to 1.9999, while one further step
gives `2`, the value of `max`, in the arithmetic of `double`. -/
theorem MakeSweep_stops_short :
    (MakeSweep_double rint_even [] 0 16384 1).length = 16384 ∧
    (MakeSweep_double rint_even [] 0 16384 1)[16383]? = some 16383 ∧
    ¬ ((0 : real_t) + 1 * ((MakeSweep_double rint_even [] 0 16384 1).length : real_t) > 16384) ∧
    double_round (0 + double_round (1 * double_round ((16384 : Nat) : real_t))) = 16384 ∧
    (MakeSweep_double rint_even [] 0 2 (double_round (1 / 10000))).length = 20000 ∧
    (MakeSweep_double rint_even [] 0 2 (double_round (1 / 10000)))[19999]?
      = some (9006748894778255 / 4503599627370496) ∧
    double_round (0 + double_round (double_round (1 / 10000)
      * double_round ((20000 : Nat) : real_t))) = 2 := by
  have hlen : (MakeSweep_double rint_even [] 0 16384 1).length = 16384 := by
    rw [MakeSweep_double_length, MakeSweep_num_double_16384]
  have e1 : double_round ((16383 : Nat) : real_t) = 16383 :=
    double_round_of_binade _ _ 13 (by decide!)
  have e2 : double_round ((1 : real_t) * 16383) = 16383 :=
    double_round_of_binade _ _ 13 (by decide!)
  have e3 : double_round ((0 : real_t) + 16383) = 16383 :=
    double_round_of_binade _ _ 13 (by decide!)
  have f1 : double_round ((16384 : Nat) : real_t) = 16384 :=
    double_round_of_binade _ _ 14 (by decide!)
  have f2 : double_round ((1 : real_t) * 16384) = 16384 :=
    double_round_of_binade _ _ 14 (by decide!)
  have f3 : double_round ((0 : real_t) + 16384) = 16384 :=
    double_round_of_binade _ _ 14 (by decide!)
  have hd : double_round (1 / 10000) = 7378697629483821 / 73786976294838206464 :=
    double_round_of_binade _ _ (-14) (by decide!)
  have g1 : double_round ((19999 : Nat) : real_t) = 19999 :=
    double_round_of_binade _ _ 14 (by decide!)
  have g2 : double_round ((7378697629483821 / 73786976294838206464 : real_t) * 19999)
      = 9006748894778255 / 4503599627370496 :=
    double_round_of_binade _ _ 0 (by decide!)
  have g3 : double_round ((0 : real_t) + 9006748894778255 / 4503599627370496)
      = 9006748894778255 / 4503599627370496 :=
    double_round_of_binade _ _ 0 (by decide!)
  have k1 : double_round ((20000 : Nat) : real_t) = 20000 :=
    double_round_of_binade _ _ 14 (by decide!)
  have k2 : double_round ((7378697629483821 / 73786976294838206464 : real_t) * 20000) = 2 :=
    double_round_of_binade _ _ 1 (by decide!)
  have k3 : double_round ((0 : real_t) + 2) = 2 :=
    double_round_of_binade _ _ 1 (by decide!)
  refine ⟨hlen, ?_, ?_, ?_, ?_, ?_, ?_⟩
  · rw [MakeSweep_double_getElem? rint_even [] 0 16384 1 16383
      (by rw [MakeSweep_num_double_16384]; decide), e1, e2, e3]
  · rw [hlen]
    norm_num
  · rw [f1, f2, f3]
  · rw [hd, MakeSweep_double_length, MakeSweep_num_double_20000]
  · rw [hd, MakeSweep_double_getElem? rint_even [] 0 2 _ 19999
      (by rw [MakeSweep_num_double_20000]; decide), g1, g2, g3]
  · rw [hd, k1, k2, k3]

/-! ## Claims on `CustomLineEdit` and the tolerance of the tuning -/

/-- C18 fails on the code: a `CustomLineEdit` constructed without unit button
has no `button`, and `GetText` reads `button->isChecked()` all the same, which
is undefined; so `SimulationInit`, and with it a single-frequency run, ends
there on a window whose real parameter has no unit, before any solver call. -/
theorem GetText_without_button (ext : Externals) (text : String) :
    (CustomLineEdit.new false).button = none ∧
    ((CustomLineEdit.new false).SetText text).GetText ext
      = .error (.undefined_behaviour "CustomLineEdit::button") ∧
    (SimulationInit stub_ext TLineContext.empty
      (Sim.start unitless_window (fun _ => false) (fun _ => true))).1
      = .error (.undefined_behaviour "CustomLineEdit::button") ∧
    (SimulateSingleFrequency stub_ext
      (Sim.start unitless_window (fun _ => false) (fun _ => true))).1
      = .error (.undefined_behaviour "CustomLineEdit::button") ∧
    (SimulateSingleFrequency stub_ext
      (Sim.start unitless_window (fun _ => false) (fun _ => true))).2.solver_calls = [] :=
  ⟨rfl, rfl, by decide!, by decide!, by decide!⟩

/-- C19 fails on the code: the two factors multiply to `1.000000032`, not to
`1`, and the value goes through `QString::number` twice. With the text
"1.234567" in the field, `GetText` returns "1.234567" while the unit is "mm";
once the button is toggled to "mil" the field shows "0.031358" and `GetText`
returns "1.23457". Whatever the text, the value returned after the toggle is
the text of `toDouble (number (toDouble text * 0.0254)) * 39.37008`. -/
theorem GetText_after_unit_toggle :
    ((254 / 10000 : real_t) * (3937008 / 100000) = 1000000032 / 1000000000) ∧
    ((254 / 10000 : real_t) * (3937008 / 100000) ≠ 1) ∧
    ((CustomLineEdit.new true).SetText "1.234567").GetText unit_ext = .ok "1.234567" ∧
    (((CustomLineEdit.new true).SetText "1.234567").button_toggled unit_ext true).map
        (fun w => (w.lineEdit, w.button))
      = .ok ("0.031358", some { text := "mil", checked := true }) ∧
    (((CustomLineEdit.new true).SetText "1.234567").button_toggled unit_ext true).bind
        (CustomLineEdit.GetText unit_ext)
      = .ok "1.23457" ∧
    (∀ (ext : Externals) (text : String),
      (((CustomLineEdit.new true).SetText text).button_toggled ext true).bind
          (CustomLineEdit.GetText ext)
        = .ok (ext.QString_number (ext.QString_toDouble
            (ext.QString_number (ext.QString_toDouble text * (254 / 10000)))
              * (3937008 / 100000)))) :=
  ⟨by norm_num, by norm_num, by decide!, by decide!, by decide!, fun _ _ => rfl⟩

/-- C20: in a `SimulateParameterTune` whose inputs are accepted, the root
finder is called with the relative step `1e-8`, the absolute tolerance
`target_value * 1e-8` and the iteration cap `1e6`. That tolerance is positive
exactly when the target value is, so for a target value `≤ 0` no residual `r`
has `|r|` below the tolerance. -/
theorem SimulateParameterTune_tolerance (ext : Externals) (s : Sim) (context : TLineContext)
    (frequency target_value : real_t) (key : String) (value : VData) (x x0 : real_t)
    (hinit : (SimulationInit ext TLineContext.empty s).1 = .ok context)
    (hfreq : FloatFromString ext s.window.m_lineedit_frequency = .ok frequency)
    (htarget : FloatFromString ext s.window.m_lineedit_parameter_tune_target_value
      = .ok target_value)
    (hparam : context.m_parameters[
      size_t_of_int s.window.m_combobox_parameter_tune_parameter.currentData]?
      = some (key, value))
    (hvalue : FloatFromVData ext value = .ok x)
    (hseed : (ext.FinitePositive x = true ∧ x0 = x) ∨
      (ext.FinitePositive x = false ∧ ∃ parameter : TLineParameter,
        s.window.m_tline_type.m_parameters[
          size_t_of_int s.window.m_combobox_parameter_tune_parameter.currentData]?
          = some parameter ∧
        FloatFromVData ext parameter.m_default_value = .ok x0)) :
    SimulateParameterTune ext s
      = Run.bind
          (RootSearch.run
            (ParameterTune_residual ext s.window.m_tline_type
              (size_t_of_int s.window.m_combobox_parameter_tune_parameter.currentData)
              (ext.clamp (size_t_of_int s.window.m_combobox_parameter_tune_target_result) 0
                (size_t_of_int
                  ((ext.TLINERESULT_COUNT * s.window.m_tline_type.m_modes.length : Nat) - 1)))
              target_value)
            (ext.FindRootRelative x0 (1 / 100000000) (target_value * (1 / 100000000)) 1000000)
            { context with m_frequencies := [frequency * 1000000000] })
          (ParameterTune_write_back ext s.window
            (size_t_of_int s.window.m_combobox_parameter_tune_parameter.currentData))
          s ∧
    ((0 : real_t) < target_value * (1 / 100000000) ↔ 0 < target_value) ∧
    (target_value ≤ 0 → ∀ r : real_t, ¬ |r| < target_value * (1 / 100000000)) := by
  refine ⟨?_, ?_, ?_⟩
  · rw [SimulateParameterTune_run ext s context frequency target_value key value x x0
      hinit hfreq htarget hparam hvalue hseed]
    rfl
  · constructor
    · intro h
      by_contra hn
      have : target_value * (1 / 100000000) ≤ 0 :=
        mul_nonpos_of_nonpos_of_nonneg (not_lt.mp hn) (by norm_num)
      exact absurd h (not_lt.mpr this)
    · intro h
      exact mul_pos h (by norm_num)
  · intro hle r hr
    have h1 : target_value * (1 / 100000000) ≤ 0 :=
      mul_nonpos_of_nonpos_of_nonneg hle (by norm_num)
    exact absurd (lt_of_le_of_lt (abs_nonneg r) hr) (not_lt.mpr h1)

theorem SimulateParameterTune_tolerance_witness :
    ((0 : real_t) < 2 * (1 / 100000000) ↔ (0 : real_t) < 2) ∧
    ((2 : real_t) ≤ 0 → ∀ r : real_t, ¬ |r| < 2 * (1 / 100000000)) :=
  (SimulateParameterTune_tolerance stub_ext
    (Sim.start (stub_window "1.0") (fun _ => false) (fun _ => true))
    { TLineContext.empty with
      m_material_database := some { conductors := [], dielectrics := [] },
      m_parameters := [("Width", .ofFloat 1000)] }
    1 2 "Width" (.ofFloat 1000) 1 1
    (by decide!) (by decide!) (by decide!) (by decide!) (by decide!)
    (Or.inl ⟨by decide!, rfl⟩)).2

end TLineSim
